import Mathlib

/-!
Gidinet DNS client: XML extraction, result decoding and JSON rendering.

A shallow embedding of `main.c`.  C strings are lists of byte values
(`List Nat`, every element meant to lie in `1..255`), a possibly-NULL
`char *` is an `Option (List Nat)`, pointers into a buffer are offsets into
the list, and everything written to standard output is returned as the list
of bytes written.
-/

namespace Gidinet

set_option maxRecDepth 100000

/-! ## Strings and the C library -/

/-- Bytes of an ASCII string literal of the source. -/
def cstr (s : String) : List Nat := s.data.map Char.toNat

/-- C library `strstr(hay, needle)`: the offset of the first occurrence of
`needle` in `hay`, `none` for a NULL result. -/
def strstr : List Nat → List Nat → Option Nat
  | [], needle => if needle.isPrefixOf [] then some 0 else none
  | c :: cs, needle =>
    if needle.isPrefixOf (c :: cs) then some 0
    else (strstr cs needle).map (· + 1)

/-- C library `isspace` in the C locale. -/
def isspace (c : Nat) : Bool := c == 32 || (9 ≤ c && c ≤ 13)

/-- C library `isdigit`. -/
def isdigit (c : Nat) : Bool := 48 ≤ c && c ≤ 57

/-- Leading white space skipped by `strtol`. -/
def skip_space : List Nat → List Nat
  | [] => []
  | c :: cs => if isspace c then skip_space cs else c :: cs

/-- The digit run read by `strtol` in base 10, accumulated on `acc`. -/
def parse_digits : List Nat → Nat → Nat
  | [], acc => acc
  | c :: cs, acc => if isdigit c then parse_digits cs (acc * 10 + (c - 48)) else acc

/-- Saturation of `strtol` to the range of a 64-bit `long`. -/
def clamp_long (x : Int) : Int :=
  if x < -9223372036854775808 then -9223372036854775808
  else if 9223372036854775807 < x then 9223372036854775807
  else x

/-- Conversion of a `long` to a 32-bit `int` (two's complement wrap). -/
def to_int32 (x : Int) : Int := (x + 2147483648) % 4294967296 - 2147483648

/-- C library `strtol(s, NULL, 10)`: white space, an optional sign, a digit run;
0 when there is no digit. -/
def strtol10 (s : List Nat) : Int :=
  match skip_space s with
  | 45 :: rest => clamp_long (-(parse_digits rest 0 : Int))
  | 43 :: rest => clamp_long (parse_digits rest 0)
  | rest => clamp_long (parse_digits rest 0)

/-- C library `atoi(s)`, which is `(int) strtol(s, NULL, 10)`. -/
def atoi (s : List Nat) : Int := to_int32 (strtol10 s)

/-- Decimal digits of `n`, most significant first, pushed in front of `acc`. -/
def digits_aux : Nat → Nat → List Nat → List Nat
  | 0, _, acc => acc
  | fuel + 1, n, acc =>
    if n < 10 then (48 + n) :: acc
    else digits_aux fuel (n / 10) ((48 + n % 10) :: acc)

/-- The text `printf("%u", n)` writes. -/
def fmt_u (n : Nat) : List Nat := digits_aux (n + 1) n []

/-- The text `printf("%d", n)` writes. -/
def fmt_d (n : Int) : List Nat :=
  if n < 0 then 45 :: fmt_u (-n).toNat else fmt_u n.toNat

/-- One lower-case hexadecimal digit. -/
def hex_digit (d : Nat) : Nat := if d < 10 then 48 + d else 87 + d

/-- The text `printf("%04x", n)` writes for `n < 65536`. -/
def fmt_04x (n : Nat) : List Nat :=
  [hex_digit (n / 4096 % 16), hex_digit (n / 256 % 16), hex_digit (n / 16 % 16), hex_digit (n % 16)]

/-- Value of a byte read through a `char` lvalue: negative for bytes from
0x80 on when plain `char` is signed. -/
def char_value (char_signed : Bool) (b : Nat) : Int :=
  if char_signed && 128 ≤ b then (b : Int) - 256 else b

/-! ## The program -/

/-- Translation of result codes to human-readable messages (`main.c` 16-27). -/
def get_result_code_message (result_code : Int) : Option (List Nat) :=
  if result_code = 0 then some (cstr "Operation successful")
  else if result_code = 1 then some (cstr "Authentication failed")
  else if result_code = 2 then some (cstr "Operation failed - cannot modify read-only value")
  else if result_code = 3 then some (cstr "Operation failed - invalid parameters")
  else if result_code = 4 then some (cstr "Operation failed - undefined error")
  else if result_code = 5 then some (cstr "Operation failed - object not found")
  else if result_code = 6 then some (cstr "Operation failed - object in use")
  else some (cstr "Unknown result code")

/-- The tag buffer `snprintf(buf, 256, fmt, tag)` leaves: at most 255 bytes. -/
def snprintf256 (s : List Nat) : List Nat := s.take 255

/-- Text between `<tag>` and `</tag>` (`main.c` 66-85).  `malloc` is taken to
succeed. -/
def extract_xml_value (xml tag : List Nat) : Option (List Nat) :=
  let open_tag := snprintf256 (cstr "<" ++ tag ++ cstr ">")
  let close_tag := snprintf256 (cstr "</" ++ tag ++ cstr ">")
  match strstr xml open_tag with
  | none => none
  | some start0 =>
    let start := start0 + open_tag.length
    match strstr (xml.drop start) close_tag with
    | none => none
    | some len => some ((xml.drop start).take len)

/-- What `print_json_string` writes for one byte (`main.c` 93-122). -/
def json_escape_byte (char_signed : Bool) (b : Nat) : List Nat :=
  if b = 34 then cstr "\\\""
  else if b = 92 then cstr "\\\\"
  else if b = 8 then cstr "\\b"
  else if b = 12 then cstr "\\f"
  else if b = 10 then cstr "\\n"
  else if b = 13 then cstr "\\r"
  else if b = 9 then cstr "\\t"
  else if char_value char_signed b < 32 then cstr "\\u" ++ fmt_04x (b % 256)
  else [b]

/-- The `for` loop of `print_json_string` over the bytes of the string. -/
def json_escape (char_signed : Bool) : List Nat → List Nat
  | [] => []
  | b :: bs => json_escape_byte char_signed b ++ json_escape char_signed bs

/-- JSON string escaping (`main.c` 88-125); nothing is written for NULL. -/
def print_json_string (char_signed : Bool) (str : Option (List Nat)) : List Nat :=
  match str with
  | none => []
  | some s => cstr "\"" ++ json_escape char_signed s ++ cstr "\""

/-- The result code read by both decoders (`main.c` 134-139, 277-282): -1
unless `<resultCode>` occurs, else `atoi` of what follows it. -/
def parse_result_code (response_data : List Nat) : Int :=
  match strstr response_data (cstr "<resultCode>") with
  | none => -1
  | some result_start => atoi (response_data.drop (result_start + 12))

/-- The sub-code read by both decoders (`main.c` 141-146, 285-290): 0 unless
`<resultSubCode>` occurs, else `atoi` of what follows it. -/
def parse_result_subcode (response_data : List Nat) : Int :=
  match strstr response_data (cstr "<resultSubCode>") with
  | none => 0
  | some subcode_start => atoi (response_data.drop (subcode_start + 15))

/-- The result text of the simple decoder (`main.c` 293-304).  Both tags are
searched from the start of the body.  `int text_len = text_end - text_start`
keeps the low 32 bits of the pointer difference as a signed number.  The outer
`none` stands for undefined behaviour: `text_len + 1` overflows for
`text_len = INT_MAX`, and for `text_len = -1` the call `malloc(0)` is followed
by `strncpy` with the count `(size_t)-1`.  The inner `none` is a NULL
`result_text`: `malloc(text_len + 1)` of a negative `text_len + 1` (a size of
2^64 - k) returns NULL.  Otherwise `malloc` is taken to succeed, and `strncpy`
copies `text_len` bytes or as many as the body has left. -/
def simple_result_text (response_data : List Nat) : Option (Option (List Nat)) :=
  match strstr response_data (cstr "<resultText>"), strstr response_data (cstr "</resultText>") with
  | some text_start, some text_end =>
    let text_len : Int := to_int32 ((text_end : Int) - ((text_start : Int) + 12))
    if text_len = 2147483647 then none
    else if text_len + 1 < 0 then some none
    else if text_len + 1 = 0 then none
    else some (some ((response_data.drop (text_start + 12)).take text_len.toNat))
  | _, _ => some none

/-- The `"result"` object both decoders print (`main.c` 152-162, 308-317). -/
def print_result_object (char_signed : Bool) (result_code result_subcode : Int)
    (result_text : Option (List Nat)) : List Nat :=
  cstr "\"result\":\x7b" ++
  cstr "\"code\":" ++ fmt_d result_code ++ cstr "," ++
  cstr "\"message\":" ++
  print_json_string char_signed (get_result_code_message result_code) ++
  cstr ",\"subCode\":" ++ fmt_d result_subcode ++
  (match result_text with
   | some t => cstr ",\"text\":" ++ print_json_string char_signed (some t)
   | none => []) ++
  cstr "\x7d"

/-- Output of `parse_and_display_simple_result` (`main.c` 270-321); `none` when
the extraction of the result text, which comes before the first `printf`, has
undefined behaviour. -/
def parse_and_display_simple_result (char_signed : Bool)
    (response_data : Option (List Nat)) : Option (List Nat) :=
  match response_data with
  | none => some (cstr "\x7b\"error\":\"No response data to parse\"\x7d\n")
  | some body =>
    let result_code := parse_result_code body
    let result_subcode := parse_result_subcode body
    match simple_result_text body with
    | none => none
    | some result_text =>
      some (cstr "\x7b" ++
        print_result_object char_signed result_code result_subcode result_text ++
        cstr "\x7d\n")

/-- The conditional expression `strcmp(s, "true") == 0 ? "true" : "false"`. -/
def bool_text (s : List Nat) : List Nat :=
  if s = cstr "true" then cstr "true" else cstr "false"

/-- One record object printed from the copied block `record_xml`
(`main.c` 195-239). -/
def print_record (char_signed : Bool) (record_xml : List Nat) : List Nat :=
  let domain := extract_xml_value record_xml (cstr "DomainName")
  let host := extract_xml_value record_xml (cstr "HostName")
  let type := extract_xml_value record_xml (cstr "RecordType")
  let data := extract_xml_value record_xml (cstr "Data")
  let ttl_str := extract_xml_value record_xml (cstr "TTL")
  let priority_str := extract_xml_value record_xml (cstr "Priority")
  let readonly_str := extract_xml_value record_xml (cstr "ReadOnly")
  let suspended_str := extract_xml_value record_xml (cstr "Suspended")
  let suspension_reason := extract_xml_value record_xml (cstr "SuspensionReason")
  cstr "\x7b" ++
  (match domain with
   | some v => cstr "\"domain\":" ++ print_json_string char_signed (some v) ++ cstr ","
   | none => []) ++
  (match host with
   | some v => cstr "\"host\":" ++ print_json_string char_signed (some v) ++ cstr ","
   | none => []) ++
  (match type with
   | some v => cstr "\"type\":" ++ print_json_string char_signed (some v) ++ cstr ","
   | none => []) ++
  (match data with
   | some v => cstr "\"data\":" ++ print_json_string char_signed (some v) ++ cstr ","
   | none => []) ++
  (match ttl_str with
   | some v => cstr "\"ttl\":" ++ v ++ cstr ","
   | none => []) ++
  (match priority_str with
   | some v => cstr "\"priority\":" ++ v ++ cstr ","
   | none => []) ++
  (match readonly_str with
   | some v => cstr "\"readOnly\":" ++ bool_text v ++ cstr ","
   | none => []) ++
  (match suspended_str with
   | some v => cstr "\"suspended\":" ++ bool_text v
   | none => []) ++
  (match suspension_reason with
   | some v =>
     if v.length > 0 then cstr ",\"suspensionReason\":" ++ print_json_string char_signed (some v)
     else []
   | none => []) ++
  cstr "\x7d"

/-- The `while (current < items_end)` loop over the record blocks
(`main.c` 179-254), with `current`, `items_end`, `record_start` and
`record_end` as offsets into `response_data`.  Every iteration that continues
moves `current` forward, so `fuel` bounds the number of iterations. -/
def record_loop (char_signed : Bool) (response_data : List Nat) (items_end : Nat) :
    Nat → Nat → Bool → List Nat
  | 0, _, _ => []
  | fuel + 1, current, first_record =>
    if current < items_end then
      match strstr (response_data.drop current) (cstr "<DNSRecordListItem>") with
      | none => []
      | some off_start =>
        let record_start := current + off_start
        if record_start ≥ items_end then []
        else
          match strstr (response_data.drop record_start) (cstr "</DNSRecordListItem>") with
          | none => []
          | some off_end =>
            let record_end := record_start + off_end
            if record_end ≥ items_end then []
            else
              let record_start := record_start + 19
              let record_len : Int := ((record_end : Int) - (record_start : Int)) % 18446744073709551616
              if record_len < 4096 then
                let record_xml := (response_data.drop record_start).take record_len.toNat
                (if first_record then [] else cstr ",") ++
                print_record char_signed record_xml ++
                record_loop char_signed response_data items_end fuel (record_end + 20) false
              else
                record_loop char_signed response_data items_end fuel (record_end + 20) first_record
    else []

/-- Output of `parse_and_display_list_result` (`main.c` 127-268). -/
def parse_and_display_list_result (char_signed : Bool)
    (response_data : Option (List Nat)) : List Nat :=
  match response_data with
  | none => cstr "\x7b\"error\": \"No response data to parse\"\x7d\n"
  | some body =>
    let result_code := parse_result_code body
    let result_subcode := parse_result_subcode body
    let result_text := extract_xml_value body (cstr "resultText")
    cstr "\x7b" ++ print_result_object char_signed result_code result_subcode result_text ++
    (if result_code = 0 then
      cstr ",\"records\":[" ++
      (match strstr body (cstr "<resultItems>"), strstr body (cstr "</resultItems>") with
       | some items_start, some items_end =>
         record_loop char_signed body items_end (body.length + 1) (items_start + 13) true
       | _, _ => []) ++
      cstr "]" ++
      (match extract_xml_value body (cstr "resultItemCount") with
       | some count_str => cstr ",\"recordCount\":" ++ count_str
       | none => [])
    else []) ++
    cstr "\x7d\n"

/-- The request body `call_record_add` builds with `asprintf`
(`main.c` 468-489). -/
def call_record_add_xml (username passwordB64 domain host type data : List Nat)
    (ttl priority : Int) : List Nat :=
  cstr "<?xml version=\"1.0\" encoding=\"utf-8\"?>\n" ++
  cstr "<soap:Envelope xmlns:xsi=\"http://www.w3.org/2001/XMLSchema-instance\" " ++
  cstr "xmlns:xsd=\"http://www.w3.org/2001/XMLSchema\" " ++
  cstr "xmlns:soap=\"http://schemas.xmlsoap.org/soap/envelope/\">\n" ++
  cstr "<soap:Body>\n" ++
  cstr "<recordAdd xmlns=\"https://api.quickservicebox.com/DNS/DNSAPI\">\n" ++
  cstr "<accountUsername>" ++ username ++ cstr "</accountUsername>\n" ++
  cstr "<accountPasswordB64>" ++ passwordB64 ++ cstr "</accountPasswordB64>\n" ++
  cstr "<record>\n" ++
  cstr "<DomainName>" ++ domain ++ cstr "</DomainName>\n" ++
  cstr "<HostName>" ++ host ++ cstr "</HostName>\n" ++
  cstr "<RecordType>" ++ type ++ cstr "</RecordType>\n" ++
  cstr "<Data>" ++ data ++ cstr "</Data>\n" ++
  cstr "<TTL>" ++ fmt_d ttl ++ cstr "</TTL>\n" ++
  cstr "<Priority>" ++ fmt_d priority ++ cstr "</Priority>\n" ++
  cstr "</record>\n" ++
  cstr "</recordAdd>\n" ++
  cstr "</soap:Body>\n" ++
  cstr "</soap:Envelope>"

/-- The option values `main` collects from the command line
(`main.c` 768-778). -/
structure Options where
  username : Option (List Nat)
  passwordB64 : Option (List Nat)
  domain : Option (List Nat)
  host : Option (List Nat)
  type : Option (List Nat)
  data : Option (List Nat)
  ttl : Int
  priority : Int
  oldDomain : Option (List Nat)
  oldHost : Option (List Nat)
  oldType : Option (List Nat)
  oldData : Option (List Nat)
  oldTTL : Int
  oldPriority : Int
  newDomain : Option (List Nat)
  newHost : Option (List Nat)
  newType : Option (List Nat)
  newData : Option (List Nat)
  newTTL : Int
  newPriority : Int

/-- The initial values of the option variables: NULL and 0. -/
def Options.init : Options :=
  ⟨none, none, none, none, none, none, 0, 0, none, none, none, none, 0, 0,
   none, none, none, none, 0, 0⟩

/-- How `main` ends: it returns a status itself, or it returns what one of the
four request functions returns, called with the arguments shown. -/
inductive Outcome where
  | returns (status : Int)
  | call_record_update (username passwordB64 oldDomain oldHost oldType oldData : List Nat)
      (oldTTL oldPriority : Int) (newDomain newHost newType newData : List Nat)
      (newTTL newPriority : Int)
  | call_record_add (username passwordB64 domain host type data : List Nat)
      (ttl priority : Int)
  | call_record_delete (username passwordB64 domain host type data : List Nat)
      (ttl priority : Int)
  | call_record_list (username passwordB64 domain : List Nat)
  deriving DecidableEq

/-- The option loop of `main` (`main.c` 781-807) over `argv[2..]`: every option
takes the next argument as its value; an unknown option, or an option that is
the last argument, ends `main` with status 1 (`none`). -/
def parse_options : List (List Nat) → Options → Option Options
  | [], o => some o
  | [_], _ => none
  | a :: v :: rest, o =>
    if a = cstr "--username" then parse_options rest { o with username := some v }
    else if a = cstr "--passwordB64" then parse_options rest { o with passwordB64 := some v }
    else if a = cstr "--domain" then parse_options rest { o with domain := some v }
    else if a = cstr "--host" then parse_options rest { o with host := some v }
    else if a = cstr "--type" then parse_options rest { o with type := some v }
    else if a = cstr "--data" then parse_options rest { o with data := some v }
    else if a = cstr "--ttl" then parse_options rest { o with ttl := atoi v }
    else if a = cstr "--priority" then parse_options rest { o with priority := atoi v }
    else if a = cstr "--oldDomain" then parse_options rest { o with oldDomain := some v }
    else if a = cstr "--oldHost" then parse_options rest { o with oldHost := some v }
    else if a = cstr "--oldType" then parse_options rest { o with oldType := some v }
    else if a = cstr "--oldData" then parse_options rest { o with oldData := some v }
    else if a = cstr "--oldTTL" then parse_options rest { o with oldTTL := atoi v }
    else if a = cstr "--oldPriority" then parse_options rest { o with oldPriority := atoi v }
    else if a = cstr "--newDomain" then parse_options rest { o with newDomain := some v }
    else if a = cstr "--newHost" then parse_options rest { o with newHost := some v }
    else if a = cstr "--newType" then parse_options rest { o with newType := some v }
    else if a = cstr "--newData" then parse_options rest { o with newData := some v }
    else if a = cstr "--newTTL" then parse_options rest { o with newTTL := atoi v }
    else if a = cstr "--newPriority" then parse_options rest { o with newPriority := atoi v }
    else none

/-- The validation and dispatch at the end of `main` (`main.c` 810-847). -/
def dispatch (command : List Nat) (o : Options) : Outcome :=
  if command = cstr "update" then
    match o.username, o.passwordB64, o.oldDomain, o.oldHost, o.oldType, o.oldData,
      o.newDomain, o.newHost, o.newType, o.newData with
    | some u, some p, some od, some oh, some ot, some odat, some nd, some nh, some nt, some ndat =>
      .call_record_update u p od oh ot odat o.oldTTL o.oldPriority nd nh nt ndat
        o.newTTL o.newPriority
    | _, _, _, _, _, _, _, _, _, _ => .returns 1
  else if command = cstr "add" then
    match o.username, o.passwordB64, o.domain, o.host, o.type, o.data with
    | some u, some p, some d, some h, some t, some dat =>
      .call_record_add u p d h t dat o.ttl o.priority
    | _, _, _, _, _, _ => .returns 1
  else if command = cstr "delete" then
    match o.username, o.passwordB64, o.domain, o.host, o.type, o.data with
    | some u, some p, some d, some h, some t, some dat =>
      .call_record_delete u p d h t dat o.ttl o.priority
    | _, _, _, _, _, _ => .returns 1
  else if command = cstr "list" then
    match o.username, o.passwordB64, o.domain with
    | some u, some p, some d => .call_record_list u p d
    | _, _, _ => .returns 1
  else if command = cstr "version" ∨ command = cstr "--version" ∨ command = cstr "-v" then
    .returns 0
  else .returns 1

/-- The program entry `main(argc, argv)` (`main.c` 741-848), `argv` being the
whole argument vector with the program name first. -/
def main (argv : List (List Nat)) : Outcome :=
  match argv with
  | [] => .returns 1
  | [_] => .returns 1
  | _ :: command :: args =>
    if args = [cstr "--help"] then
      if command = cstr "update" ∨ command = cstr "add" ∨ command = cstr "delete" ∨
          command = cstr "list" then .returns 0
      else .returns 1
    else
      match parse_options args Options.init with
      | none => .returns 1
      | some o => dispatch command o

/-- The request body `call_record_update` builds with `asprintf`
(`main.c` 380-412); a NULL `oldData` is written as the empty string. -/
def call_record_update_xml (username passwordB64 oldDomain oldHost oldType : List Nat)
    (oldData : Option (List Nat)) (oldTTL oldPriority : Int)
    (newDomain newHost newType newData : List Nat) (newTTL newPriority : Int) : List Nat :=
  cstr "<?xml version=\"1.0\" encoding=\"utf-8\"?>\n" ++
  cstr "<soap:Envelope xmlns:xsi=\"http://www.w3.org/2001/XMLSchema-instance\" " ++
  cstr "xmlns:xsd=\"http://www.w3.org/2001/XMLSchema\" " ++
  cstr "xmlns:soap=\"http://schemas.xmlsoap.org/soap/envelope/\">\n" ++
  cstr " <soap:Body>\n" ++
  cstr "  <recordUpdate xmlns=\"https://api.quickservicebox.com/DNS/DNSAPI\">\n" ++
  cstr "   <accountUsername>" ++ username ++ cstr "</accountUsername>\n" ++
  cstr "   <accountPasswordB64>" ++ passwordB64 ++ cstr "</accountPasswordB64>\n" ++
  cstr "   <oldRecord>\n" ++
  cstr "    <DomainName>" ++ oldDomain ++ cstr "</DomainName>\n" ++
  cstr "    <HostName>" ++ oldHost ++ cstr "</HostName>\n" ++
  cstr "    <RecordType>" ++ oldType ++ cstr "</RecordType>\n" ++
  cstr "    <Data>" ++ oldData.getD [] ++ cstr "</Data>\n" ++
  cstr "    <TTL>" ++ fmt_d oldTTL ++ cstr "</TTL>\n" ++
  cstr "    <Priority>" ++ fmt_d oldPriority ++ cstr "</Priority>\n" ++
  cstr "   </oldRecord>\n" ++
  cstr "   <newRecord>\n" ++
  cstr "    <DomainName>" ++ newDomain ++ cstr "</DomainName>\n" ++
  cstr "    <HostName>" ++ newHost ++ cstr "</HostName>\n" ++
  cstr "    <RecordType>" ++ newType ++ cstr "</RecordType>\n" ++
  cstr "    <Data>" ++ newData ++ cstr "</Data>\n" ++
  cstr "    <TTL>" ++ fmt_d newTTL ++ cstr "</TTL>\n" ++
  cstr "    <Priority>" ++ fmt_d newPriority ++ cstr "</Priority>\n" ++
  cstr "   </newRecord>\n" ++
  cstr "  </recordUpdate>\n" ++
  cstr " </soap:Body>\n" ++
  cstr "</soap:Envelope>"

/-- `needle` occurs in `hay` at offset `i` and at no smaller offset. -/
def FirstAt (needle hay : List Nat) (i : Nat) : Prop :=
  needle <+: hay.drop i ∧ ∀ j, j < i → ¬ needle <+: hay.drop j

/-- The literal `<tag>`. -/
def open_tag (tag : List Nat) : List Nat := cstr "<" ++ tag ++ cstr ">"

/-- The literal `</tag>`. -/
def close_tag (tag : List Nat) : List Nat := cstr "</" ++ tag ++ cstr ">"

/-- A tag name of 253 bytes, the longest the claims about the extractor admit. -/
def tag253 : List Nat := List.replicate 253 97

/-- The text `<tag253>x</tag253` whose closing tag lacks its final `>`. -/
def xml253 : List Nat := cstr "<" ++ tag253 ++ cstr ">" ++ cstr "x" ++ cstr "</" ++ tag253

/-- The two texts differ at a position both have. -/
def clash : List Nat → List Nat → Bool
  | a :: as, b :: bs => a != b || clash as bs
  | _, _ => false

/-- No occurrence of `needle` can begin inside `seg`, whatever follows `seg`. -/
def no_start : List Nat → List Nat → Bool
  | [], _ => true
  | c :: cs, needle => clash (c :: cs) needle && no_start cs needle

/-- The result text of the simple decoder when `text_len` holds the exact
difference of the two offsets, as it does for a body shorter than 2^31 bytes:
no text when `text_len + 1` is negative, else the `text_len` bytes after the
opening tag. -/
def simple_text_exact (body : List Nat) : Option (List Nat) :=
  match strstr body (cstr "<resultText>"), strstr body (cstr "</resultText>") with
  | some text_start, some text_end =>
    if (text_end : Int) - ((text_start : Int) + 12) + 1 < 0 then none
    else some ((body.drop (text_start + 12)).take
      ((text_end : Int) - ((text_start : Int) + 12)).toNat)
  | _, _ => none

/-- A text of 2^32 - 1 bytes `x`. -/
def huge_text : List Nat := List.replicate 4294967295 120

/-- A response without result code whose resultText element holds `huge_text`. -/
def body_huge_text : List Nat :=
  cstr "<resultText>" ++ (huge_text ++ (cstr "</resultText>" ++ []))

/-- A response with result code 7 whose resultText element holds `huge_text`. -/
def body_huge_code7 : List Nat :=
  cstr "<resultCode>7</resultCode>" ++
    (cstr "<resultText>" ++ (huge_text ++ (cstr "</resultText>" ++ [])))

/-- A response with result code 0 and sub-code 0 whose resultText element holds
`huge_text`. -/
def body_huge_line : List Nat :=
  cstr "<resultCode>0</resultCode><resultSubCode>0</resultSubCode>" ++
    (cstr "<resultText>" ++ (huge_text ++ (cstr "</resultText>" ++ [])))

/-- A text of 2^31 bytes `x`. -/
def far_text : List Nat := List.replicate 2147483648 120

/-- A response that begins with a `</resultText>`, goes on with `far_text` and
the two codes, and ends in a `<resultText>` that is never closed. -/
def body_far_close : List Nat :=
  cstr "</resultText>" ++ (far_text ++
    (cstr "<resultCode>0</resultCode><resultSubCode>0</resultSubCode>" ++
      (cstr "<resultText>" ++ cstr "abc")))

/-- Everything the list decoder prints after the `"result"` object. -/
def list_tail (char_signed : Bool) (body : List Nat) : List Nat :=
  (if parse_result_code body = 0 then
    cstr ",\"records\":[" ++
    (match strstr body (cstr "<resultItems>"), strstr body (cstr "</resultItems>") with
     | some items_start, some items_end =>
       record_loop char_signed body items_end (body.length + 1) (items_start + 13) true
     | _, _ => []) ++
    cstr "]" ++
    (match extract_xml_value body (cstr "resultItemCount") with
     | some count_str => cstr ",\"recordCount\":" ++ count_str
     | none => [])
  else []) ++
  cstr "\x7d\n"

/-- The text between `[` and `]` in the output of the list decoder
(`main.c` 168-255). -/
def list_records (char_signed : Bool) (body : List Nat) : List Nat :=
  match strstr body (cstr "<resultItems>"), strstr body (cstr "</resultItems>") with
  | some items_start, some items_end =>
    record_loop char_signed body items_end (body.length + 1) (items_start + 13) true
  | _, _ => []

/-- A run of record blocks, each a pair of the text before the block and the
inner text of the block:
`sep <DNSRecordListItem> inner </DNSRecordListItem> sep ...`. -/
def blocks_text : List (List Nat × List Nat) → List Nat
  | [] => []
  | p :: rest =>
    p.1 ++ (cstr "<DNSRecordListItem>" ++ (p.2 ++ (cstr "</DNSRecordListItem>" ++ blocks_text rest)))

/-- The record objects of the given blocks, in order, separated by commas. -/
def records_text (char_signed : Bool) : List (List Nat) → List Nat
  | [] => []
  | [b] => print_record char_signed b
  | b :: b' :: bs =>
    print_record char_signed b ++ (cstr "," ++ records_text char_signed (b' :: bs))

/-- What the loop writes for a run of blocks: blocks of 4096 bytes or more are
passed over, and a comma precedes every object but the first one written. -/
def loop_text (char_signed : Bool) : Bool → List (List Nat) → List Nat
  | _, [] => []
  | first_record, b :: bs =>
    if b.length < 4096 then
      (if first_record then [] else cstr ",") ++
        (print_record char_signed b ++ loop_text char_signed false bs)
    else loop_text char_signed first_record bs

/-- The `recordCount` member the list decoder writes after the array
(`main.c` 259-264): the text of `resultItemCount` as it is, or nothing. -/
def count_member (body : List Nat) : List Nat :=
  match extract_xml_value body (cstr "resultItemCount") with
  | some count_str => cstr ",\"recordCount\":" ++ count_str
  | none => []

/-- A list response with result code 5 that carries a record all the same. -/
def body_code5 : List Nat :=
  cstr "<resultCode>5</resultCode><resultItems><DNSRecordListItem><DomainName>a.com</DomainName></DNSRecordListItem></resultItems>"

/-- A list response with result code 0, a reported count of 7 and two record
blocks. -/
def body_two_records : List Nat :=
  cstr "<resultCode>0</resultCode><resultItemCount>7</resultItemCount><resultItems> <DNSRecordListItem><DomainName>a.com</DomainName><TTL>30</TTL><Suspended>false</Suspended></DNSRecordListItem>\n<DNSRecordListItem><HostName>www</HostName><Suspended>true</Suspended><SuspensionReason>r</SuspensionReason></DNSRecordListItem> </resultItems>"

/-- A list response with result code 0 and one record block followed by a
block that is opened and never closed. -/
def body_truncated : List Nat :=
  cstr "<resultCode>0</resultCode><resultItems><DNSRecordListItem><HostName>www</HostName><Suspended>true</Suspended></DNSRecordListItem><DNSRecordListItem><HostName>ftp</HostName></resultItems></DNSRecordListItem>"

/-- A list response with result code 0 and one record that has a domain name
only. -/
def body_domain_only : List Nat :=
  cstr "<resultCode>0</resultCode><resultItems><DNSRecordListItem><DomainName>a.com</DomainName></DNSRecordListItem></resultItems>"

/-- A string member of a record object with its trailing comma, or nothing for
an absent value (`main.c` 209-228). -/
def string_member (char_signed : Bool) (key : List Nat) (v : Option (List Nat)) : List Nat :=
  match v with
  | some s => cstr "\"" ++ key ++ cstr "\":" ++ print_json_string char_signed (some s) ++ cstr ","
  | none => []

/-- The text of a record object before its `ttl` member: the brace and the
four string members. -/
def record_strings (char_signed : Bool) (b : List Nat) : List Nat :=
  cstr "\x7b" ++
  string_member char_signed (cstr "domain") (extract_xml_value b (cstr "DomainName")) ++
  string_member char_signed (cstr "host") (extract_xml_value b (cstr "HostName")) ++
  string_member char_signed (cstr "type") (extract_xml_value b (cstr "RecordType")) ++
  string_member char_signed (cstr "data") (extract_xml_value b (cstr "Data"))

/-- The `ttl` or `priority` member of a record object with its trailing comma:
the text of the element as it is (`main.c` 229-230). -/
def number_member (key : List Nat) (v : Option (List Nat)) : List Nat :=
  match v with
  | some s => cstr "\"" ++ key ++ cstr "\":" ++ s ++ cstr ","
  | none => []

/-- The end of a record object: the `suspensionReason` member, written for a
non-empty text only, and the closing brace (`main.c` 235-239). -/
def record_reason (char_signed : Bool) (b : List Nat) : List Nat :=
  (match extract_xml_value b (cstr "SuspensionReason") with
   | some v =>
     if v.length > 0 then cstr ",\"suspensionReason\":" ++ print_json_string char_signed (some v)
     else []
   | none => []) ++
  cstr "\x7d"

/-- Digits at the front of a text are dropped. -/
def drop_digits : List Nat → List Nat
  | [] => []
  | c :: cs => if isdigit c then drop_digits cs else c :: cs

/-- RFC 8259 `int`: a single `0`, or a digit 1-9 followed by digits; the rest
of the text is returned. -/
def json_int : List Nat → Option (List Nat)
  | [] => none
  | c :: cs =>
    if c = 48 then some cs
    else if 49 ≤ c ∧ c ≤ 57 then some (drop_digits cs)
    else none

/-- RFC 8259 optional `frac`: a point followed by at least one digit. -/
def json_frac : List Nat → Option (List Nat)
  | 46 :: c :: cs => if isdigit c then some (drop_digits cs) else none
  | [46] => none
  | s => some s

/-- RFC 8259 optional `exp`: `e` or `E`, an optional sign, at least one digit. -/
def json_exp : List Nat → Option (List Nat)
  | [] => some []
  | e :: rest =>
    if e = 101 ∨ e = 69 then
      match rest with
      | [] => none
      | c :: cs =>
        if c = 43 ∨ c = 45 then
          match cs with
          | [] => none
          | d :: ds => if isdigit d then some (drop_digits ds) else none
        else if isdigit c then some (drop_digits cs)
        else none
    else some (e :: rest)

/-- The text is a number of the RFC 8259 grammar:
`[ minus ] int [ frac ] [ exp ]` and nothing else. -/
def is_json_number (s : List Nat) : Bool :=
  let unsigned := match s with
    | 45 :: rest => rest
    | _ => s
  match (json_int unsigned).bind json_frac |>.bind json_exp with
  | some [] => true
  | _ => false

/-- A list response with result code 0 and one record whose TTL is not a
number and whose Priority is empty. -/
def body_bad_ttl : List Nat :=
  cstr "<resultCode>0</resultCode><resultItems><DNSRecordListItem><TTL>abc</TTL><Priority></Priority></DNSRecordListItem></resultItems>"

/-- A response in which a `</resultText>` comes before the `resultText`
element. -/
def body_stray_close : List Nat :=
  cstr "</resultText><resultCode>5</resultCode><resultText>a</resultText>"

/-- One record of the Update request as `call_record_update` writes it between
`<oldRecord>` and `</oldRecord>` (or the `newRecord` tags): the six fields on
lines of their own (`main.c` 391-398, 399-406). -/
def record_block (domain host type data : List Nat) (ttl priority : Int) : List Nat :=
  cstr "\n" ++
  cstr "    <DomainName>" ++ domain ++ cstr "</DomainName>\n" ++
  cstr "    <HostName>" ++ host ++ cstr "</HostName>\n" ++
  cstr "    <RecordType>" ++ type ++ cstr "</RecordType>\n" ++
  cstr "    <Data>" ++ data ++ cstr "</Data>\n" ++
  cstr "    <TTL>" ++ fmt_d ttl ++ cstr "</TTL>\n" ++
  cstr "    <Priority>" ++ fmt_d priority ++ cstr "</Priority>\n" ++
  cstr "   "

/-- An Update request that changes the address and the TTL of a record. -/
def update_xml_example : List Nat :=
  call_record_update_xml (cstr "user") (cstr "cGFzcw==")
    (cstr "example.com") (cstr "www") (cstr "A") (some (cstr "192.0.2.1")) 300 0
    (cstr "example.org") (cstr "web") (cstr "AAAA") (cstr "2001:db8::1") (-1) 10

/-- C library `isxdigit`. -/
def is_hex (c : Nat) : Bool :=
  (48 ≤ c && c ≤ 57) || (97 ≤ c && c ≤ 102) || (65 ≤ c && c ≤ 70)

/-- Where a scan of the inside of a JSON string token stands: between
characters, right after a backslash, or inside `\u` with `k + 1` hexadecimal
digits still to come. -/
inductive ScanState where
  | plain
  | escape
  | hex (k : Nat)
  deriving DecidableEq

/-- Scan of the text between the quotes of a JSON string token (RFC 8259): no
byte below 0x20 and no double quote outside an escape, and every backslash is
followed by one of `"`, `\`, `b`, `f`, `n`, `r`, `t`, or by `u` and four
hexadecimal digits. The scan must end between characters. -/
def json_scan : ScanState → List Nat → Bool
  | st, [] => decide (st = ScanState.plain)
  | ScanState.plain, c :: cs =>
    if c = 92 then json_scan ScanState.escape cs
    else if c = 34 ∨ c < 32 then false
    else json_scan ScanState.plain cs
  | ScanState.escape, c :: cs =>
    if c = 34 ∨ c = 92 ∨ c = 98 ∨ c = 102 ∨ c = 110 ∨ c = 114 ∨ c = 116 then
      json_scan ScanState.plain cs
    else if c = 117 then json_scan (ScanState.hex 3) cs
    else false
  | ScanState.hex k, c :: cs =>
    if is_hex c then
      match k with
      | 0 => json_scan ScanState.plain cs
      | k + 1 => json_scan (ScanState.hex k) cs
    else false

/-- An inner text of exactly 4096 bytes, one more than the record buffer holds
next to its terminator. -/
def big_block : List Nat := List.replicate 4096 120

/-- A list response with result code 0 and three record blocks, the second one
with an inner text of 4096 bytes. -/
def body_big : List Nat :=
  cstr "<resultCode>0</resultCode>" ++ (cstr "<resultItems>" ++
    ((blocks_text [([], cstr "<HostName>a</HostName><Suspended>true</Suspended>"),
        ([], big_block),
        ([], cstr "<HostName>b</HostName><Suspended>false</Suspended>")] ++ []) ++
    (cstr "</resultItems>" ++ [])))

/-- The record copies `record_xml` for which the loop writes an object, in
order: the loop of `record_loop` (`main.c` 179-254) with each block in place of
the object printed from it. -/
def loop_blocks (response_data : List Nat) (items_end : Nat) : Nat → Nat → List (List Nat)
  | 0, _ => []
  | fuel + 1, current =>
    if current < items_end then
      match strstr (response_data.drop current) (cstr "<DNSRecordListItem>") with
      | none => []
      | some off_start =>
        let record_start := current + off_start
        if record_start ≥ items_end then []
        else
          match strstr (response_data.drop record_start) (cstr "</DNSRecordListItem>") with
          | none => []
          | some off_end =>
            let record_end := record_start + off_end
            if record_end ≥ items_end then []
            else
              let record_start := record_start + 19
              let record_len : Int := ((record_end : Int) - (record_start : Int)) % 18446744073709551616
              if record_len < 4096 then
                (response_data.drop record_start).take record_len.toNat ::
                  loop_blocks response_data items_end fuel (record_end + 20)
              else
                loop_blocks response_data items_end fuel (record_end + 20)
    else []

/-- The record copies the list decoder renders for a body, in order. -/
def rendered_blocks (body : List Nat) : List (List Nat) :=
  match strstr body (cstr "<resultItems>"), strstr body (cstr "</resultItems>") with
  | some items_start, some items_end =>
    loop_blocks body items_end (body.length + 1) (items_start + 13)
  | _, _ => []

/-- The text holds no double quote, comma, bracket or brace: written as it is
between the members of an object, it stays inside the value it stands for. -/
def bare_text (t : List Nat) : Bool :=
  t.all (fun b => !(b == 34 || b == 44 || b == 91 || b == 93 || b == 123 || b == 125))

/-- An absent value, or a text that is `bare_text`. -/
def bare_value (v : Option (List Nat)) : Bool :=
  match v with
  | some t => bare_text t
  | none => true

/-- The TTL and Priority texts of a record block, where present, are
`bare_text`. -/
def numbers_bare (b : List Nat) : Bool :=
  bare_value (extract_xml_value b (cstr "TTL")) &&
    bare_value (extract_xml_value b (cstr "Priority"))

/-- Where a reader of the text of a JSON object or array stands: before the
opening bracket; inside, with the items read so far, the text of the item being
read, the closing brackets still expected (innermost first, the last one being
that of the text itself), whether a string is open and whether the last byte
was a backslash in it; past the closing bracket; or failed. -/
inductive ReadState where
  | start
  | inside (items : List (List Nat)) (cur : List Nat) (stack : List Nat) (str esc : Bool)
  | done (items : List (List Nat))
  | fail

/-- The items read so far with the item just ended; an empty item (nothing
between two commas, or between a comma and the closing bracket) is left out. -/
def push_item (items : List (List Nat)) (cur : List Nat) : List (List Nat) :=
  if cur = [] then items else items ++ [cur]

/-- A closing bracket `b` outside a string: it must be the innermost one
expected; the last one expected ends the text. -/
def read_close (items : List (List Nat)) (cur stack : List Nat) (b : Nat) : ReadState :=
  match stack with
  | [] => ReadState.fail
  | [c] => if b = c then ReadState.done (push_item items cur) else ReadState.fail
  | c :: d :: rest =>
    if b = c then ReadState.inside items (cur ++ [b]) (d :: rest) false false
    else ReadState.fail

/-- A comma outside a string: between the items of the text itself it ends the
item being read, inside a nested object or array it belongs to the item. -/
def read_comma (items : List (List Nat)) (cur stack : List Nat) : ReadState :=
  match stack with
  | [c] => ReadState.inside (push_item items cur) [] [c] false false
  | _ => ReadState.inside items (cur ++ [44]) stack false false

/-- One byte read.  Inside a string only the backslash, which protects the next
byte, and the closing double quote count; outside, a double quote opens a
string, `{` and `[` open a nested value, `}` and `]` close one, and a comma
separates. -/
def read_step : ReadState → Nat → ReadState
  | ReadState.start, b =>
    if b = 123 then ReadState.inside [] [] [125] false false
    else if b = 91 then ReadState.inside [] [] [93] false false
    else ReadState.fail
  | ReadState.inside items cur stack str esc, b =>
    if str then
      if esc then ReadState.inside items (cur ++ [b]) stack true false
      else if b = 92 then ReadState.inside items (cur ++ [b]) stack true true
      else if b = 34 then ReadState.inside items (cur ++ [b]) stack false false
      else ReadState.inside items (cur ++ [b]) stack true false
    else if b = 34 then ReadState.inside items (cur ++ [b]) stack true false
    else if b = 123 then ReadState.inside items (cur ++ [b]) (125 :: stack) false false
    else if b = 91 then ReadState.inside items (cur ++ [b]) (93 :: stack) false false
    else if b = 125 ∨ b = 93 then read_close items cur stack b
    else if b = 44 then read_comma items cur stack
    else ReadState.inside items (cur ++ [b]) stack false false
  | ReadState.done _, _ => ReadState.fail
  | ReadState.fail, _ => ReadState.fail

/-- The reader run over a text from a given state. -/
def read_from (st : ReadState) (text : List Nat) : ReadState := text.foldl read_step st

/-- The top-level items of the text of a JSON object or array, in order: the
members `"key":value` of an object, the elements of an array.  Strings are
skipped with their escapes, nested objects and arrays are matched bracket by
bracket, and the text must end with its closing bracket.  Empty items are left
out, so that a comma before the closing brace does not count. -/
def top_items (text : List Nat) : Option (List (List Nat)) :=
  match read_from ReadState.start text with
  | ReadState.done items => some items
  | _ => none

/-- The text `"key":` that begins a member. -/
def key_text (key : List Nat) : List Nat := cstr "\"" ++ key ++ cstr "\":"

/-- The value of the first member with the given key among the items of an
object, `none` when no member has the key. -/
def member_value (key : List Nat) (items : List (List Nat)) : Option (List Nat) :=
  (items.find? (fun it => (key_text key).isPrefixOf it)).map
    (fun it => it.drop (key_text key).length)

/-- The reader, outside a string and whatever brackets are open, passes
through the text and adds it to the item being read. -/
def Quiet (t : List Nat) : Prop :=
  ∀ items cur stack,
    read_from (ReadState.inside items cur stack false false) t =
      ReadState.inside items (cur ++ t) stack false false

/-- The reader, outside a string and with a bracket open, passes through the
text and adds it to the item being read. -/
def Closed (t : List Nat) : Prop :=
  ∀ items cur c stack,
    read_from (ReadState.inside items cur (c :: stack) false false) t =
      ReadState.inside items (cur ++ t) (c :: stack) false false

/-- The reader, outside a string and inside a nested value, passes through the
text and adds it to the item being read. -/
def Nested (t : List Nat) : Prop :=
  ∀ items cur c d stack,
    read_from (ReadState.inside items cur (c :: d :: stack) false false) t =
      ReadState.inside items (cur ++ t) (c :: d :: stack) false false

/-- A flag member of a record object with its trailing comma, or nothing for
an absent element (`main.c` 231-232). -/
def flag_member (key : List Nat) (v : Option (List Nat)) : List Nat :=
  match v with
  | some s => (key_text key ++ (if s = cstr "true" then cstr "true" else cstr "false")) ++ [44]
  | none => []

/-- The `suspended` member of a record object, which has no trailing comma, or
nothing for an absent element (`main.c` 233-234). -/
def last_flag_member (key : List Nat) (v : Option (List Nat)) : List Nat :=
  match v with
  | some s => key_text key ++ (if s = cstr "true" then cstr "true" else cstr "false")
  | none => []

/-- The `suspensionReason` member of a record object with the comma before it,
or nothing for an absent or empty text (`main.c` 235-238). -/
def reason_member (char_signed : Bool) (v : Option (List Nat)) : List Nat :=
  match v with
  | some s =>
    if s = [] then []
    else 44 :: (key_text (cstr "suspensionReason") ++ print_json_string char_signed (some s))
  | none => []

/-- The item of a string member of a record object, if the value is present. -/
def string_item (char_signed : Bool) (key : List Nat) (v : Option (List Nat)) :
    List (List Nat) :=
  match v with
  | some s => [key_text key ++ print_json_string char_signed (some s)]
  | none => []

/-- The item of a member whose value is written as it is, if the value is
present. -/
def number_item (key : List Nat) (v : Option (List Nat)) : List (List Nat) :=
  match v with
  | some s => [key_text key ++ s]
  | none => []

/-- The item of a flag member, if the element is present: `true` for the text
`true`, `false` for every other text. -/
def flag_item (key : List Nat) (v : Option (List Nat)) : List (List Nat) :=
  match v with
  | some s => [key_text key ++ (if s = cstr "true" then cstr "true" else cstr "false")]
  | none => []

/-- The item of the `suspensionReason` member, if the text is present and not
empty. -/
def reason_item (char_signed : Bool) (v : Option (List Nat)) : List (List Nat) :=
  match v with
  | some s =>
    if s = [] then []
    else [key_text (cstr "suspensionReason") ++ print_json_string char_signed (some s)]
  | none => []

/-- The members of the record object of a block, in order, each from the value
the extractor returns on the block. -/
def record_items (char_signed : Bool) (b : List Nat) : List (List Nat) :=
  string_item char_signed (cstr "domain") (extract_xml_value b (cstr "DomainName")) ++
  (string_item char_signed (cstr "host") (extract_xml_value b (cstr "HostName")) ++
  (string_item char_signed (cstr "type") (extract_xml_value b (cstr "RecordType")) ++
  (string_item char_signed (cstr "data") (extract_xml_value b (cstr "Data")) ++
  (number_item (cstr "ttl") (extract_xml_value b (cstr "TTL")) ++
  (number_item (cstr "priority") (extract_xml_value b (cstr "Priority")) ++
  (flag_item (cstr "readOnly") (extract_xml_value b (cstr "ReadOnly")) ++
  (flag_item (cstr "suspended") (extract_xml_value b (cstr "Suspended")) ++
  reason_item char_signed (extract_xml_value b (cstr "SuspensionReason")))))))))

/-- A record block whose TTL text closes the object and opens another one. -/
def block_ttl_split : List Nat := cstr "<TTL>1\x7d,\x7b\"ttl\":2</TTL>"

/-- A list response with result code 0 and the single block
`block_ttl_split`. -/
def body_ttl_split : List Nat :=
  cstr "<resultCode>0</resultCode>" ++ (cstr "<resultItems>" ++
    ((blocks_text [([], block_ttl_split)] ++ []) ++ (cstr "</resultItems>" ++ [])))

/-- A list response with result code 0, the block `block_ttl_split` and a
block that is opened and not closed before `</resultItems>`. -/
def body_truncated_split : List Nat :=
  cstr "<resultCode>0</resultCode>" ++ (cstr "<resultItems>" ++
    ((blocks_text [([], block_ttl_split)] ++
        ([] ++ (cstr "<DNSRecordListItem>" ++ cstr "<HostName>ftp</HostName>"))) ++
      (cstr "</resultItems>" ++ [])))

/-- A list response with result code 0, a block of 4096 bytes and the block
`block_ttl_split`. -/
def body_big_split : List Nat :=
  cstr "<resultCode>0</resultCode>" ++ (cstr "<resultItems>" ++
    ((blocks_text [([], big_block), ([], block_ttl_split)] ++ []) ++
      (cstr "</resultItems>" ++ [])))

/-- A record block without ReadOnly element whose TTL text holds the text of a
`readOnly` member. -/
def block_readonly_injected : List Nat :=
  cstr "<TTL>1,\"readOnly\":true</TTL><Suspended>false</Suspended>"

/-- A record block without SuspensionReason element whose Priority text holds
the text of a `suspensionReason` member. -/
def block_reason_injected : List Nat :=
  cstr "<Priority>1,\"suspensionReason\":\"x\"</Priority><Suspended>true</Suspended>"

/-- A list response with result code 0 and no resultItemCount element whose
only record has a TTL text that closes the array and holds the text of a
`recordCount` member. -/
def body_count_injected : List Nat :=
  cstr "<resultCode>0</resultCode><resultItems><DNSRecordListItem><TTL>1\x7d],\"recordCount\":7,\"x\":[\x7b\"ttl\":2</TTL></DNSRecordListItem></resultItems>"

/-! ## First occurrences -/

theorem strstr_eq_none_iff (hay needle : List Nat) :
    strstr hay needle = none ↔ ¬ needle <:+: hay := by
  induction hay with
  | nil =>
    simp only [strstr, List.isPrefixOf_iff_prefix]
    by_cases h : needle <+: []
    · simp [h, h.isInfix]
    · simp only [h, if_false, true_iff]
      intro hi
      exact h (by simpa using hi)
  | cons c cs ih =>
    simp only [strstr, List.isPrefixOf_iff_prefix, List.infix_cons_iff]
    by_cases h : needle <+: c :: cs
    · simp [h]
    · simp [h, ih]

theorem strstr_eq_some_iff (hay needle : List Nat) (i : Nat) :
    strstr hay needle = some i ↔ FirstAt needle hay i := by
  induction hay generalizing i with
  | nil =>
    simp only [strstr, List.isPrefixOf_iff_prefix, FirstAt, List.drop_nil]
    by_cases h : needle <+: []
    · simp only [h, if_true, Option.some.injEq, true_and, not_true_eq_false]
      constructor
      · rintro rfl
        simp
      · intro hj
        by_contra hne
        exact hj 0 (by omega)
    · simp [h]
  | cons c cs ih =>
    simp only [strstr, List.isPrefixOf_iff_prefix]
    by_cases h : needle <+: c :: cs
    · simp only [h, if_true, Option.some.injEq, FirstAt]
      constructor
      · rintro rfl
        exact ⟨by simpa using h, by simp⟩
      · rintro ⟨_, hj⟩
        by_contra hne
        exact hj 0 (by omega) (by simpa using h)
    · simp only [h, if_false, Option.map_eq_some']
      constructor
      · rintro ⟨k, hk, rfl⟩
        obtain ⟨h1, h2⟩ := (ih k).1 hk
        refine ⟨by simpa using h1, ?_⟩
        intro j hj
        cases j with
        | zero => simpa using h
        | succ j => simpa using h2 j (by omega)
      · rintro ⟨h1, h2⟩
        cases i with
        | zero => exact absurd (by simpa using h1) h
        | succ k =>
          refine ⟨k, (ih k).2 ⟨by simpa using h1, ?_⟩, rfl⟩
          intro j hj
          simpa using h2 (j + 1) (by omega)

theorem FirstAt.decompose {needle hay : List Nat} {i : Nat} (h : FirstAt needle hay i) :
    i ≤ hay.length ∨ needle = [] := by
  by_cases hi : i ≤ hay.length
  · exact Or.inl hi
  · right
    have : hay.drop i = [] := List.drop_eq_nil_of_le (by omega)
    have h1 := h.1
    rw [this] at h1
    simpa using h1

/-- A first occurrence splits the text around the needle. -/
theorem FirstAt.split {needle hay : List Nat} {i : Nat} (h : FirstAt needle hay i)
    (hn : needle ≠ []) :
    hay = hay.take i ++ needle ++ hay.drop (i + needle.length) ∧ (hay.take i).length = i := by
  obtain ⟨t, ht⟩ := h.1
  have hi : i ≤ hay.length := by
    rcases h.decompose with h' | h'
    · exact h'
    · exact absurd h' hn
  refine ⟨?_, by simp [hi]⟩
  have h2 : hay.drop (i + needle.length) = t := by
    rw [← List.drop_drop, ← ht]
    simp
  rw [h2, List.append_assoc, ht, List.take_append_drop]

theorem open_tag_length (tag : List Nat) : (open_tag tag).length = tag.length + 2 := by
  simp [open_tag, cstr]

theorem close_tag_length (tag : List Nat) : (close_tag tag).length = tag.length + 3 := by
  simp [close_tag, cstr]

theorem open_tag_ne_nil (tag : List Nat) : open_tag tag ≠ [] := by
  simp [open_tag, cstr]

theorem close_tag_ne_nil (tag : List Nat) : close_tag tag ≠ [] := by
  simp [close_tag, cstr]

theorem snprintf256_open {tag : List Nat} (h : tag.length < 254) :
    snprintf256 (cstr "<" ++ tag ++ cstr ">") = open_tag tag := by
  have := open_tag_length tag
  unfold snprintf256
  exact List.take_of_length_le (by unfold open_tag at this; omega)

theorem snprintf256_close {tag : List Nat} (h : tag.length < 253) :
    snprintf256 (cstr "</" ++ tag ++ cstr ">") = close_tag tag := by
  have := close_tag_length tag
  unfold snprintf256
  exact List.take_of_length_le (by unfold close_tag at this; omega)

/-- With tags that fit their buffers, `extract_xml_value` is two first-occurrence searches. -/
theorem extract_xml_value_eq {tag : List Nat} (h : tag.length < 253) (xml : List Nat) :
    extract_xml_value xml tag =
      match strstr xml (open_tag tag) with
      | none => none
      | some i =>
        match strstr (xml.drop (i + (open_tag tag).length)) (close_tag tag) with
        | none => none
        | some len => some ((xml.drop (i + (open_tag tag).length)).take len) := by
  unfold extract_xml_value
  simp only [snprintf256_open (show tag.length < 254 by omega), snprintf256_close h]

theorem FirstAt.of_append {needle pre post hay : List Nat} (hx : hay = pre ++ needle ++ post)
    (hf : ∀ j, j < pre.length → ¬ needle <+: hay.drop j) : FirstAt needle hay pre.length := by
  refine ⟨?_, hf⟩
  rw [hx, List.append_assoc, List.drop_left]
  exact List.prefix_append _ _

theorem drop_of_append {needle pre post hay : List Nat} (hx : hay = pre ++ needle ++ post) :
    hay.drop (pre.length + needle.length) = post := by
  rw [hx, ← List.length_append, List.drop_left]

/-- An occurrence inside the first `i` bytes is an occurrence at an offset below `i`. -/
theorem prefix_drop_of_infix_take {needle hay : List Nat} {i : Nat} (hn : needle ≠ [])
    (h : needle <:+: hay.take i) : ∃ j, j < i ∧ needle <+: hay.drop j := by
  obtain ⟨s, t, hst⟩ := h
  refine ⟨s.length, ?_, ?_⟩
  · have hl := congrArg List.length hst
    simp only [List.length_append, List.length_take] at hl
    have : 0 < needle.length := List.length_pos.2 hn
    omega
  · have h2 : hay = s ++ needle ++ (t ++ hay.drop i) := by
      conv_lhs => rw [← List.take_append_drop i hay, ← hst]
      simp
    conv_rhs => rw [h2]
    rw [List.append_assoc, List.drop_left]
    exact List.prefix_append _ _

theorem extract_xml_value_some_iff (xml tag v : List Nat) (h : tag.length < 253) :
    extract_xml_value xml tag = some v ↔
      ∃ pre post, xml = pre ++ open_tag tag ++ v ++ close_tag tag ++ post ∧
        (∀ j, j < pre.length → ¬ open_tag tag <+: xml.drop j) ∧
        (∀ j, j < v.length → ¬ close_tag tag <+: (v ++ close_tag tag ++ post).drop j) := by
  rw [extract_xml_value_eq h]
  constructor
  · intro hx
    cases ho : strstr xml (open_tag tag) with
    | none => simp [ho] at hx
    | some i =>
      rw [ho] at hx
      have hf := (strstr_eq_some_iff _ _ _).1 ho
      obtain ⟨hs, hl⟩ := hf.split (open_tag_ne_nil tag)
      cases hc : strstr (xml.drop (i + (open_tag tag).length)) (close_tag tag) with
      | none => simp [hc] at hx
      | some len =>
        simp only [hc, Option.some.injEq] at hx
        have hg := (strstr_eq_some_iff _ _ _).1 hc
        obtain ⟨hs2, hl2⟩ := hg.split (close_tag_ne_nil tag)
        rw [hx] at hs2 hl2
        obtain ⟨post, hpost⟩ : ∃ post, xml.drop (i + (open_tag tag).length) =
            v ++ close_tag tag ++ post := ⟨_, hs2⟩
        refine ⟨xml.take i, post, ?_, ?_, ?_⟩
        · conv_lhs => rw [hs]
          rw [hpost]
          simp only [List.append_assoc]
        · intro j hj
          exact hf.2 j (by rw [hl] at hj; exact hj)
        · intro j hj
          have := hg.2 j (by omega)
          rwa [hpost] at this
  · rintro ⟨pre, post, hx, hfirst, hsecond⟩
    have hx' : xml = pre ++ open_tag tag ++ (v ++ close_tag tag ++ post) := by
      rw [hx]; simp only [List.append_assoc]
    rw [(strstr_eq_some_iff _ _ _).2 (FirstAt.of_append hx' hfirst)]
    simp only [drop_of_append hx']
    have hg : FirstAt (close_tag tag) (v ++ close_tag tag ++ post) v.length :=
      FirstAt.of_append rfl hsecond
    rw [(strstr_eq_some_iff _ _ _).2 hg]
    simp [List.append_assoc]

/-! ## The XML Value Extractor -/

/-- C2, as amended: for a tag name shorter than 253 bytes, `extract_xml_value`
returns NULL exactly when `<tag>` does not occur in `xml`, or no `</tag>`
occurs in the text after the first occurrence of `<tag>`. -/
theorem extract_xml_value_none_iff (xml tag : List Nat) (h : tag.length < 253) :
    extract_xml_value xml tag = none ↔
      (¬ open_tag tag <:+: xml ∨
        ∃ pre post, xml = pre ++ open_tag tag ++ post ∧
          (∀ j, j < pre.length → ¬ open_tag tag <+: xml.drop j) ∧
          ¬ close_tag tag <:+: post) := by
  rw [extract_xml_value_eq h]
  constructor
  · intro hx
    cases ho : strstr xml (open_tag tag) with
    | none => exact Or.inl ((strstr_eq_none_iff _ _).1 ho)
    | some i =>
      right
      rw [ho] at hx
      have hf := (strstr_eq_some_iff _ _ _).1 ho
      obtain ⟨hs, hl⟩ := hf.split (open_tag_ne_nil tag)
      refine ⟨xml.take i, xml.drop (i + (open_tag tag).length), hs, ?_, ?_⟩
      · intro j hj
        exact hf.2 j (by rw [hl] at hj; exact hj)
      · cases hc : strstr (xml.drop (i + (open_tag tag).length)) (close_tag tag) with
        | none => exact (strstr_eq_none_iff _ _).1 hc
        | some len => simp [hc] at hx
  · rintro (hno | ⟨pre, post, hx, hfirst, hnc⟩)
    · rw [(strstr_eq_none_iff _ _).2 hno]
    · rw [(strstr_eq_some_iff _ _ _).2 (FirstAt.of_append hx hfirst)]
      simp only [drop_of_append hx]
      rw [(strstr_eq_none_iff _ _).2 hnc]

theorem extract_xml253 : extract_xml_value xml253 tag253 = some (cstr "x") := by decide

theorem strstr_xml253 : strstr xml253 (close_tag tag253) = none := by decide

theorem tag253_length : tag253.length = 253 := by
  unfold tag253
  exact List.length_replicate _ _

theorem xml253_length : xml253.length = 511 := by
  simp [xml253, tag253_length, cstr]

/-- Witness for C2: the unclosed element `<a>x`. -/
theorem extract_xml_value_none_iff_witness :
    (cstr "a").length < 253 ∧
    (extract_xml_value (cstr "<a>x") (cstr "a") = none ↔
      (¬ open_tag (cstr "a") <:+: cstr "<a>x" ∨
        ∃ pre post, cstr "<a>x" = pre ++ open_tag (cstr "a") ++ post ∧
          (∀ j, j < pre.length → ¬ open_tag (cstr "a") <+: (cstr "<a>x").drop j) ∧
          ¬ close_tag (cstr "a") <:+: post)) :=
  ⟨by decide, extract_xml_value_none_iff (cstr "<a>x") (cstr "a") (by decide)⟩

/-- C2 as stated fails for a tag of 253 bytes: `</tag>` does not fit the
256-byte buffer, the search is for `</tag` without its `>`, and a value is
returned although no `</tag>` follows the opening tag. -/
theorem extract_xml_value_none_iff_fails_at_253 :
    tag253.length < 254 ∧
    ¬ (extract_xml_value xml253 tag253 = none ↔
      (¬ open_tag tag253 <:+: xml253 ∨
        ∃ pre post, xml253 = pre ++ open_tag tag253 ++ post ∧
          (∀ j, j < pre.length → ¬ open_tag tag253 <+: xml253.drop j) ∧
          ¬ close_tag tag253 <:+: post)) := by
  refine ⟨by simp [tag253_length], ?_⟩
  intro hiff
  have hnone : extract_xml_value xml253 tag253 = none := by
    refine hiff.2 (Or.inr ⟨[], cstr "x" ++ cstr "</" ++ tag253, ?_, ?_, ?_⟩)
    · simp [xml253, open_tag]
    · intro j hj
      simp at hj
    · intro hin
      have hin2 : close_tag tag253 <:+: xml253 := by
        obtain ⟨u, w, huw⟩ := hin
        refine ⟨cstr "<" ++ tag253 ++ cstr ">" ++ u, w, ?_⟩
        simp only [xml253, List.append_assoc] at huw ⊢
        rw [huw]
      exact (strstr_eq_none_iff _ _).1 strstr_xml253 hin2
  rw [extract_xml253] at hnone
  exact absurd hnone (by simp)

/-- C3, as amended: for a tag name shorter than 253 bytes, a value `v` returned
by `extract_xml_value` is the text between the first `<tag>` and the first
`</tag>` after it, byte for byte: `xml = pre ++ <tag> ++ v ++ </tag> ++ post`,
where `<tag>` occurs neither in `pre` nor at any offset before the end of
`pre`, and `</tag>` occurs neither in `v` nor at any offset inside `v`. -/
theorem extract_xml_value_present (xml tag v : List Nat) (h : tag.length < 253)
    (hv : extract_xml_value xml tag = some v) :
    ∃ pre post, xml = pre ++ open_tag tag ++ v ++ close_tag tag ++ post ∧
      ¬ open_tag tag <:+: pre ∧ ¬ close_tag tag <:+: v ∧
      (∀ j, j < pre.length → ¬ open_tag tag <+: xml.drop j) ∧
      (∀ j, j < v.length → ¬ close_tag tag <+: (v ++ close_tag tag ++ post).drop j) := by
  obtain ⟨pre, post, hx, h1, h2⟩ := (extract_xml_value_some_iff xml tag v h).1 hv
  refine ⟨pre, post, hx, ?_, ?_, h1, h2⟩
  · intro hin
    have hin2 : open_tag tag <:+: xml.take pre.length := by
      rw [hx]
      simpa [List.append_assoc] using hin
    obtain ⟨j, hj, hp⟩ := prefix_drop_of_infix_take (open_tag_ne_nil tag) hin2
    exact h1 j hj hp
  · intro hin
    have hin2 : close_tag tag <:+: (v ++ close_tag tag ++ post).take v.length := by
      simpa [List.append_assoc] using hin
    obtain ⟨j, hj, hp⟩ := prefix_drop_of_infix_take (close_tag_ne_nil tag) hin2
    exact h2 j hj hp

/-- Witness for C3: inner white space and a newline are kept, and the first
closing tag ends the value. -/
theorem extract_xml_value_present_witness :
    ∃ pre post, cstr "<a>  x\ny </a><a>z</a>" =
        pre ++ open_tag (cstr "a") ++ cstr "  x\ny " ++ close_tag (cstr "a") ++ post ∧
      ¬ open_tag (cstr "a") <:+: pre ∧ ¬ close_tag (cstr "a") <:+: cstr "  x\ny " ∧
      (∀ j, j < pre.length → ¬ open_tag (cstr "a") <+: (cstr "<a>  x\ny </a><a>z</a>").drop j) ∧
      (∀ j, j < (cstr "  x\ny ").length →
        ¬ close_tag (cstr "a") <+: (cstr "  x\ny " ++ close_tag (cstr "a") ++ post).drop j) :=
  extract_xml_value_present (cstr "<a>  x\ny </a><a>z</a>") (cstr "a") (cstr "  x\ny ")
    (by decide) (by decide)

/-- C3 as stated fails for a tag of 253 bytes: the value `x` is returned from a
text that has no `</tag>` at all, so the text is not of the stated shape. -/
theorem extract_xml_value_present_fails_at_253 :
    tag253.length < 254 ∧ extract_xml_value xml253 tag253 = some (cstr "x") ∧
    ¬ ∃ pre post, xml253 = pre ++ open_tag tag253 ++ cstr "x" ++ close_tag tag253 ++ post := by
  refine ⟨by simp [tag253_length], extract_xml253, ?_⟩
  rintro ⟨pre, post, h⟩
  have hl := congrArg List.length h
  have hx : (cstr "x").length = 1 := rfl
  simp only [List.length_append, xml253_length, open_tag_length, close_tag_length,
    tag253_length, hx] at hl
  omega

/-! ## Skipping text in which the needle cannot start -/

theorem clash_not_prefix {t needle : List Nat} (rest : List Nat) (h : clash t needle = true) :
    ¬ needle <+: t ++ rest := by
  induction t generalizing needle with
  | nil => simp [clash] at h
  | cons a as ih =>
    cases needle with
    | nil => simp [clash] at h
    | cons b bs =>
      simp only [clash, Bool.or_eq_true, bne_iff_ne, ne_eq] at h
      intro hp
      rw [List.cons_append, List.cons_prefix_cons] at hp
      rcases h with h | h
      · exact h hp.1.symm
      · exact ih h hp.2

theorem strstr_skip {seg needle : List Nat} (rest : List Nat) (h : no_start seg needle = true) :
    strstr (seg ++ rest) needle = (strstr rest needle).map (· + seg.length) := by
  induction seg with
  | nil => simp
  | cons c cs ih =>
    simp only [no_start, Bool.and_eq_true] at h
    have hnp : ¬ needle <+: (c :: cs) ++ rest := clash_not_prefix rest h.1
    rw [List.cons_append] at hnp ⊢
    simp only [strstr, List.isPrefixOf_iff_prefix, hnp, if_false, ih h.2, Option.map_map,
      List.length_cons]
    congr 1

theorem strstr_hit (needle rest : List Nat) : strstr (needle ++ rest) needle = some 0 := by
  apply (strstr_eq_some_iff _ _ _).2
  exact ⟨by simp, by simp⟩

/-- The needle is found right after a text in which it cannot start. -/
theorem strstr_of_layout {pre needle : List Nat} (rest : List Nat)
    (h : no_start pre needle = true) :
    strstr (pre ++ (needle ++ rest)) needle = some pre.length := by
  rw [strstr_skip _ h, strstr_hit]
  simp

theorem no_start_append {a b needle : List Nat} (ha : no_start a needle = true)
    (hb : no_start b needle = true) : no_start (a ++ b) needle = true := by
  induction a with
  | nil => simpa using hb
  | cons c cs ih =>
    simp only [no_start, Bool.and_eq_true] at ha
    simp only [List.cons_append, no_start, Bool.and_eq_true]
    refine ⟨?_, ih ha.2⟩
    by_contra hc
    have hc' : clash (c :: (cs ++ b)) needle = false := by simpa using hc
    -- a clash inside `c :: cs` is a clash inside the longer text
    have key : ∀ (t n : List Nat), clash t n = true → clash (t ++ b) n = true := by
      intro t
      induction t with
      | nil => intro n hn; simp [clash] at hn
      | cons x xs ihx =>
        intro n hn
        cases n with
        | nil => simp [clash] at hn
        | cons y ys =>
          simp only [clash, Bool.or_eq_true, List.cons_append] at hn ⊢
          rcases hn with hn | hn
          · exact Or.inl hn
          · exact Or.inr (ihx ys hn)
    have := key (c :: cs) needle ha.1
    rw [List.cons_append, hc'] at this
    exact absurd this (by simp)

/-- A text without `<` holds no start of a needle that begins with `<`. -/
theorem no_start_of_no_lt {u needle : List Nat} (hu : ∀ b ∈ u, b ≠ 60) :
    no_start u (60 :: needle) = true := by
  induction u with
  | nil => rfl
  | cons c cs ih =>
    simp only [no_start, clash, Bool.and_eq_true, Bool.or_eq_true, bne_iff_ne, ne_eq]
    exact ⟨Or.inl (hu c (by simp)), ih (fun b hb => hu b (by simp [hb]))⟩

/-- A text in which the needle cannot start does not hold the needle. -/
theorem not_infix_of_no_start {l needle : List Nat} (h : no_start l needle = true)
    (hn : needle ≠ []) : ¬ needle <:+: l := by
  have hs := strstr_skip [] h
  rw [List.append_nil] at hs
  have hnil : strstr [] needle = none := by
    cases needle with
    | nil => exact absurd rfl hn
    | cons c cs => rfl
  rw [hnil] at hs
  exact (strstr_eq_none_iff _ _).1 hs

/-- Layout lemma: a value framed by its tags, with no earlier start of either
tag, is what `extract_xml_value` returns. -/
theorem extract_xml_value_of_layout {tag : List Nat} (h : tag.length < 253)
    (pre v post : List Nat)
    (hpre : no_start pre (open_tag tag) = true) (hv : no_start v (close_tag tag) = true) :
    extract_xml_value (pre ++ (open_tag tag ++ (v ++ (close_tag tag ++ post)))) tag = some v := by
  rw [extract_xml_value_eq h, strstr_skip _ hpre, strstr_hit]
  simp only [Option.map_some', Nat.zero_add]
  have hd : (pre ++ (open_tag tag ++ (v ++ (close_tag tag ++ post)))).drop
      (pre.length + (open_tag tag).length) = v ++ (close_tag tag ++ post) := by
    rw [← List.length_append, ← List.append_assoc, List.drop_left]
  rw [hd, strstr_skip _ hv, strstr_hit]
  simp

theorem digits_aux_isdigit (fuel n : Nat) (acc : List Nat) (hacc : ∀ b ∈ acc, isdigit b = true) :
    ∀ b ∈ digits_aux fuel n acc, isdigit b = true := by
  induction fuel generalizing n acc with
  | zero => simpa [digits_aux] using hacc
  | succ fuel ih =>
    unfold digits_aux
    split_ifs with h
    · intro b hb
      rcases List.mem_cons.1 hb with rfl | hb
      · simp [isdigit]; omega
      · exact hacc b hb
    · apply ih
      intro b hb
      rcases List.mem_cons.1 hb with rfl | hb
      · simp [isdigit]; omega
      · exact hacc b hb

theorem fmt_u_isdigit (n : Nat) : ∀ b ∈ fmt_u n, isdigit b = true :=
  digits_aux_isdigit _ _ _ (by simp)

/-- The text of `%d` holds no `<`. -/
theorem fmt_d_no_lt (n : Int) : ∀ b ∈ fmt_d n, b ≠ 60 := by
  intro b hb
  unfold fmt_d at hb
  split_ifs at hb
  · rcases List.mem_cons.1 hb with rfl | hb
    · decide
    · have := fmt_u_isdigit _ b hb
      simp [isdigit] at this
      omega
  · have := fmt_u_isdigit _ b hb
    simp [isdigit] at this
    omega

theorem no_start_var {u rest needle : List Nat} (hu : ∀ b ∈ u, b ≠ 60)
    (hr : no_start rest (60 :: needle) = true) : no_start (u ++ rest) (60 :: needle) = true :=
  no_start_append (no_start_of_no_lt hu) hr

theorem add_xml_extract_DomainName (username passwordB64 domain host type data : List Nat)
    (ttl priority : Int)
    (huser : ∀ b ∈ username, b ≠ 60) (hpass : ∀ b ∈ passwordB64, b ≠ 60)
    (hdomain : ∀ b ∈ domain, b ≠ 60) :
    extract_xml_value
      (call_record_add_xml username passwordB64 domain host type data ttl priority)
      (cstr "DomainName") = some (domain) := by
  have hx : call_record_add_xml username passwordB64 domain host type data ttl priority =
      (cstr "<?xml version=\"1.0\" encoding=\"utf-8\"?>\n<soap:Envelope xmlns:xsi=\"http://www.w3.org/2001/XMLSchema-instance\" xmlns:xsd=\"http://www.w3.org/2001/XMLSchema\" xmlns:soap=\"http://schemas.xmlsoap.org/soap/envelope/\">\n<soap:Body>\n<recordAdd xmlns=\"https://api.quickservicebox.com/DNS/DNSAPI\">\n<accountUsername>" ++
        (username ++
        (cstr "</accountUsername>\n<accountPasswordB64>" ++
        (passwordB64 ++
        (cstr "</accountPasswordB64>\n<record>\n"))))) ++
      (open_tag (cstr "DomainName") ++ ((domain) ++ (close_tag (cstr "DomainName") ++
      (cstr "\n" ++
        cstr "<HostName>" ++ host ++ cstr "</HostName>\n" ++
        cstr "<RecordType>" ++ type ++ cstr "</RecordType>\n" ++
        cstr "<Data>" ++ data ++ cstr "</Data>\n" ++
        cstr "<TTL>" ++ fmt_d ttl ++ cstr "</TTL>\n" ++
        cstr "<Priority>" ++ fmt_d priority ++ cstr "</Priority>\n" ++
        cstr "</record>\n</recordAdd>\n</soap:Body>\n</soap:Envelope>")))) := by
    simp only [call_record_add_xml, open_tag, close_tag, List.append_assoc]
    rfl
  rw [hx]
  refine extract_xml_value_of_layout (by decide) _ _ _ ?_ ?_
  · exact (no_start_append (by decide)
      (no_start_var huser
      (no_start_append (by decide)
      (no_start_var hpass
      (by decide)))))
  · exact no_start_of_no_lt hdomain

theorem add_xml_extract_HostName (username passwordB64 domain host type data : List Nat)
    (ttl priority : Int)
    (huser : ∀ b ∈ username, b ≠ 60) (hpass : ∀ b ∈ passwordB64, b ≠ 60)
    (hdomain : ∀ b ∈ domain, b ≠ 60)
    (hhost : ∀ b ∈ host, b ≠ 60) :
    extract_xml_value
      (call_record_add_xml username passwordB64 domain host type data ttl priority)
      (cstr "HostName") = some (host) := by
  have hx : call_record_add_xml username passwordB64 domain host type data ttl priority =
      (cstr "<?xml version=\"1.0\" encoding=\"utf-8\"?>\n<soap:Envelope xmlns:xsi=\"http://www.w3.org/2001/XMLSchema-instance\" xmlns:xsd=\"http://www.w3.org/2001/XMLSchema\" xmlns:soap=\"http://schemas.xmlsoap.org/soap/envelope/\">\n<soap:Body>\n<recordAdd xmlns=\"https://api.quickservicebox.com/DNS/DNSAPI\">\n<accountUsername>" ++
        (username ++
        (cstr "</accountUsername>\n<accountPasswordB64>" ++
        (passwordB64 ++
        (cstr "</accountPasswordB64>\n<record>\n<DomainName>" ++
        (domain ++
        (cstr "</DomainName>\n"))))))) ++
      (open_tag (cstr "HostName") ++ ((host) ++ (close_tag (cstr "HostName") ++
      (cstr "\n" ++
        cstr "<RecordType>" ++ type ++ cstr "</RecordType>\n" ++
        cstr "<Data>" ++ data ++ cstr "</Data>\n" ++
        cstr "<TTL>" ++ fmt_d ttl ++ cstr "</TTL>\n" ++
        cstr "<Priority>" ++ fmt_d priority ++ cstr "</Priority>\n" ++
        cstr "</record>\n</recordAdd>\n</soap:Body>\n</soap:Envelope>")))) := by
    simp only [call_record_add_xml, open_tag, close_tag, List.append_assoc]
    rfl
  rw [hx]
  refine extract_xml_value_of_layout (by decide) _ _ _ ?_ ?_
  · exact (no_start_append (by decide)
      (no_start_var huser
      (no_start_append (by decide)
      (no_start_var hpass
      (no_start_append (by decide)
      (no_start_var hdomain
      (by decide)))))))
  · exact no_start_of_no_lt hhost

theorem add_xml_extract_RecordType (username passwordB64 domain host type data : List Nat)
    (ttl priority : Int)
    (huser : ∀ b ∈ username, b ≠ 60) (hpass : ∀ b ∈ passwordB64, b ≠ 60)
    (hdomain : ∀ b ∈ domain, b ≠ 60)
    (hhost : ∀ b ∈ host, b ≠ 60)
    (htype : ∀ b ∈ type, b ≠ 60) :
    extract_xml_value
      (call_record_add_xml username passwordB64 domain host type data ttl priority)
      (cstr "RecordType") = some (type) := by
  have hx : call_record_add_xml username passwordB64 domain host type data ttl priority =
      (cstr "<?xml version=\"1.0\" encoding=\"utf-8\"?>\n<soap:Envelope xmlns:xsi=\"http://www.w3.org/2001/XMLSchema-instance\" xmlns:xsd=\"http://www.w3.org/2001/XMLSchema\" xmlns:soap=\"http://schemas.xmlsoap.org/soap/envelope/\">\n<soap:Body>\n<recordAdd xmlns=\"https://api.quickservicebox.com/DNS/DNSAPI\">\n<accountUsername>" ++
        (username ++
        (cstr "</accountUsername>\n<accountPasswordB64>" ++
        (passwordB64 ++
        (cstr "</accountPasswordB64>\n<record>\n<DomainName>" ++
        (domain ++
        (cstr "</DomainName>\n<HostName>" ++
        (host ++
        (cstr "</HostName>\n"))))))))) ++
      (open_tag (cstr "RecordType") ++ ((type) ++ (close_tag (cstr "RecordType") ++
      (cstr "\n" ++
        cstr "<Data>" ++ data ++ cstr "</Data>\n" ++
        cstr "<TTL>" ++ fmt_d ttl ++ cstr "</TTL>\n" ++
        cstr "<Priority>" ++ fmt_d priority ++ cstr "</Priority>\n" ++
        cstr "</record>\n</recordAdd>\n</soap:Body>\n</soap:Envelope>")))) := by
    simp only [call_record_add_xml, open_tag, close_tag, List.append_assoc]
    rfl
  rw [hx]
  refine extract_xml_value_of_layout (by decide) _ _ _ ?_ ?_
  · exact (no_start_append (by decide)
      (no_start_var huser
      (no_start_append (by decide)
      (no_start_var hpass
      (no_start_append (by decide)
      (no_start_var hdomain
      (no_start_append (by decide)
      (no_start_var hhost
      (by decide)))))))))
  · exact no_start_of_no_lt htype

theorem add_xml_extract_Data (username passwordB64 domain host type data : List Nat)
    (ttl priority : Int)
    (huser : ∀ b ∈ username, b ≠ 60) (hpass : ∀ b ∈ passwordB64, b ≠ 60)
    (hdomain : ∀ b ∈ domain, b ≠ 60)
    (hhost : ∀ b ∈ host, b ≠ 60)
    (htype : ∀ b ∈ type, b ≠ 60)
    (hdata : ∀ b ∈ data, b ≠ 60) :
    extract_xml_value
      (call_record_add_xml username passwordB64 domain host type data ttl priority)
      (cstr "Data") = some (data) := by
  have hx : call_record_add_xml username passwordB64 domain host type data ttl priority =
      (cstr "<?xml version=\"1.0\" encoding=\"utf-8\"?>\n<soap:Envelope xmlns:xsi=\"http://www.w3.org/2001/XMLSchema-instance\" xmlns:xsd=\"http://www.w3.org/2001/XMLSchema\" xmlns:soap=\"http://schemas.xmlsoap.org/soap/envelope/\">\n<soap:Body>\n<recordAdd xmlns=\"https://api.quickservicebox.com/DNS/DNSAPI\">\n<accountUsername>" ++
        (username ++
        (cstr "</accountUsername>\n<accountPasswordB64>" ++
        (passwordB64 ++
        (cstr "</accountPasswordB64>\n<record>\n<DomainName>" ++
        (domain ++
        (cstr "</DomainName>\n<HostName>" ++
        (host ++
        (cstr "</HostName>\n<RecordType>" ++
        (type ++
        (cstr "</RecordType>\n"))))))))))) ++
      (open_tag (cstr "Data") ++ ((data) ++ (close_tag (cstr "Data") ++
      (cstr "\n" ++
        cstr "<TTL>" ++ fmt_d ttl ++ cstr "</TTL>\n" ++
        cstr "<Priority>" ++ fmt_d priority ++ cstr "</Priority>\n" ++
        cstr "</record>\n</recordAdd>\n</soap:Body>\n</soap:Envelope>")))) := by
    simp only [call_record_add_xml, open_tag, close_tag, List.append_assoc]
    rfl
  rw [hx]
  refine extract_xml_value_of_layout (by decide) _ _ _ ?_ ?_
  · exact (no_start_append (by decide)
      (no_start_var huser
      (no_start_append (by decide)
      (no_start_var hpass
      (no_start_append (by decide)
      (no_start_var hdomain
      (no_start_append (by decide)
      (no_start_var hhost
      (no_start_append (by decide)
      (no_start_var htype
      (by decide)))))))))))
  · exact no_start_of_no_lt hdata

theorem add_xml_extract_TTL (username passwordB64 domain host type data : List Nat)
    (ttl priority : Int)
    (huser : ∀ b ∈ username, b ≠ 60) (hpass : ∀ b ∈ passwordB64, b ≠ 60)
    (hdomain : ∀ b ∈ domain, b ≠ 60)
    (hhost : ∀ b ∈ host, b ≠ 60)
    (htype : ∀ b ∈ type, b ≠ 60)
    (hdata : ∀ b ∈ data, b ≠ 60) :
    extract_xml_value
      (call_record_add_xml username passwordB64 domain host type data ttl priority)
      (cstr "TTL") = some (fmt_d ttl) := by
  have hx : call_record_add_xml username passwordB64 domain host type data ttl priority =
      (cstr "<?xml version=\"1.0\" encoding=\"utf-8\"?>\n<soap:Envelope xmlns:xsi=\"http://www.w3.org/2001/XMLSchema-instance\" xmlns:xsd=\"http://www.w3.org/2001/XMLSchema\" xmlns:soap=\"http://schemas.xmlsoap.org/soap/envelope/\">\n<soap:Body>\n<recordAdd xmlns=\"https://api.quickservicebox.com/DNS/DNSAPI\">\n<accountUsername>" ++
        (username ++
        (cstr "</accountUsername>\n<accountPasswordB64>" ++
        (passwordB64 ++
        (cstr "</accountPasswordB64>\n<record>\n<DomainName>" ++
        (domain ++
        (cstr "</DomainName>\n<HostName>" ++
        (host ++
        (cstr "</HostName>\n<RecordType>" ++
        (type ++
        (cstr "</RecordType>\n<Data>" ++
        (data ++
        (cstr "</Data>\n"))))))))))))) ++
      (open_tag (cstr "TTL") ++ ((fmt_d ttl) ++ (close_tag (cstr "TTL") ++
      (cstr "\n" ++
        cstr "<Priority>" ++ fmt_d priority ++ cstr "</Priority>\n" ++
        cstr "</record>\n</recordAdd>\n</soap:Body>\n</soap:Envelope>")))) := by
    simp only [call_record_add_xml, open_tag, close_tag, List.append_assoc]
    rfl
  rw [hx]
  refine extract_xml_value_of_layout (by decide) _ _ _ ?_ ?_
  · exact (no_start_append (by decide)
      (no_start_var huser
      (no_start_append (by decide)
      (no_start_var hpass
      (no_start_append (by decide)
      (no_start_var hdomain
      (no_start_append (by decide)
      (no_start_var hhost
      (no_start_append (by decide)
      (no_start_var htype
      (no_start_append (by decide)
      (no_start_var hdata
      (by decide)))))))))))))
  · exact no_start_of_no_lt (fmt_d_no_lt ttl)

theorem add_xml_extract_Priority (username passwordB64 domain host type data : List Nat)
    (ttl priority : Int)
    (huser : ∀ b ∈ username, b ≠ 60) (hpass : ∀ b ∈ passwordB64, b ≠ 60)
    (hdomain : ∀ b ∈ domain, b ≠ 60)
    (hhost : ∀ b ∈ host, b ≠ 60)
    (htype : ∀ b ∈ type, b ≠ 60)
    (hdata : ∀ b ∈ data, b ≠ 60) :
    extract_xml_value
      (call_record_add_xml username passwordB64 domain host type data ttl priority)
      (cstr "Priority") = some (fmt_d priority) := by
  have hx : call_record_add_xml username passwordB64 domain host type data ttl priority =
      (cstr "<?xml version=\"1.0\" encoding=\"utf-8\"?>\n<soap:Envelope xmlns:xsi=\"http://www.w3.org/2001/XMLSchema-instance\" xmlns:xsd=\"http://www.w3.org/2001/XMLSchema\" xmlns:soap=\"http://schemas.xmlsoap.org/soap/envelope/\">\n<soap:Body>\n<recordAdd xmlns=\"https://api.quickservicebox.com/DNS/DNSAPI\">\n<accountUsername>" ++
        (username ++
        (cstr "</accountUsername>\n<accountPasswordB64>" ++
        (passwordB64 ++
        (cstr "</accountPasswordB64>\n<record>\n<DomainName>" ++
        (domain ++
        (cstr "</DomainName>\n<HostName>" ++
        (host ++
        (cstr "</HostName>\n<RecordType>" ++
        (type ++
        (cstr "</RecordType>\n<Data>" ++
        (data ++
        (cstr "</Data>\n<TTL>" ++
        ((fmt_d ttl) ++
        (cstr "</TTL>\n"))))))))))))))) ++
      (open_tag (cstr "Priority") ++ ((fmt_d priority) ++ (close_tag (cstr "Priority") ++
      (cstr "\n" ++
        cstr "</record>\n</recordAdd>\n</soap:Body>\n</soap:Envelope>")))) := by
    simp only [call_record_add_xml, open_tag, close_tag, List.append_assoc]
    rfl
  rw [hx]
  refine extract_xml_value_of_layout (by decide) _ _ _ ?_ ?_
  · exact (no_start_append (by decide)
      (no_start_var huser
      (no_start_append (by decide)
      (no_start_var hpass
      (no_start_append (by decide)
      (no_start_var hdomain
      (no_start_append (by decide)
      (no_start_var hhost
      (no_start_append (by decide)
      (no_start_var htype
      (no_start_append (by decide)
      (no_start_var hdata
      (no_start_append (by decide)
      (no_start_var (fmt_d_no_lt ttl)
      (by decide)))))))))))))))
  · exact no_start_of_no_lt (fmt_d_no_lt priority)

/-! ## The Add request -/

/-- C4: the values extracted from the XML built by `call_record_add` under the
tags DomainName, HostName, RecordType, Data, TTL and Priority are the domain,
host, type and data given and the decimal texts of ttl and priority, whenever
the six strings hold no `<` (for all integers, the 32-bit ones included). -/
theorem add_request_round_trip (username passwordB64 domain host type data : List Nat)
    (ttl priority : Int)
    (huser : ∀ b ∈ username, b ≠ 60) (hpass : ∀ b ∈ passwordB64, b ≠ 60)
    (hdomain : ∀ b ∈ domain, b ≠ 60) (hhost : ∀ b ∈ host, b ≠ 60)
    (htype : ∀ b ∈ type, b ≠ 60) (hdata : ∀ b ∈ data, b ≠ 60) :
    extract_xml_value
      (call_record_add_xml username passwordB64 domain host type data ttl priority)
      (cstr "DomainName") = some domain ∧
    extract_xml_value
      (call_record_add_xml username passwordB64 domain host type data ttl priority)
      (cstr "HostName") = some host ∧
    extract_xml_value
      (call_record_add_xml username passwordB64 domain host type data ttl priority)
      (cstr "RecordType") = some type ∧
    extract_xml_value
      (call_record_add_xml username passwordB64 domain host type data ttl priority)
      (cstr "Data") = some data ∧
    extract_xml_value
      (call_record_add_xml username passwordB64 domain host type data ttl priority)
      (cstr "TTL") = some (fmt_d ttl) ∧
    extract_xml_value
      (call_record_add_xml username passwordB64 domain host type data ttl priority)
      (cstr "Priority") = some (fmt_d priority) :=
  ⟨add_xml_extract_DomainName _ _ _ _ _ _ _ _ huser hpass hdomain,
   add_xml_extract_HostName _ _ _ _ _ _ _ _ huser hpass hdomain hhost,
   add_xml_extract_RecordType _ _ _ _ _ _ _ _ huser hpass hdomain hhost htype,
   add_xml_extract_Data _ _ _ _ _ _ _ _ huser hpass hdomain hhost htype hdata,
   add_xml_extract_TTL _ _ _ _ _ _ _ _ huser hpass hdomain hhost htype hdata,
   add_xml_extract_Priority _ _ _ _ _ _ _ _ huser hpass hdomain hhost htype hdata⟩

/-- Witness for C4: an MX record with the extreme 32-bit values as ttl and
priority. -/
theorem add_request_round_trip_witness :
    extract_xml_value
      (call_record_add_xml (cstr "user") (cstr "cGFzcw==") (cstr "example.com") (cstr "mail")
        (cstr "MX") (cstr "mx.example.com") 2147483647 (-2147483648))
      (cstr "DomainName") = some (cstr "example.com") ∧
    extract_xml_value
      (call_record_add_xml (cstr "user") (cstr "cGFzcw==") (cstr "example.com") (cstr "mail")
        (cstr "MX") (cstr "mx.example.com") 2147483647 (-2147483648))
      (cstr "HostName") = some (cstr "mail") ∧
    extract_xml_value
      (call_record_add_xml (cstr "user") (cstr "cGFzcw==") (cstr "example.com") (cstr "mail")
        (cstr "MX") (cstr "mx.example.com") 2147483647 (-2147483648))
      (cstr "RecordType") = some (cstr "MX") ∧
    extract_xml_value
      (call_record_add_xml (cstr "user") (cstr "cGFzcw==") (cstr "example.com") (cstr "mail")
        (cstr "MX") (cstr "mx.example.com") 2147483647 (-2147483648))
      (cstr "Data") = some (cstr "mx.example.com") ∧
    extract_xml_value
      (call_record_add_xml (cstr "user") (cstr "cGFzcw==") (cstr "example.com") (cstr "mail")
        (cstr "MX") (cstr "mx.example.com") 2147483647 (-2147483648))
      (cstr "TTL") = some (fmt_d 2147483647) ∧
    extract_xml_value
      (call_record_add_xml (cstr "user") (cstr "cGFzcw==") (cstr "example.com") (cstr "mail")
        (cstr "MX") (cstr "mx.example.com") 2147483647 (-2147483648))
      (cstr "Priority") = some (fmt_d (-2147483648)) :=
  add_request_round_trip (cstr "user") (cstr "cGFzcw==") (cstr "example.com") (cstr "mail")
    (cstr "MX") (cstr "mx.example.com") 2147483647 (-2147483648)
    (by decide) (by decide) (by decide) (by decide) (by decide) (by decide)

/-! ## Result codes -/

/-- C1: `get_result_code_message` maps 0..6 to the seven table messages, every
other integer (negative ones and the sentinel -1 included) to
"Unknown result code", and never returns NULL. -/
theorem get_result_code_message_table :
    get_result_code_message 0 = some (cstr "Operation successful") ∧
    get_result_code_message 1 = some (cstr "Authentication failed") ∧
    get_result_code_message 2 = some (cstr "Operation failed - cannot modify read-only value") ∧
    get_result_code_message 3 = some (cstr "Operation failed - invalid parameters") ∧
    get_result_code_message 4 = some (cstr "Operation failed - undefined error") ∧
    get_result_code_message 5 = some (cstr "Operation failed - object not found") ∧
    get_result_code_message 6 = some (cstr "Operation failed - object in use") ∧
    (∀ c : Int, (c < 0 ∨ 6 < c) →
      get_result_code_message c = some (cstr "Unknown result code")) ∧
    get_result_code_message (-1) = some (cstr "Unknown result code") ∧
    (∀ c : Int, get_result_code_message c ≠ none) := by
  refine ⟨rfl, rfl, rfl, rfl, rfl, rfl, rfl, ?_, rfl, ?_⟩
  · intro c hc
    unfold get_result_code_message
    have h0 : c ≠ 0 := by omega
    have h1 : c ≠ 1 := by omega
    have h2 : c ≠ 2 := by omega
    have h3 : c ≠ 3 := by omega
    have h4 : c ≠ 4 := by omega
    have h5 : c ≠ 5 := by omega
    have h6 : c ≠ 6 := by omega
    simp [h0, h1, h2, h3, h4, h5, h6]
  · intro c
    unfold get_result_code_message
    split_ifs <;> simp

/-- Witness for C1 at the out-of-table codes 7 and -2147483648. -/
theorem get_result_code_message_table_witness :
    get_result_code_message 7 = some (cstr "Unknown result code") ∧
    get_result_code_message (-2147483648) = some (cstr "Unknown result code") :=
  ⟨get_result_code_message_table.2.2.2.2.2.2.2.1 7 (Or.inr (by decide)),
   get_result_code_message_table.2.2.2.2.2.2.2.1 (-2147483648) (Or.inl (by decide))⟩

/-! ## JSON strings -/

/-- C6 at its failing input: with a signed `char` the two bytes of a UTF-8
`é` (0xC3 0xA9) are negative, pass the test `*p < 0x20` and are written as
`\u00c3\u00a9`; with an unsigned `char` they are written as they are. -/
theorem print_json_string_high_bytes :
    print_json_string true (some [0xc3, 0xa9]) = cstr "\"\\u00c3\\u00a9\"" ∧
    print_json_string false (some [0xc3, 0xa9]) = [0x22, 0xc3, 0xa9, 0x22] := by
  constructor <;> decide

/-! ## Reading numbers -/

theorem fmt_u_ne_nil (n : Nat) : fmt_u n ≠ [] := by
  unfold fmt_u
  have key : ∀ (fuel n : Nat) (acc : List Nat), digits_aux (fuel + 1) n acc ≠ [] := by
    intro fuel
    induction fuel with
    | zero =>
      intro n acc
      simp only [digits_aux]
      split_ifs <;> simp
    | succ fuel ih =>
      intro n acc
      rw [digits_aux]
      split_ifs
      · simp
      · exact ih _ _
  exact key n n []

theorem parse_digits_digits_aux (fuel n : Nat) (acc rest : List Nat) (hf : n < fuel) :
    parse_digits (digits_aux fuel n acc ++ rest) 0 = parse_digits (acc ++ rest) n := by
  induction fuel generalizing n acc with
  | zero => omega
  | succ fuel ih =>
    rw [digits_aux]
    split_ifs with h
    · have hd : isdigit (48 + n) = true := by simp [isdigit]; omega
      simp only [List.cons_append, parse_digits, hd, if_true]
      congr 1
      omega
    · rw [ih (n / 10) _ (by omega)]
      have hd : isdigit (48 + n % 10) = true := by simp [isdigit]; omega
      simp only [List.cons_append, parse_digits, hd, if_true]
      congr 1
      omega

/-- The digit run of `%u` text is read back when no digit follows it. -/
theorem parse_digits_fmt_u (n : Nat) (rest : List Nat)
    (hr : ∀ c, rest.head? = some c → isdigit c = false) :
    parse_digits (fmt_u n ++ rest) 0 = n := by
  unfold fmt_u
  rw [parse_digits_digits_aux _ _ _ _ (by omega)]
  cases rest with
  | nil => rfl
  | cons c cs =>
    have := hr c rfl
    simp [parse_digits, this]

/-- `atoi` reads back the text of `%d` for every 32-bit integer, when no digit
follows the text. -/
theorem atoi_fmt_d (c : Int) (rest : List Nat) (hlo : -2147483648 ≤ c) (hhi : c ≤ 2147483647)
    (hr : ∀ x, rest.head? = some x → isdigit x = false) :
    atoi (fmt_d c ++ rest) = c := by
  unfold atoi strtol10 fmt_d
  by_cases hneg : c < 0
  · simp only [hneg, if_true, List.cons_append]
    have hs : skip_space (45 :: (fmt_u (-c).toNat ++ rest)) = 45 :: (fmt_u (-c).toNat ++ rest) := by
      simp [skip_space, isspace]
    rw [hs]
    simp only [parse_digits_fmt_u _ _ hr]
    have : ((-c).toNat : Int) = -c := Int.toNat_of_nonneg (by omega)
    rw [this]
    unfold clamp_long to_int32
    have h1 : ¬ (- -c < -9223372036854775808) := by omega
    have h2 : ¬ (9223372036854775807 < - -c) := by omega
    simp only [h1, h2, if_false]
    omega
  · simp only [hneg, if_false]
    obtain ⟨d, ds, hds⟩ := List.exists_cons_of_ne_nil (fmt_u_ne_nil c.toNat)
    have hd : isdigit d = true := fmt_u_isdigit c.toNat d (by rw [hds]; simp)
    have hd' : 48 ≤ d ∧ d ≤ 57 := by simpa [isdigit] using hd
    have hp := parse_digits_fmt_u c.toNat rest hr
    rw [hds] at hp ⊢
    have hs : skip_space (d :: ds ++ rest) = d :: (ds ++ rest) := by
      have : isspace d = false := by simp [isspace]; omega
      simp [skip_space, this]
    rw [hs]
    have h45 : d ≠ 45 := by omega
    have h43 : d ≠ 43 := by omega
    have hm : (match d :: (ds ++ rest) with
        | 45 :: rest => clamp_long (-(parse_digits rest 0 : Int))
        | 43 :: rest => clamp_long (parse_digits rest 0)
        | rest => clamp_long (parse_digits rest 0)) =
        clamp_long (parse_digits (d :: (ds ++ rest)) 0) := by
      split
      · rename_i heq; simp at heq; omega
      · rename_i heq; simp at heq; omega
      · rfl
    rw [hm]
    rw [List.cons_append] at hp
    rw [hp]
    have : (c.toNat : Int) = c := Int.toNat_of_nonneg (by omega)
    rw [this]
    unfold clamp_long to_int32
    have h1 : ¬ (c < -9223372036854775808) := by omega
    have h2 : ¬ (9223372036854775807 < c) := by omega
    simp only [h1, h2, if_false]
    omega

/-! ## Result decoding -/

/-- C7 at its failing inputs: a result code that is not a number
(`abc`, or empty) is read by `atoi` as 0, and both decoders print code 0 with
the message "Operation successful" instead of the sentinel -1. -/
theorem non_numeric_result_code_renders_success (char_signed : Bool) :
    parse_and_display_simple_result char_signed (some (cstr "<resultCode>abc</resultCode>")) =
      some (cstr "\x7b\"result\":\x7b\"code\":0,\"message\":\"Operation successful\",\"subCode\":0\x7d\x7d\n") ∧
    parse_and_display_list_result char_signed (some (cstr "<resultCode>abc</resultCode>")) =
      cstr "\x7b\"result\":\x7b\"code\":0,\"message\":\"Operation successful\",\"subCode\":0\x7d,\"records\":[]\x7d\n" ∧
    parse_and_display_simple_result char_signed (some (cstr "<resultCode></resultCode>")) =
      some (cstr "\x7b\"result\":\x7b\"code\":0,\"message\":\"Operation successful\",\"subCode\":0\x7d\x7d\n") ∧
    parse_and_display_list_result char_signed (some (cstr "<resultCode></resultCode>")) =
      cstr "\x7b\"result\":\x7b\"code\":0,\"message\":\"Operation successful\",\"subCode\":0\x7d,\"records\":[]\x7d\n" := by
  cases char_signed <;> decide

/-- C10 at its failing input: for a NULL body the list decoder prints
`{"error": "No response data to parse"}` and a newline, the simple decoder
prints the same text without the space after the colon, so the two outputs
differ. -/
theorem null_body_outputs_differ (char_signed : Bool) :
    parse_and_display_list_result char_signed none =
      cstr "\x7b\"error\": \"No response data to parse\"\x7d\n" ∧
    parse_and_display_simple_result char_signed none =
      some (cstr "\x7b\"error\":\"No response data to parse\"\x7d\n") ∧
    parse_and_display_simple_result char_signed none ≠
      some (parse_and_display_list_result char_signed none) := by
  refine ⟨rfl, rfl, ?_⟩
  show some (cstr "\x7b\"error\":\"No response data to parse\"\x7d\n") ≠
    some (cstr "\x7b\"error\": \"No response data to parse\"\x7d\n")
  decide

/-- In the simple decoder the exact difference of the two offsets is never -1:
a `</resultText>` cannot begin at the last byte of `<resultText>`. -/
theorem simple_text_len_ne_neg_one {body : List Nat} {i j : Nat}
    (ho : strstr body (cstr "<resultText>") = some i)
    (hc : strstr body (cstr "</resultText>") = some j) : j ≠ i + 11 := by
  intro heq
  obtain ⟨t, ht⟩ := ((strstr_eq_some_iff _ _ _).1 ho).1
  obtain ⟨t', ht'⟩ := ((strstr_eq_some_iff _ _ _).1 hc).1
  have h1 : body.drop (i + 11) = 62 :: t := by
    rw [← List.drop_drop, ← ht]
    rfl
  rw [← heq, ← ht'] at h1
  have h2 : (cstr "</resultText>" ++ t').head? = some 62 := by rw [h1]; rfl
  have h3 : (cstr "</resultText>" ++ t').head? = some 60 := rfl
  rw [h3] at h2
  exact absurd h2 (by decide)

/-- An occurrence found by `strstr` lies inside the text. -/
theorem strstr_add_le {body needle : List Nat} {i : Nat} (h : strstr body needle = some i)
    (hn : needle ≠ []) : i + needle.length ≤ body.length := by
  have hs := ((strstr_eq_some_iff _ _ _).1 h).split hn
  have := congrArg List.length hs.1
  simp only [List.length_append, hs.2] at this
  omega

/-- For a body shorter than 2^31 bytes `text_len` holds the exact difference of
the two offsets, and the extraction of the result text is defined. -/
theorem simple_result_text_small {body : List Nat} (hlen : body.length < 2147483648) :
    simple_result_text body = some (simple_text_exact body) := by
  unfold simple_result_text simple_text_exact
  cases ho : strstr body (cstr "<resultText>") with
  | none => rfl
  | some i =>
    cases hc : strstr body (cstr "</resultText>") with
    | none => rfl
    | some j =>
      have hi := strstr_add_le ho (by decide)
      have hj := strstr_add_le hc (by decide)
      have e12 : (cstr "<resultText>").length = 12 := rfl
      have e13 : (cstr "</resultText>").length = 13 := rfl
      rw [e12] at hi
      rw [e13] at hj
      have hne := simple_text_len_ne_neg_one ho hc
      have e : to_int32 ((j : Int) - ((i : Int) + 12)) = (j : Int) - ((i : Int) + 12) := by
        unfold to_int32
        omega
      simp only [e]
      have h1 : ¬ ((j : Int) - ((i : Int) + 12) = 2147483647) := by omega
      have h3 : ¬ ((j : Int) - ((i : Int) + 12) + 1 = 0) := by omega
      by_cases h2 : (j : Int) - ((i : Int) + 12) + 1 < 0
      · simp only [h1, h2, if_true, if_false]
      · simp only [h1, h2, h3, if_false]

/-- What the simple decoder prints for a non-NULL body when the extraction of
the result text is defined, piece by piece. -/
theorem parse_and_display_simple_result_of_text (char_signed : Bool) {body : List Nat}
    {text : Option (List Nat)} :
    simple_result_text body = some text →
    parse_and_display_simple_result char_signed (some body) =
      some (cstr "\x7b\"result\":\x7b\"code\":" ++ (fmt_d (parse_result_code body) ++
      (cstr ",\"message\":" ++
      (print_json_string char_signed (get_result_code_message (parse_result_code body)) ++
      (cstr ",\"subCode\":" ++ (fmt_d (parse_result_subcode body) ++
      ((match text with
        | some t => cstr ",\"text\":" ++ print_json_string char_signed (some t)
        | none => []) ++ cstr "\x7d\x7d\n"))))))) := by
  intro h
  simp only [parse_and_display_simple_result, h, print_result_object, List.append_assoc]
  rfl

/-- What the simple decoder prints for a body shorter than 2^31 bytes. -/
theorem parse_and_display_simple_result_shape (char_signed : Bool) (body : List Nat)
    (hlen : body.length < 2147483648) :
    parse_and_display_simple_result char_signed (some body) =
      some (cstr "\x7b\"result\":\x7b\"code\":" ++ (fmt_d (parse_result_code body) ++
      (cstr ",\"message\":" ++
      (print_json_string char_signed (get_result_code_message (parse_result_code body)) ++
      (cstr ",\"subCode\":" ++ (fmt_d (parse_result_subcode body) ++
      ((match simple_text_exact body with
        | some t => cstr ",\"text\":" ++ print_json_string char_signed (some t)
        | none => []) ++ cstr "\x7d\x7d\n"))))))) :=
  parse_and_display_simple_result_of_text char_signed (simple_result_text_small hlen)

/-- When the extraction of the result text has undefined behaviour, the simple
decoder has no defined output. -/
theorem parse_and_display_simple_result_undefined (char_signed : Bool) {body : List Nat}
    (h : simple_result_text body = none) :
    parse_and_display_simple_result char_signed (some body) = none := by
  simp only [parse_and_display_simple_result, h]

/-- What the list decoder prints for a non-NULL body, piece by piece. -/
theorem parse_and_display_list_result_shape (char_signed : Bool) (body : List Nat) :
    parse_and_display_list_result char_signed (some body) =
      cstr "\x7b\"result\":\x7b\"code\":" ++ (fmt_d (parse_result_code body) ++
      (cstr ",\"message\":" ++
      (print_json_string char_signed (get_result_code_message (parse_result_code body)) ++
      (cstr ",\"subCode\":" ++ (fmt_d (parse_result_subcode body) ++
      ((match extract_xml_value body (cstr "resultText") with
        | some t => cstr ",\"text\":" ++ print_json_string char_signed (some t)
        | none => []) ++ (cstr "\x7d" ++ list_tail char_signed body))))))) := by
  simp only [parse_and_display_list_result, print_result_object, list_tail, List.append_assoc]
  rfl

theorem parse_result_code_absent {body : List Nat} (h : ¬ cstr "<resultCode>" <:+: body) :
    parse_result_code body = -1 := by
  unfold parse_result_code
  rw [(strstr_eq_none_iff _ _).2 h]

theorem parse_result_subcode_absent {body : List Nat} (h : ¬ cstr "<resultSubCode>" <:+: body) :
    parse_result_subcode body = 0 := by
  unfold parse_result_subcode
  rw [(strstr_eq_none_iff _ _).2 h]

theorem print_json_string_unknown (char_signed : Bool) :
    print_json_string char_signed (get_result_code_message (-1)) =
      cstr "\"Unknown result code\"" := by
  cases char_signed <;> decide

/-- Absent codes below 2 GiB: a body without `<resultCode>` is rendered by the
list decoder, and by the simple decoder when the body is shorter than 2^31
bytes, with `"code":-1` and `"message":"Unknown result code"`; a body without
`<resultSubCode>` is rendered with the number 0 as `subCode`; and -1 is none of
the table codes 0..6, none of which has the message of -1. -/
theorem absent_codes_render_defaults :
    (∀ (char_signed : Bool) (body : List Nat), ¬ cstr "<resultCode>" <:+: body →
      (body.length < 2147483648 →
        ∃ rest, parse_and_display_simple_result char_signed (some body) =
          some (cstr "\x7b\"result\":\x7b\"code\":-1,\"message\":\"Unknown result code\",\"subCode\":" ++ rest)) ∧
      (∃ rest, parse_and_display_list_result char_signed (some body) =
        cstr "\x7b\"result\":\x7b\"code\":-1,\"message\":\"Unknown result code\",\"subCode\":" ++ rest)) ∧
    (∀ (char_signed : Bool) (body : List Nat), ¬ cstr "<resultSubCode>" <:+: body →
      (body.length < 2147483648 →
        ∃ c rest, parse_and_display_simple_result char_signed (some body) =
          some (cstr "\x7b\"result\":\x7b\"code\":" ++ fmt_d c ++ cstr ",\"message\":" ++
            print_json_string char_signed (get_result_code_message c) ++
            cstr ",\"subCode\":0" ++ rest) ∧
          (rest.head? = some 0x7d ∨ rest.head? = some 0x2c)) ∧
      (∃ c rest, parse_and_display_list_result char_signed (some body) =
        cstr "\x7b\"result\":\x7b\"code\":" ++ fmt_d c ++ cstr ",\"message\":" ++
          print_json_string char_signed (get_result_code_message c) ++
          cstr ",\"subCode\":0" ++ rest ∧
        (rest.head? = some 0x7d ∨ rest.head? = some 0x2c))) ∧
    (∀ c : Int, 0 ≤ c → c ≤ 6 →
      c ≠ -1 ∧ get_result_code_message c ≠ get_result_code_message (-1)) := by
  refine ⟨?_, ?_, ?_⟩
  · intro char_signed body h
    constructor
    · intro hlen
      refine ⟨fmt_d (parse_result_subcode body) ++
        ((match simple_text_exact body with
          | some t => cstr ",\"text\":" ++ print_json_string char_signed (some t)
          | none => []) ++ cstr "\x7d\x7d\n"), ?_⟩
      rw [parse_and_display_simple_result_shape _ _ hlen, parse_result_code_absent h,
        print_json_string_unknown]
      rfl
    · refine ⟨fmt_d (parse_result_subcode body) ++
        ((match extract_xml_value body (cstr "resultText") with
          | some t => cstr ",\"text\":" ++ print_json_string char_signed (some t)
          | none => []) ++ (cstr "\x7d" ++ list_tail char_signed body)), ?_⟩
      rw [parse_and_display_list_result_shape, parse_result_code_absent h,
        print_json_string_unknown]
      rfl
  · intro char_signed body h
    constructor
    · intro hlen
      refine ⟨parse_result_code body, (match simple_text_exact body with
        | some t => cstr ",\"text\":" ++ print_json_string char_signed (some t)
        | none => []) ++ cstr "\x7d\x7d\n", ?_, ?_⟩
      · rw [parse_and_display_simple_result_shape _ _ hlen, parse_result_subcode_absent h]
        simp only [List.append_assoc]
        rfl
      · cases simple_text_exact body with
        | none => left; rfl
        | some t => right; rfl
    · refine ⟨parse_result_code body, (match extract_xml_value body (cstr "resultText") with
        | some t => cstr ",\"text\":" ++ print_json_string char_signed (some t)
        | none => []) ++ (cstr "\x7d" ++ list_tail char_signed body), ?_, ?_⟩
      · rw [parse_and_display_list_result_shape, parse_result_subcode_absent h]
        simp only [List.append_assoc]
        rfl
      · cases extract_xml_value body (cstr "resultText") with
        | none => left; rfl
        | some t => right; rfl
  · intro c h0 h6
    refine ⟨by omega, ?_⟩
    have : c = 0 ∨ c = 1 ∨ c = 2 ∨ c = 3 ∨ c = 4 ∨ c = 5 ∨ c = 6 := by omega
    rcases this with rfl | rfl | rfl | rfl | rfl | rfl | rfl <;> decide

/-- The defaults at an empty body, which has neither tag, and the table
code 0. -/
theorem absent_codes_render_defaults_witness :
    ((∃ rest, parse_and_display_simple_result true (some []) =
      some (cstr "\x7b\"result\":\x7b\"code\":-1,\"message\":\"Unknown result code\",\"subCode\":" ++ rest)) ∧
    (∃ rest, parse_and_display_list_result true (some []) =
      cstr "\x7b\"result\":\x7b\"code\":-1,\"message\":\"Unknown result code\",\"subCode\":" ++ rest)) ∧
    ((0 : Int) ≠ -1 ∧ get_result_code_message 0 ≠ get_result_code_message (-1)) :=
  ⟨⟨(absent_codes_render_defaults.1 true [] (by simp [cstr])).1 (by decide),
    (absent_codes_render_defaults.1 true [] (by simp [cstr])).2⟩,
   absent_codes_render_defaults.2.2 0 (by decide) (by decide)⟩

/-- The number `atoi` reads after the first `<tag>` when the extractor finds
the `%d` text of a 32-bit integer under that tag. -/
theorem atoi_after_open_tag {body tag : List Nat} {c : Int} (h : tag.length < 253)
    (hlo : -2147483648 ≤ c) (hhi : c ≤ 2147483647)
    (hx : extract_xml_value body tag = some (fmt_d c)) :
    ∃ i, strstr body (open_tag tag) = some i ∧
      atoi (body.drop (i + (open_tag tag).length)) = c := by
  obtain ⟨pre, post, hb, h1, _⟩ := (extract_xml_value_some_iff body tag (fmt_d c) h).1 hx
  have hb' : body = pre ++ open_tag tag ++ (fmt_d c ++ (close_tag tag ++ post)) := by
    rw [hb]; simp only [List.append_assoc]
  refine ⟨pre.length, (strstr_eq_some_iff _ _ _).2 (FirstAt.of_append hb' h1), ?_⟩
  rw [drop_of_append hb']
  apply atoi_fmt_d c _ hlo hhi
  intro x hxh
  have : x = 60 := by
    simp [close_tag, cstr] at hxh
    omega
  subst this
  rfl

theorem parse_result_code_of_extract {body : List Nat} {c : Int}
    (hlo : -2147483648 ≤ c) (hhi : c ≤ 2147483647)
    (hx : extract_xml_value body (cstr "resultCode") = some (fmt_d c)) :
    parse_result_code body = c := by
  obtain ⟨i, hi, ha⟩ := atoi_after_open_tag (by decide) hlo hhi hx
  have e : open_tag (cstr "resultCode") = cstr "<resultCode>" := by decide
  rw [e] at hi ha
  unfold parse_result_code
  rw [hi]
  exact ha

theorem parse_result_subcode_of_extract {body : List Nat} {s : Int}
    (hlo : -2147483648 ≤ s) (hhi : s ≤ 2147483647)
    (hx : extract_xml_value body (cstr "resultSubCode") = some (fmt_d s)) :
    parse_result_subcode body = s := by
  obtain ⟨i, hi, ha⟩ := atoi_after_open_tag (by decide) hlo hhi hx
  have e : open_tag (cstr "resultSubCode") = cstr "<resultSubCode>" := by decide
  rw [e] at hi ha
  unfold parse_result_subcode
  rw [hi]
  exact ha

/-- A closing tag found before the end of the opening tag makes the exact
`text_len + 1` negative: below 2 GiB the simple decoder has no text whenever
the extractor has none. -/
theorem simple_text_exact_none {body : List Nat}
    (hx : extract_xml_value body (cstr "resultText") = none) :
    simple_text_exact body = none := by
  have eo : open_tag (cstr "resultText") = cstr "<resultText>" := by decide
  have ec : close_tag (cstr "resultText") = cstr "</resultText>" := by decide
  rw [extract_xml_value_eq (by decide), eo, ec] at hx
  unfold simple_text_exact
  cases ho : strstr body (cstr "<resultText>") with
  | none => rfl
  | some i =>
    cases hc : strstr body (cstr "</resultText>") with
    | none => rfl
    | some j =>
      have hlen : (cstr "<resultText>").length = 12 := rfl
      rw [ho, hlen] at hx
      have hnone : strstr (body.drop (i + 12)) (cstr "</resultText>") = none := by
        cases h' : strstr (body.drop (i + 12)) (cstr "</resultText>") with
        | none => rfl
        | some k => simp [h'] at hx
      have hni := (strstr_eq_none_iff _ _).1 hnone
      have hfo := (strstr_eq_some_iff _ _ _).1 ho
      have hfc := (strstr_eq_some_iff _ _ _).1 hc
      have hj : j < i + 11 := by
        by_contra hge
        have hge' : i + 11 ≤ j := by omega
        rcases Nat.eq_or_lt_of_le hge' with heq | hlt
        · exact simple_text_len_ne_neg_one ho hc heq.symm
        · apply hni
          obtain ⟨t', ht'⟩ := hfc.1
          refine ⟨(body.drop (i + 12)).take (j - (i + 12)), t', ?_⟩
          rw [List.append_assoc, ht']
          have : body.drop j = (body.drop (i + 12)).drop (j - (i + 12)) := by
            rw [List.drop_drop]
            congr 1
            omega
          rw [this, List.take_append_drop]
      have hneg : ((j : Int) - ((i : Int) + 12) + 1 < 0) := by omega
      simp only [hneg, if_true]

theorem print_json_string_message (char_signed : Bool) (c : Int) :
    ∃ M, get_result_code_message c = some M ∧
      print_json_string char_signed (get_result_code_message c) = cstr "\"" ++ (M ++ cstr "\"") := by
  unfold get_result_code_message
  split_ifs <;> exact ⟨_, rfl, by cases char_signed <;> decide⟩

/-- Results without text below 2 GiB: for a body shorter than 2^31 bytes
without a resultText element whose resultCode and resultSubCode elements hold
the `%d` texts of 32-bit integers `c` and `s`, the simple decoder prints
`{"result":{"code":c,"message":"M","subCode":s}}` and a newline, `M` being the
message of `c`. -/
theorem simple_result_without_text (char_signed : Bool) (body : List Nat) (c s : Int)
    (hlen : body.length < 2147483648)
    (hc : -2147483648 ≤ c ∧ c ≤ 2147483647) (hs : -2147483648 ≤ s ∧ s ≤ 2147483647)
    (hcode : extract_xml_value body (cstr "resultCode") = some (fmt_d c))
    (hsub : extract_xml_value body (cstr "resultSubCode") = some (fmt_d s))
    (htext : extract_xml_value body (cstr "resultText") = none) :
    (∃ M, get_result_code_message c = some M ∧
      parse_and_display_simple_result char_signed (some body) =
        some (cstr "\x7b\"result\":\x7b\"code\":" ++ fmt_d c ++ cstr ",\"message\":\"" ++ M ++
          cstr "\",\"subCode\":" ++ fmt_d s ++ cstr "\x7d\x7d\n")) ∧
    parse_and_display_simple_result char_signed
        (some (cstr "<resultCode>0</resultCode><resultSubCode>0</resultSubCode>")) =
      some (cstr "\x7b\"result\":\x7b\"code\":0,\"message\":\"Operation successful\",\"subCode\":0\x7d\x7d\n") := by
  constructor
  · obtain ⟨M, hM, hp⟩ := print_json_string_message char_signed c
    refine ⟨M, hM, ?_⟩
    rw [parse_and_display_simple_result_shape _ _ hlen,
      parse_result_code_of_extract hc.1 hc.2 hcode,
      parse_result_subcode_of_extract hs.1 hs.2 hsub, simple_text_exact_none htext, hp]
    simp only [List.append_assoc, List.nil_append]
    rfl
  · cases char_signed <;> decide

/-- A result without text: code 5 with sub-code -3 between other elements. -/
theorem simple_result_without_text_witness :
    (∃ M, get_result_code_message 5 = some M ∧
      parse_and_display_simple_result true
          (some (cstr "<r><resultCode>5</resultCode><resultSubCode>-3</resultSubCode></r>")) =
        some (cstr "\x7b\"result\":\x7b\"code\":" ++ fmt_d 5 ++ cstr ",\"message\":\"" ++ M ++
          cstr "\",\"subCode\":" ++ fmt_d (-3) ++ cstr "\x7d\x7d\n")) ∧
    parse_and_display_simple_result true
        (some (cstr "<resultCode>0</resultCode><resultSubCode>0</resultSubCode>")) =
      some (cstr "\x7b\"result\":\x7b\"code\":0,\"message\":\"Operation successful\",\"subCode\":0\x7d\x7d\n") :=
  simple_result_without_text true
    (cstr "<r><resultCode>5</resultCode><resultSubCode>-3</resultSubCode></r>") 5 (-3)
    (by decide) (by decide) (by decide) (by decide) (by decide) (by decide)

/-! ## The record loop terminates within its fuel -/

/-- Any two amounts of fuel above `items_end - current` give the same output:
the loop never stops for lack of fuel. -/
theorem record_loop_fuel (char_signed : Bool) (response_data : List Nat) (items_end : Nat) :
    ∀ (fuel fuel' current : Nat) (first_record : Bool),
      items_end - current < fuel → items_end - current < fuel' →
      record_loop char_signed response_data items_end fuel current first_record =
        record_loop char_signed response_data items_end fuel' current first_record := by
  intro fuel
  induction fuel with
  | zero => intro fuel' current first_record h; omega
  | succ fuel ih =>
    intro fuel' current first_record h h'
    cases fuel' with
    | zero => omega
    | succ fuel' =>
      by_cases hlt : current < items_end
      · cases hs : strstr (response_data.drop current) (cstr "<DNSRecordListItem>") with
        | none => simp only [record_loop, hlt, hs, if_true]
        | some off_start =>
          by_cases h1 : current + off_start ≥ items_end
          · simp only [record_loop, hlt, hs, h1, if_true]
          · cases he : strstr (response_data.drop (current + off_start))
                (cstr "</DNSRecordListItem>") with
            | none => simp only [record_loop, hlt, hs, h1, he, if_true, if_false]
            | some off_end =>
              by_cases h2 : current + off_start + off_end ≥ items_end
              · simp only [record_loop, hlt, hs, h1, he, h2, if_true, if_false]
              · have e := ih fuel' (current + off_start + off_end + 20)
                simp only [record_loop, hlt, hs, h1, he, h2, if_true, if_false]
                rw [e false (by omega) (by omega), e first_record (by omega) (by omega)]
      · simp only [record_loop, hlt, if_false]

/-- The fuel `parse_and_display_list_result` starts the loop with is enough. -/
theorem record_loop_fuel_enough (char_signed : Bool) (body : List Nat)
    (items_start items_end : Nat) (h : strstr body (cstr "</resultItems>") = some items_end)
    (fuel : Nat) (hf : items_end - (items_start + 13) < fuel) :
    record_loop char_signed body items_end (body.length + 1) (items_start + 13) true =
      record_loop char_signed body items_end fuel (items_start + 13) true := by
  apply record_loop_fuel
  · have hfa := (strstr_eq_some_iff _ _ _).1 h
    rcases hfa.decompose with hle | hnil
    · omega
    · exact absurd hnil (by decide)
  · exact hf

/-! ## Needles that begin with `<` and hold no other `<` -/

/-- An occurrence that begins inside `pre` of a needle whose only `<` is its
first byte lies inside `pre`, when the text after `pre` begins with `<`. -/
theorem prefix_within {needle pre rest : List Nat} (hn : 60 ∉ needle) {j : Nat}
    (hj : j < pre.length) (h : (60 :: needle) <+: (pre ++ 60 :: rest).drop j) :
    (60 :: needle) <+: pre.drop j := by
  rw [List.drop_append_of_le_length (by omega)] at h
  have hp : pre.drop j <+: pre.drop j ++ 60 :: rest := List.prefix_append _ _
  by_cases hl : (60 :: needle).length ≤ (pre.drop j).length
  · exact List.prefix_of_prefix_length_le h hp hl
  · exfalso
    have hp2 : pre.drop j ++ [60] <+: pre.drop j ++ 60 :: rest := by
      refine ⟨rest, ?_⟩
      simp
    have hl2 : (pre.drop j ++ [60]).length ≤ (60 :: needle).length := by
      simp only [List.length_append, List.length_singleton]
      omega
    obtain ⟨t, ht⟩ := List.prefix_of_prefix_length_le hp2 h hl2
    have hne : pre.drop j ≠ [] := by
      intro he
      have := congrArg List.length he
      simp at this
      omega
    obtain ⟨x, xs, hx⟩ := List.exists_cons_of_ne_nil hne
    rw [hx] at ht
    simp only [List.cons_append, List.cons.injEq, List.append_assoc] at ht
    apply hn
    rw [← ht.2]
    simp

/-- Such a needle, absent from `pre`, is first found right after `pre`. -/
theorem firstAt_after {needle pre rest : List Nat} (hn : 60 ∉ needle)
    (hp : ¬ (60 :: needle) <:+: pre) :
    FirstAt (60 :: needle) (pre ++ ((60 :: needle) ++ rest)) pre.length := by
  refine ⟨by rw [List.drop_left]; exact List.prefix_append _ _, ?_⟩
  intro j hj hpre
  have h2 : (60 :: needle) <+: (pre ++ 60 :: (needle ++ rest)).drop j := by
    simpa using hpre
  have := prefix_within hn hj h2
  exact hp (this.isInfix.trans (List.drop_suffix j pre).isInfix)

/-- Such a needle, absent from `pre`, is not found before the end of `pre`
when the text after `pre` begins with `<`. -/
theorem strstr_ge_of_not_infix {needle pre rest : List Nat} (hn : 60 ∉ needle)
    (hp : ¬ (60 :: needle) <:+: pre) {off : Nat}
    (h : strstr (pre ++ 60 :: rest) (60 :: needle) = some off) : pre.length ≤ off := by
  by_contra hlt
  have hf := (strstr_eq_some_iff _ _ _).1 h
  have := prefix_within hn (by omega : off < pre.length) hf.1
  exact hp (this.isInfix.trans (List.drop_suffix off pre).isInfix)

/-! ## The record loop on well-formed blocks -/

theorem item_open_eq : cstr "<DNSRecordListItem>" = 60 :: cstr "DNSRecordListItem>" := rfl

theorem item_close_eq : cstr "</DNSRecordListItem>" = 60 :: cstr "/DNSRecordListItem>" := rfl

theorem items_close_eq : cstr "</resultItems>" = 60 :: cstr "/resultItems>" := rfl

/-- One iteration of the loop on a block that is closed before `items_end`. -/
theorem record_loop_step (char_signed : Bool) (response_data : List Nat) (items_end fuel : Nat)
    (current : Nat) (first_record : Bool) (sep b rest : List Nat)
    (hd : response_data.drop current =
      sep ++ (cstr "<DNSRecordListItem>" ++ (b ++ (cstr "</DNSRecordListItem>" ++ rest))))
    (hsep : ¬ cstr "<DNSRecordListItem>" <:+: sep)
    (hb : ¬ cstr "</DNSRecordListItem>" <:+: b)
    (hend : current + sep.length + 19 + b.length + 20 ≤ items_end)
    (hlen : b.length < 18446744073709551616) :
    record_loop char_signed response_data items_end (fuel + 1) current first_record =
      if b.length < 4096 then
        (if first_record then [] else cstr ",") ++ (print_record char_signed b ++
          record_loop char_signed response_data items_end fuel
            (current + sep.length + 19 + b.length + 20) false)
      else
        record_loop char_signed response_data items_end fuel
          (current + sep.length + 19 + b.length + 20) first_record := by
  have hs1 : strstr (response_data.drop current) (cstr "<DNSRecordListItem>") =
      some sep.length := by
    rw [hd, item_open_eq]
    exact (strstr_eq_some_iff _ _ _).2 (firstAt_after (by decide) (by rwa [← item_open_eq]))
  have hd2 : response_data.drop (current + sep.length) =
      cstr "<DNSRecordListItem>" ++ (b ++ (cstr "</DNSRecordListItem>" ++ rest)) := by
    rw [← List.drop_drop, hd, List.drop_left]
  have hs2 : strstr (response_data.drop (current + sep.length)) (cstr "</DNSRecordListItem>") =
      some (b.length + 19) := by
    rw [hd2, strstr_skip _ (by decide)]
    have : strstr (b ++ (cstr "</DNSRecordListItem>" ++ rest)) (cstr "</DNSRecordListItem>") =
        some b.length := by
      rw [item_close_eq]
      exact (strstr_eq_some_iff _ _ _).2 (firstAt_after (by decide) (by rwa [← item_close_eq]))
    rw [this]
    rfl
  have hd3 : response_data.drop (current + sep.length + 19) =
      b ++ (cstr "</DNSRecordListItem>" ++ rest) := by
    rw [← List.drop_drop, hd2]
    rfl
  have h0 : current < items_end := by omega
  have h1 : ¬ (current + sep.length ≥ items_end) := by omega
  have h2 : ¬ (current + sep.length + (b.length + 19) ≥ items_end) := by omega
  have hrl : (((current + sep.length + (b.length + 19) : Nat) : Int) -
      ((current + sep.length + 19 : Nat) : Int)) % 18446744073709551616 = (b.length : Int) := by
    omega
  have hnext : current + sep.length + (b.length + 19) + 20 =
      current + sep.length + 19 + b.length + 20 := by omega
  rw [record_loop]
  simp only [h0, if_true, hs1, h1, if_false, hs2, h2, hrl, hd3, Int.toNat_ofNat,
    List.take_left, hnext]
  by_cases hsmall : b.length < 4096
  · have : (b.length : Int) < 4096 := by omega
    simp only [hsmall, this, if_true, List.append_assoc]
  · have : ¬ (b.length : Int) < 4096 := by omega
    simp only [hsmall, this, if_false]

/-- The loop on a run of well-formed blocks that ends at `endp`, where the loop
stops: it writes the objects of the blocks shorter than 4096 bytes. -/
theorem record_loop_blocks (char_signed : Bool) (response_data : List Nat)
    (items_end endp : Nat) (hle : endp ≤ items_end)
    (hstop : ∀ fuel first_record,
      record_loop char_signed response_data items_end fuel endp first_record = []) :
    ∀ (bs : List (List Nat × List Nat)) (fuel current : Nat) (first_record : Bool)
      (rest : List Nat),
      response_data.drop current = blocks_text bs ++ rest →
      current + (blocks_text bs).length = endp →
      (∀ p ∈ bs, ¬ cstr "<DNSRecordListItem>" <:+: p.1 ∧
        ¬ cstr "</DNSRecordListItem>" <:+: p.2 ∧ p.2.length < 18446744073709551616) →
      items_end - current < fuel →
      record_loop char_signed response_data items_end fuel current first_record =
        loop_text char_signed first_record (bs.map Prod.snd) := by
  intro bs
  induction bs with
  | nil =>
    intro fuel current first_record rest _ hc _ _
    have : current = endp := by simpa [blocks_text] using hc
    rw [this, hstop]
    rfl
  | cons p bs ih =>
    intro fuel current first_record rest hd hc hbs hf
    have hl : (blocks_text (p :: bs)).length =
        p.1.length + 19 + p.2.length + 20 + (blocks_text bs).length := by
      have e1 : (cstr "<DNSRecordListItem>").length = 19 := rfl
      have e2 : (cstr "</DNSRecordListItem>").length = 20 := rfl
      simp only [blocks_text, List.length_append, e1, e2]
      omega
    obtain ⟨h1, h2, h3⟩ := hbs p (by simp)
    have hd' : response_data.drop current = p.1 ++ (cstr "<DNSRecordListItem>" ++
        (p.2 ++ (cstr "</DNSRecordListItem>" ++ (blocks_text bs ++ rest)))) := by
      rw [hd]
      simp only [blocks_text, List.append_assoc]
    cases fuel with
    | zero => omega
    | succ fuel =>
      rw [record_loop_step char_signed response_data items_end fuel current first_record
        p.1 p.2 (blocks_text bs ++ rest) hd' h1 h2 (by omega) h3]
      have hnext : response_data.drop (current + p.1.length + 19 + p.2.length + 20) =
          blocks_text bs ++ rest := by
        have e : current + p.1.length + 19 + p.2.length + 20 =
            current + (p.1 ++ (cstr "<DNSRecordListItem>" ++
              (p.2 ++ cstr "</DNSRecordListItem>"))).length := by
          have e1 : (cstr "<DNSRecordListItem>").length = 19 := rfl
          have e2 : (cstr "</DNSRecordListItem>").length = 20 := rfl
          simp only [List.length_append, e1, e2]
          omega
        rw [e, ← List.drop_drop, hd']
        have : p.1 ++ (cstr "<DNSRecordListItem>" ++
            (p.2 ++ (cstr "</DNSRecordListItem>" ++ (blocks_text bs ++ rest)))) =
            (p.1 ++ (cstr "<DNSRecordListItem>" ++ (p.2 ++ cstr "</DNSRecordListItem>"))) ++
              (blocks_text bs ++ rest) := by
          simp only [List.append_assoc]
        rw [this, List.drop_left]
      have hbs' : ∀ q ∈ bs, ¬ cstr "<DNSRecordListItem>" <:+: q.1 ∧
          ¬ cstr "</DNSRecordListItem>" <:+: q.2 ∧ q.2.length < 18446744073709551616 :=
        fun q hq => hbs q (by simp [hq])
      rw [ih fuel _ false rest hnext (by omega) hbs' (by omega),
        ih fuel _ first_record rest hnext (by omega) hbs' (by omega)]
      rfl

/-- The loop stops where only text without `<DNSRecordListItem>` is left before
`</resultItems>`. -/
theorem record_loop_stop_at_end (char_signed : Bool) (response_data : List Nat)
    (items_end endp : Nat) (sep tl : List Nat)
    (hd : response_data.drop endp = sep ++ (cstr "</resultItems>" ++ tl))
    (he : items_end = endp + sep.length)
    (hsep : ¬ cstr "<DNSRecordListItem>" <:+: sep) (fuel : Nat) (first_record : Bool) :
    record_loop char_signed response_data items_end fuel endp first_record = [] := by
  cases fuel with
  | zero => rfl
  | succ fuel =>
    rw [record_loop]
    by_cases h0 : endp < items_end
    · cases hs : strstr (response_data.drop endp) (cstr "<DNSRecordListItem>") with
      | none => simp only [h0, if_true]
      | some off =>
        have hge : sep.length ≤ off := by
          rw [hd, items_close_eq, List.cons_append, item_open_eq] at hs
          exact strstr_ge_of_not_infix (by decide) (by rwa [← item_open_eq]) hs
        have h1 : endp + off ≥ items_end := by omega
        simp only [h0, if_true, h1]
    · simp only [h0, if_false]

/-- The loop stops at a block that is opened but not closed before
`</resultItems>`. -/
theorem record_loop_stop_at_open (char_signed : Bool) (response_data : List Nat)
    (items_end endp : Nat) (sep junk tl : List Nat)
    (hd : response_data.drop endp =
      sep ++ (cstr "<DNSRecordListItem>" ++ (junk ++ (cstr "</resultItems>" ++ tl))))
    (he : items_end = endp + sep.length + 19 + junk.length)
    (hsep : ¬ cstr "<DNSRecordListItem>" <:+: sep)
    (hjunk : ¬ cstr "</DNSRecordListItem>" <:+: junk) (fuel : Nat) (first_record : Bool) :
    record_loop char_signed response_data items_end fuel endp first_record = [] := by
  cases fuel with
  | zero => rfl
  | succ fuel =>
    have hs1 : strstr (response_data.drop endp) (cstr "<DNSRecordListItem>") =
        some sep.length := by
      rw [hd, item_open_eq]
      exact (strstr_eq_some_iff _ _ _).2 (firstAt_after (by decide) (by rwa [← item_open_eq]))
    have hd2 : response_data.drop (endp + sep.length) =
        cstr "<DNSRecordListItem>" ++ (junk ++ (cstr "</resultItems>" ++ tl)) := by
      rw [← List.drop_drop, hd, List.drop_left]
    have h0 : endp < items_end := by omega
    have h1 : ¬ (endp + sep.length ≥ items_end) := by omega
    rw [record_loop]
    simp only [h0, if_true, hs1, h1, if_false]
    cases hs2 : strstr (response_data.drop (endp + sep.length)) (cstr "</DNSRecordListItem>") with
    | none => rfl
    | some off =>
      rw [hd2, strstr_skip _ (by decide)] at hs2
      cases hs3 : strstr (junk ++ (cstr "</resultItems>" ++ tl)) (cstr "</DNSRecordListItem>") with
      | none => simp [hs3] at hs2
      | some off3 =>
        have hge : junk.length ≤ off3 := by
          rw [items_close_eq, List.cons_append, item_close_eq] at hs3
          exact strstr_ge_of_not_infix (by decide) (by rwa [← item_close_eq]) hs3
        rw [hs3] at hs2
        have e19 : (cstr "<DNSRecordListItem>").length = 19 := rfl
        simp only [Option.map_some', e19, Option.some.injEq] at hs2
        have h2 : endp + sep.length + off ≥ items_end := by omega
        simp only [h2, if_true]

/-- The two searches that bound the `<resultItems>` section, and the text the
loop starts on. -/
theorem items_section (body head items tl : List Nat)
    (hbody : body = head ++ (cstr "<resultItems>" ++ (items ++ (cstr "</resultItems>" ++ tl))))
    (hopen : ¬ cstr "<resultItems>" <:+: head)
    (hclose : ¬ cstr "</resultItems>" <:+: head ++ (cstr "<resultItems>" ++ items)) :
    strstr body (cstr "<resultItems>") = some head.length ∧
    strstr body (cstr "</resultItems>") = some (head.length + 13 + items.length) ∧
    body.drop (head.length + 13) = items ++ (cstr "</resultItems>" ++ tl) := by
  have eo : cstr "<resultItems>" = 60 :: cstr "resultItems>" := rfl
  have e13 : (cstr "<resultItems>").length = 13 := rfl
  refine ⟨?_, ?_, ?_⟩
  · rw [hbody, eo]
    exact (strstr_eq_some_iff _ _ _).2 (firstAt_after (by decide) (by rwa [← eo]))
  · have hb2 : body = (head ++ (cstr "<resultItems>" ++ items)) ++
        (cstr "</resultItems>" ++ tl) := by
      rw [hbody]; simp only [List.append_assoc]
    have hl : (head ++ (cstr "<resultItems>" ++ items)).length =
        head.length + 13 + items.length := by
      simp only [List.length_append, e13]; omega
    rw [hb2, items_close_eq, ← hl]
    exact (strstr_eq_some_iff _ _ _).2 (firstAt_after (by decide) (by rwa [← items_close_eq]))
  · have hb2 : body = (head ++ cstr "<resultItems>") ++
        (items ++ (cstr "</resultItems>" ++ tl)) := by
      rw [hbody]; simp only [List.append_assoc]
    have hl : (head ++ cstr "<resultItems>").length = head.length + 13 := by
      simp only [List.length_append, e13]
    rw [← hl, hb2, List.drop_left]

/-! ## The list decoder -/

/-- The output of the list decoder for a non-NULL body: the result object and
what follows it. -/
theorem parse_and_display_list_result_eq (char_signed : Bool) (body : List Nat) :
    parse_and_display_list_result char_signed (some body) =
      cstr "\x7b" ++ (print_result_object char_signed (parse_result_code body)
        (parse_result_subcode body) (extract_xml_value body (cstr "resultText")) ++
        list_tail char_signed body) := by
  simp only [parse_and_display_list_result, list_tail, List.append_assoc]

theorem list_tail_of_ne_zero (char_signed : Bool) {body : List Nat}
    (h : parse_result_code body ≠ 0) : list_tail char_signed body = cstr "\x7d\n" := by
  simp only [list_tail, h, if_false, List.nil_append]

theorem list_tail_of_zero (char_signed : Bool) {body : List Nat}
    (h : parse_result_code body = 0) :
    list_tail char_signed body =
      cstr ",\"records\":[" ++ (list_records char_signed body ++
        (cstr "]" ++ (count_member body ++ cstr "\x7d\n"))) := by
  simp only [list_tail, h, if_true, list_records, count_member, List.append_assoc]

/-- For a body in which the decoder reads a result code other than 0 the list
decoder writes the result object and closes the document. -/
theorem list_result_of_nonzero_code (char_signed : Bool) (body : List Nat)
    (h : parse_result_code body ≠ 0) :
    parse_and_display_list_result char_signed (some body) =
      cstr "\x7b" ++ print_result_object char_signed (parse_result_code body)
        (parse_result_subcode body) (extract_xml_value body (cstr "resultText")) ++
      cstr "\x7d\n" := by
  rw [parse_and_display_list_result_eq, list_tail_of_ne_zero char_signed h, List.append_assoc]

/-- A result code outside the 32-bit range can be read as 0: `atoi` reads
4294967296 as 0, and the `records` member is written. -/
theorem list_result_code_wraps :
    parse_result_code (cstr "<resultCode>4294967296</resultCode>") = 0 ∧
    parse_and_display_list_result true (some (cstr "<resultCode>4294967296</resultCode>")) =
      cstr "\x7b\"result\":\x7b\"code\":0,\"message\":\"Operation successful\",\"subCode\":0\x7d,\"records\":[]\x7d\n" := by
  decide

/-- C11 as stated fails: with result code 5 the output is the result object
alone, and the text `"records"` does not occur in it. -/
theorem list_result_code5_has_no_records :
    parse_result_code body_code5 = 5 ∧
    parse_and_display_list_result true (some body_code5) =
      cstr "\x7b\"result\":\x7b\"code\":5,\"message\":\"Operation failed - object not found\",\"subCode\":0\x7d\x7d\n" ∧
    ¬ cstr "\"records\"" <:+: parse_and_display_list_result true (some body_code5) := by
  have h : parse_and_display_list_result true (some body_code5) =
      cstr "\x7b\"result\":\x7b\"code\":5,\"message\":\"Operation failed - object not found\",\"subCode\":0\x7d\x7d\n" := by
    decide
  refine ⟨by decide, h, ?_⟩
  rw [h]
  exact (strstr_eq_none_iff _ _).1 (by decide)

/-- What the loop writes for a run of blocks, as a comma-separated list of the
objects of the blocks shorter than 4096 bytes. -/
theorem loop_text_eq (char_signed : Bool) (bs : List (List Nat)) (first_record : Bool) :
    loop_text char_signed first_record bs =
      if bs.filter (fun b => decide (b.length < 4096)) = [] then []
      else (if first_record then [] else cstr ",") ++
        records_text char_signed (bs.filter (fun b => decide (b.length < 4096))) := by
  induction bs generalizing first_record with
  | nil => rfl
  | cons b bs ih =>
    by_cases hb : b.length < 4096
    · have hf : (b :: bs).filter (fun b => decide (b.length < 4096)) =
          b :: bs.filter (fun b => decide (b.length < 4096)) := by
        simp [List.filter_cons, hb]
      rw [hf]
      simp only [loop_text, hb, if_true, ih false]
      cases hfl : bs.filter (fun b => decide (b.length < 4096)) with
      | nil => simp [records_text]
      | cons c cs => simp [records_text]
    · have hf : (b :: bs).filter (fun b => decide (b.length < 4096)) =
          bs.filter (fun b => decide (b.length < 4096)) := by
        simp [List.filter_cons, hb]
      rw [hf]
      simp only [loop_text, hb, if_false, ih first_record]

theorem loop_text_all_small (char_signed : Bool) (bs : List (List Nat))
    (h : ∀ b ∈ bs, b.length < 4096) :
    loop_text char_signed true bs = records_text char_signed bs := by
  have hf : bs.filter (fun b => decide (b.length < 4096)) = bs :=
    List.filter_eq_self.2 (fun b hb => by simpa using h b hb)
  rw [loop_text_eq, hf]
  cases bs with
  | nil => rfl
  | cons b bs => simp

/-- The output for a section of closed blocks shorter than 4096 bytes: for a
body with result code 0 whose text between the first `<resultItems>` and the
first `</resultItems>`, which does not occur earlier, is a run of blocks
`<DNSRecordListItem>b</DNSRecordListItem>`, each `b` without the closing tag,
separated by text without the opening tag, the array holds `print_record` of
each inner text, in order and separated by commas. -/
theorem list_result_small_blocks_layout (char_signed : Bool) (body head tl sep_last : List Nat)
    (bs : List (List Nat × List Nat))
    (hcode : parse_result_code body = 0)
    (hbody : body = head ++ (cstr "<resultItems>" ++
      ((blocks_text bs ++ sep_last) ++ (cstr "</resultItems>" ++ tl))))
    (hopen : ¬ cstr "<resultItems>" <:+: head)
    (hclose : ¬ cstr "</resultItems>" <:+:
      head ++ (cstr "<resultItems>" ++ (blocks_text bs ++ sep_last)))
    (hbs : ∀ p ∈ bs, ¬ cstr "<DNSRecordListItem>" <:+: p.1 ∧
      ¬ cstr "</DNSRecordListItem>" <:+: p.2 ∧ p.2.length < 4096)
    (hlast : ¬ cstr "<DNSRecordListItem>" <:+: sep_last) :
    parse_and_display_list_result char_signed (some body) =
      cstr "\x7b" ++ print_result_object char_signed 0 (parse_result_subcode body)
        (extract_xml_value body (cstr "resultText")) ++
      cstr ",\"records\":[" ++ records_text char_signed (bs.map Prod.snd) ++ cstr "]" ++
      count_member body ++ cstr "\x7d\n" := by
  obtain ⟨h1, h2, h3⟩ := items_section body head (blocks_text bs ++ sep_last) tl hbody hopen hclose
  have hrec : list_records char_signed body = records_text char_signed (bs.map Prod.snd) := by
    simp only [list_records, h1, h2]
    rw [record_loop_blocks char_signed body (head.length + 13 + (blocks_text bs ++ sep_last).length)
      (head.length + 13 + (blocks_text bs).length)
      (by simp only [List.length_append]; omega)
      (record_loop_stop_at_end char_signed body _ _ sep_last tl
        (by rw [← List.drop_drop, h3, List.append_assoc, List.drop_left])
        (by simp only [List.length_append]; omega) hlast)
      bs (body.length + 1) (head.length + 13) true (sep_last ++ (cstr "</resultItems>" ++ tl))
      (by rw [h3, List.append_assoc]) rfl
      (fun p hp => ⟨(hbs p hp).1, (hbs p hp).2.1, by have := (hbs p hp).2.2; omega⟩)
      (by
        have := congrArg List.length hbody
        simp only [List.length_append] at this ⊢
        omega)]
    apply loop_text_all_small
    intro b hb
    obtain ⟨p, hp, rfl⟩ := List.mem_map.1 hb
    exact (hbs p hp).2.2
  rw [parse_and_display_list_result_eq, list_tail_of_zero char_signed hcode, hrec, hcode]
  simp only [List.append_assoc]

/-- The output for a section that ends in an unclosed block: closed blocks
shorter than 4096 bytes followed by a block that is opened and not closed
before `</resultItems>` give the objects of the closed blocks, the closing
bracket and the rest of the document; the loop ends with any fuel above the
length of the body. -/
theorem list_result_truncated_layout (char_signed : Bool)
    (body head tl sep junk : List Nat) (bs : List (List Nat × List Nat))
    (hcode : parse_result_code body = 0)
    (hbody : body = head ++ (cstr "<resultItems>" ++
      ((blocks_text bs ++ (sep ++ (cstr "<DNSRecordListItem>" ++ junk))) ++
        (cstr "</resultItems>" ++ tl))))
    (hopen : ¬ cstr "<resultItems>" <:+: head)
    (hclose : ¬ cstr "</resultItems>" <:+:
      head ++ (cstr "<resultItems>" ++
        (blocks_text bs ++ (sep ++ (cstr "<DNSRecordListItem>" ++ junk)))))
    (hbs : ∀ p ∈ bs, ¬ cstr "<DNSRecordListItem>" <:+: p.1 ∧
      ¬ cstr "</DNSRecordListItem>" <:+: p.2 ∧ p.2.length < 4096)
    (hsep : ¬ cstr "<DNSRecordListItem>" <:+: sep)
    (hjunk : ¬ cstr "</DNSRecordListItem>" <:+: junk) :
    parse_and_display_list_result char_signed (some body) =
      cstr "\x7b" ++ print_result_object char_signed 0 (parse_result_subcode body)
        (extract_xml_value body (cstr "resultText")) ++
      cstr ",\"records\":[" ++ records_text char_signed (bs.map Prod.snd) ++ cstr "]" ++
      count_member body ++ cstr "\x7d\n" ∧
    ∀ fuel, body.length < fuel →
      record_loop char_signed body
        (head.length + 13 + (blocks_text bs ++ (sep ++ (cstr "<DNSRecordListItem>" ++ junk))).length)
        fuel (head.length + 13) true = records_text char_signed (bs.map Prod.snd) := by
  obtain ⟨h1, h2, h3⟩ := items_section body head
    (blocks_text bs ++ (sep ++ (cstr "<DNSRecordListItem>" ++ junk))) tl hbody hopen hclose
  have e19 : (cstr "<DNSRecordListItem>").length = 19 := rfl
  have hlenb := congrArg List.length hbody
  simp only [List.length_append, e19] at hlenb
  have hloop : ∀ fuel, body.length < fuel →
      record_loop char_signed body
        (head.length + 13 + (blocks_text bs ++ (sep ++ (cstr "<DNSRecordListItem>" ++ junk))).length)
        fuel (head.length + 13) true = records_text char_signed (bs.map Prod.snd) := by
    intro fuel hfuel
    rw [record_loop_blocks char_signed body _
      (head.length + 13 + (blocks_text bs).length)
      (by simp only [List.length_append]; omega)
      (record_loop_stop_at_open char_signed body _ _ sep junk tl
        (by rw [← List.drop_drop, h3, List.append_assoc, List.drop_left]
            simp only [List.append_assoc])
        (by simp only [List.length_append, e19]; omega) hsep hjunk)
      bs fuel (head.length + 13) true
      ((sep ++ (cstr "<DNSRecordListItem>" ++ junk)) ++ (cstr "</resultItems>" ++ tl))
      (by rw [h3, List.append_assoc]) rfl
      (fun p hp => ⟨(hbs p hp).1, (hbs p hp).2.1, by have := (hbs p hp).2.2; omega⟩)
      (by simp only [List.length_append, e19]; omega)]
    apply loop_text_all_small
    intro b hb
    obtain ⟨p, hp, rfl⟩ := List.mem_map.1 hb
    exact (hbs p hp).2.2
  refine ⟨?_, hloop⟩
  have hrec : list_records char_signed body = records_text char_signed (bs.map Prod.snd) := by
    simp only [list_records, h1, h2]
    exact hloop _ (by omega)
  rw [parse_and_display_list_result_eq, list_tail_of_zero char_signed hcode, hrec, hcode]
  simp only [List.append_assoc]

/-! ## Record objects -/

/-- The layout of a record object: the four string members, the two number
members, the two flags and the suspension reason, each written or left out on
its own. -/
theorem print_record_layout (char_signed : Bool) (b : List Nat) :
    print_record char_signed b =
      record_strings char_signed b ++
      (number_member (cstr "ttl") (extract_xml_value b (cstr "TTL")) ++
      (number_member (cstr "priority") (extract_xml_value b (cstr "Priority")) ++
      ((match extract_xml_value b (cstr "ReadOnly") with
        | some v => cstr "\"readOnly\":" ++ bool_text v ++ cstr ","
        | none => []) ++
      ((match extract_xml_value b (cstr "Suspended") with
        | some v => cstr "\"suspended\":" ++ bool_text v
        | none => []) ++
      record_reason char_signed b)))) := by
  have hs : ∀ (key : String) (v : Option (List Nat)),
      string_member char_signed (cstr key) v =
        match v with
        | some s => cstr ("\"" ++ key ++ "\":") ++ print_json_string char_signed (some s) ++ cstr ","
        | none => [] := by
    intro key v
    cases v with
    | none => rfl
    | some s => simp [string_member, cstr]
  have hn : ∀ (key : String) (v : Option (List Nat)),
      number_member (cstr key) v =
        match v with
        | some s => cstr ("\"" ++ key ++ "\":") ++ s ++ cstr ","
        | none => [] := by
    intro key v
    cases v with
    | none => rfl
    | some s => simp [number_member, cstr]
  simp only [print_record, record_strings, record_reason, hs, hn, List.append_assoc]
  rfl

/-- C13 at its failing input: a record with a domain name and no `Suspended`
element is written as `{"domain":"a.com",}`, with a comma before the closing
brace, so the document is not valid JSON. -/
theorem list_result_trailing_comma (char_signed : Bool) :
    print_record char_signed (cstr "<DomainName>a.com</DomainName>") =
      cstr "\x7b\"domain\":\"a.com\",\x7d" ∧
    parse_and_display_list_result char_signed (some body_domain_only) =
      cstr "\x7b\"result\":\x7b\"code\":0,\"message\":\"Operation successful\",\"subCode\":0\x7d,\"records\":[\x7b\"domain\":\"a.com\",\x7d]\x7d\n" := by
  cases char_signed <;> decide

theorem drop_digits_of_isdigit {l : List Nat} (h : ∀ x ∈ l, isdigit x = true) :
    drop_digits l = [] := by
  induction l with
  | nil => rfl
  | cons c cs ih =>
    simp only [drop_digits, h c (by simp), if_true]
    exact ih (fun x hx => h x (by simp [hx]))

theorem digits_aux_head (fuel n : Nat) (acc : List Nat) (hn : 0 < n) (hf : n < fuel) :
    ∃ d ds, digits_aux fuel n acc = d :: ds ∧ 49 ≤ d ∧ d ≤ 57 := by
  induction fuel generalizing n acc with
  | zero => omega
  | succ fuel ih =>
    rw [digits_aux]
    split_ifs with h
    · exact ⟨48 + n, acc, rfl, by omega, by omega⟩
    · exact ih (n / 10) _ (by omega) (by omega)

/-- The text of `%d` is a number of the JSON grammar. -/
theorem is_json_number_fmt_d (n : Int) : is_json_number (fmt_d n) = true := by
  have key : ∀ m : Nat, (∀ rest, fmt_u m ≠ 45 :: rest) ∧
      ((json_int (fmt_u m)).bind json_frac |>.bind json_exp) = some [] := by
    intro m
    by_cases hm : m = 0
    · subst hm
      refine ⟨?_, by decide⟩
      intro rest he
      have h0 : (fmt_u 0).head? = some 48 := rfl
      rw [he] at h0
      simp at h0
    · obtain ⟨d, ds, hd, h1, h2⟩ := digits_aux_head (m + 1) m [] (by omega) (by omega)
      have hd' : fmt_u m = d :: ds := hd
      have hds : ∀ x ∈ ds, isdigit x = true := fun x hx =>
        fmt_u_isdigit m x (by rw [hd']; simp [hx])
      refine ⟨?_, ?_⟩
      · intro rest he
        rw [hd'] at he
        simp at he
        omega
      · rw [hd']
        have h48 : d ≠ 48 := by omega
        simp only [json_int, h48, if_false, h1, h2, and_self, if_true,
          drop_digits_of_isdigit hds]
        rfl
  unfold fmt_d
  split_ifs with hneg
  · simp only [is_json_number, (key (-n).toNat).2]
  · obtain ⟨hne, hk⟩ := key n.toNat
    unfold is_json_number
    have : (match fmt_u n.toNat with
        | 45 :: rest => rest
        | _ => fmt_u n.toNat) = fmt_u n.toNat := by
      split
      · rename_i rest heq
        exact absurd heq (hne rest)
      · rfl
    simp only [this, hk]

/-- C15, as amended: when a block has a TTL (Priority) element, the value
written after `"ttl":` (`"priority":`) is the text of the element as it is,
followed by a comma; and the `%d` text of every integer is a number of the
JSON grammar. -/
theorem record_numbers_verbatim (char_signed : Bool) (b : List Nat) :
    (∀ v, extract_xml_value b (cstr "TTL") = some v →
      ∃ after, print_record char_signed b =
        record_strings char_signed b ++ cstr "\"ttl\":" ++ v ++ cstr "," ++ after) ∧
    (∀ v, extract_xml_value b (cstr "Priority") = some v →
      ∃ after, print_record char_signed b =
        record_strings char_signed b ++
        number_member (cstr "ttl") (extract_xml_value b (cstr "TTL")) ++
        cstr "\"priority\":" ++ v ++ cstr "," ++ after) ∧
    (∀ n : Int, is_json_number (fmt_d n) = true) := by
  refine ⟨?_, ?_, is_json_number_fmt_d⟩
  · intro v hv
    refine ⟨number_member (cstr "priority") (extract_xml_value b (cstr "Priority")) ++
      ((match extract_xml_value b (cstr "ReadOnly") with
        | some v => cstr "\"readOnly\":" ++ bool_text v ++ cstr ","
        | none => []) ++
      ((match extract_xml_value b (cstr "Suspended") with
        | some v => cstr "\"suspended\":" ++ bool_text v
        | none => []) ++
      record_reason char_signed b)), ?_⟩
    rw [print_record_layout, hv]
    simp only [number_member, List.append_assoc]
    rfl
  · intro v hv
    refine ⟨(match extract_xml_value b (cstr "ReadOnly") with
        | some v => cstr "\"readOnly\":" ++ bool_text v ++ cstr ","
        | none => []) ++
      ((match extract_xml_value b (cstr "Suspended") with
        | some v => cstr "\"suspended\":" ++ bool_text v
        | none => []) ++
      record_reason char_signed b), ?_⟩
    rw [print_record_layout, hv]
    simp only [number_member, List.append_assoc]
    rfl

/-- Witness for C15: a block with TTL 3600 and priority 10. -/
theorem record_numbers_verbatim_witness :
    (∃ after, print_record true (cstr "<TTL>3600</TTL><Priority>10</Priority>") =
      record_strings true (cstr "<TTL>3600</TTL><Priority>10</Priority>") ++ cstr "\"ttl\":" ++
        cstr "3600" ++ cstr "," ++ after) ∧
    (∃ after, print_record true (cstr "<TTL>3600</TTL><Priority>10</Priority>") =
      record_strings true (cstr "<TTL>3600</TTL><Priority>10</Priority>") ++
      number_member (cstr "ttl")
        (extract_xml_value (cstr "<TTL>3600</TTL><Priority>10</Priority>") (cstr "TTL")) ++
      cstr "\"priority\":" ++ cstr "10" ++ cstr "," ++ after) :=
  ⟨(record_numbers_verbatim true (cstr "<TTL>3600</TTL><Priority>10</Priority>")).1
      (cstr "3600") (by decide),
   (record_numbers_verbatim true (cstr "<TTL>3600</TTL><Priority>10</Priority>")).2.1
      (cstr "10") (by decide)⟩

/-- C15 as stated fails: the TTL text `abc` and an empty Priority text are
written as they are, and neither is a number of the JSON grammar. -/
theorem record_numbers_not_numbers :
    parse_result_code body_bad_ttl = 0 ∧
    extract_xml_value (cstr "<TTL>abc</TTL><Priority></Priority>") (cstr "TTL") =
      some (cstr "abc") ∧
    extract_xml_value (cstr "<TTL>abc</TTL><Priority></Priority>") (cstr "Priority") =
      some [] ∧
    print_record true (cstr "<TTL>abc</TTL><Priority></Priority>") =
      cstr "\x7b\"ttl\":abc,\"priority\":,\x7d" ∧
    parse_and_display_list_result true (some body_bad_ttl) =
      cstr "\x7b\"result\":\x7b\"code\":0,\"message\":\"Operation successful\",\"subCode\":0\x7d,\"records\":[\x7b\"ttl\":abc,\"priority\":,\x7d]\x7d\n" ∧
    is_json_number (cstr "abc") = false ∧ is_json_number [] = false := by
  decide

/-! ## Codes passed through, single-line output, reported count -/

theorem get_result_code_message_unknown {c : Int} (h : c < 0 ∨ 6 < c) :
    get_result_code_message c = some (cstr "Unknown result code") := by
  unfold get_result_code_message
  have h0 : c ≠ 0 := by omega
  have h1 : c ≠ 1 := by omega
  have h2 : c ≠ 2 := by omega
  have h3 : c ≠ 3 := by omega
  have h4 : c ≠ 4 := by omega
  have h5 : c ≠ 5 := by omega
  have h6 : c ≠ 6 := by omega
  simp [h0, h1, h2, h3, h4, h5, h6]

theorem print_json_string_unknown_text (char_signed : Bool) :
    print_json_string char_signed (some (cstr "Unknown result code")) =
      cstr "\"Unknown result code\"" := by
  cases char_signed <;> decide

/-- Codes passed through below 2 GiB: when the first resultCode element holds
the `%d` text `D` of a 32-bit integer `n`, the list decoder, and the simple
decoder for a body shorter than 2^31 bytes, write `"code":D`; for `n` outside
0..6 the message they write next is "Unknown result code". -/
theorem result_code_passed_through (char_signed : Bool) (body : List Nat) (n : Int)
    (hn : -2147483648 ≤ n ∧ n ≤ 2147483647)
    (hx : extract_xml_value body (cstr "resultCode") = some (fmt_d n)) :
    (body.length < 2147483648 →
      ∃ rest, parse_and_display_simple_result char_signed (some body) =
        some (cstr "\x7b\"result\":\x7b\"code\":" ++ fmt_d n ++ cstr ",\"message\":" ++ rest)) ∧
    (∃ rest, parse_and_display_list_result char_signed (some body) =
      cstr "\x7b\"result\":\x7b\"code\":" ++ fmt_d n ++ cstr ",\"message\":" ++ rest) ∧
    ((n < 0 ∨ 6 < n) →
      (body.length < 2147483648 →
        ∃ rest, parse_and_display_simple_result char_signed (some body) =
          some (cstr "\x7b\"result\":\x7b\"code\":" ++ fmt_d n ++
            cstr ",\"message\":\"Unknown result code\",\"subCode\":" ++ rest)) ∧
      (∃ rest, parse_and_display_list_result char_signed (some body) =
        cstr "\x7b\"result\":\x7b\"code\":" ++ fmt_d n ++
          cstr ",\"message\":\"Unknown result code\",\"subCode\":" ++ rest)) := by
  have hc := parse_result_code_of_extract hn.1 hn.2 hx
  refine ⟨fun hlen => ⟨print_json_string char_signed (get_result_code_message n) ++
      (cstr ",\"subCode\":" ++ (fmt_d (parse_result_subcode body) ++
      ((match simple_text_exact body with
        | some t => cstr ",\"text\":" ++ print_json_string char_signed (some t)
        | none => []) ++ cstr "\x7d\x7d\n"))), ?_⟩,
    ⟨print_json_string char_signed (get_result_code_message n) ++
      (cstr ",\"subCode\":" ++ (fmt_d (parse_result_subcode body) ++
      ((match extract_xml_value body (cstr "resultText") with
        | some t => cstr ",\"text\":" ++ print_json_string char_signed (some t)
        | none => []) ++ (cstr "\x7d" ++ list_tail char_signed body)))), ?_⟩,
    fun hout => ⟨fun hlen => ⟨fmt_d (parse_result_subcode body) ++
      ((match simple_text_exact body with
        | some t => cstr ",\"text\":" ++ print_json_string char_signed (some t)
        | none => []) ++ cstr "\x7d\x7d\n"), ?_⟩,
    ⟨fmt_d (parse_result_subcode body) ++
      ((match extract_xml_value body (cstr "resultText") with
        | some t => cstr ",\"text\":" ++ print_json_string char_signed (some t)
        | none => []) ++ (cstr "\x7d" ++ list_tail char_signed body)), ?_⟩⟩⟩
  · rw [parse_and_display_simple_result_shape _ _ hlen, hc]
    simp only [List.append_assoc]
  · rw [parse_and_display_list_result_shape, hc]
    simp only [List.append_assoc]
  · rw [parse_and_display_simple_result_shape _ _ hlen, hc, get_result_code_message_unknown hout,
      print_json_string_unknown_text]
    simp only [List.append_assoc]
    rfl
  · rw [parse_and_display_list_result_shape, hc, get_result_code_message_unknown hout,
      print_json_string_unknown_text]
    simp only [List.append_assoc]
    rfl

/-- The codes -2147483648 and 3 passed through. -/
theorem result_code_passed_through_witness :
    ((∃ rest, parse_and_display_simple_result true
        (some (cstr "<resultCode>-2147483648</resultCode>")) =
      some (cstr "\x7b\"result\":\x7b\"code\":" ++ fmt_d (-2147483648) ++
        cstr ",\"message\":\"Unknown result code\",\"subCode\":" ++ rest)) ∧
    (∃ rest, parse_and_display_list_result true
        (some (cstr "<resultCode>-2147483648</resultCode>")) =
      cstr "\x7b\"result\":\x7b\"code\":" ++ fmt_d (-2147483648) ++
        cstr ",\"message\":\"Unknown result code\",\"subCode\":" ++ rest)) ∧
    (∃ rest, parse_and_display_list_result true (some (cstr "<resultCode>3</resultCode>")) =
      cstr "\x7b\"result\":\x7b\"code\":" ++ fmt_d 3 ++ cstr ",\"message\":" ++ rest) :=
  ⟨⟨((result_code_passed_through true (cstr "<resultCode>-2147483648</resultCode>")
      (-2147483648) (by decide) (by decide)).2.2 (Or.inl (by decide))).1 (by decide),
    ((result_code_passed_through true (cstr "<resultCode>-2147483648</resultCode>")
      (-2147483648) (by decide) (by decide)).2.2 (Or.inl (by decide))).2⟩,
   (result_code_passed_through true (cstr "<resultCode>3</resultCode>") 3
      (by decide) (by decide)).2.1⟩

theorem hex_digit_no_newline (d : Nat) : hex_digit d ≠ 10 ∧ hex_digit d ≠ 13 := by
  unfold hex_digit
  split_ifs <;> omega

theorem json_escape_byte_no_newline (char_signed : Bool) (b : Nat) :
    ∀ x ∈ json_escape_byte char_signed b, x ≠ 10 ∧ x ≠ 13 := by
  intro x hx
  unfold json_escape_byte at hx
  split_ifs at hx with h1 h2 h3 h4 h5 h6 h7 h8
  · revert x; decide
  · revert x; decide
  · revert x; decide
  · revert x; decide
  · revert x; decide
  · revert x; decide
  · revert x; decide
  · rcases List.mem_append.1 hx with hx | hx
    · exact (by decide : ∀ y ∈ cstr "\\u", y ≠ 10 ∧ y ≠ 13) x hx
    · simp only [fmt_04x, List.mem_cons, List.mem_singleton, List.not_mem_nil, or_false] at hx
      rcases hx with rfl | rfl | rfl | rfl <;> exact hex_digit_no_newline _
  · have : x = b := by simpa using hx
    subst this
    exact ⟨h5, h6⟩

theorem json_escape_no_newline (char_signed : Bool) (s : List Nat) :
    ∀ x ∈ json_escape char_signed s, x ≠ 10 ∧ x ≠ 13 := by
  induction s with
  | nil => intro x hx; simp [json_escape] at hx
  | cons b bs ih =>
    intro x hx
    rcases List.mem_append.1 hx with hx | hx
    · exact json_escape_byte_no_newline char_signed b x hx
    · exact ih x hx

theorem print_json_string_no_newline (char_signed : Bool) (str : Option (List Nat)) :
    ∀ x ∈ print_json_string char_signed str, x ≠ 10 ∧ x ≠ 13 := by
  intro x hx
  cases str with
  | none => simp [print_json_string] at hx
  | some s =>
    simp only [print_json_string, List.mem_append] at hx
    rcases hx with (hx | hx) | hx
    · revert x; decide
    · exact json_escape_no_newline char_signed s x hx
    · revert x; decide

theorem fmt_d_no_newline (n : Int) : ∀ x ∈ fmt_d n, x ≠ 10 ∧ x ≠ 13 := by
  intro x hx
  unfold fmt_d at hx
  split_ifs at hx
  · rcases List.mem_cons.1 hx with rfl | hx
    · decide
    · have := fmt_u_isdigit _ x hx
      simp [isdigit] at this
      omega
  · have := fmt_u_isdigit _ x hx
    simp [isdigit] at this
    omega

/-- No newline or carriage return byte stands in the line of a result object
before its last `}`. -/
theorem result_line_no_newline (char_signed : Bool) (rc rs : Int) (text : Option (List Nat)) :
    ∀ x ∈ cstr "\x7b\"result\":\x7b\"code\":" ++
      (fmt_d rc ++ (cstr ",\"message\":" ++
      (print_json_string char_signed (get_result_code_message rc) ++
      (cstr ",\"subCode\":" ++ (fmt_d rs ++
      ((match text with
        | some t => cstr ",\"text\":" ++ print_json_string char_signed (some t)
        | none => []) ++ cstr "\x7d")))))), x ≠ 10 ∧ x ≠ 13 := by
  intro x hx
  simp only [List.mem_append] at hx
  rcases hx with hx | hx | hx | hx | hx | hx | hx | hx
  · revert x; decide
  · exact fmt_d_no_newline _ x hx
  · revert x; decide
  · exact print_json_string_no_newline _ _ x hx
  · revert x; decide
  · exact fmt_d_no_newline _ x hx
  · cases text with
    | none => simp at hx
    | some t =>
      rcases List.mem_append.1 hx with hx | hx
      · exact (by decide : ∀ y ∈ cstr ",\"text\":", y ≠ 10 ∧ y ≠ 13) x hx
      · exact print_json_string_no_newline _ _ x hx
  · revert x; decide

/-- Single-line output: whenever the simple decoder has a defined output for a
non-NULL body, as it has for every body shorter than 2^31 bytes, that output
is a line without newline or carriage return byte, ending in `}`, followed by
one newline: there is exactly one newline byte and it is the last byte. -/
theorem simple_result_single_line (char_signed : Bool) (body : List Nat) :
    (∀ out, parse_and_display_simple_result char_signed (some body) = some out →
      ∃ line, out = line ++ [0x7d, 0x0a] ∧
        (∀ x ∈ line, x ≠ 0x0a ∧ x ≠ 0x0d) ∧ out.count 0x0a = 1) ∧
    (body.length < 2147483648 →
      ∃ out, parse_and_display_simple_result char_signed (some body) = some out) := by
  constructor
  · intro out hout
    cases ht : simple_result_text body with
    | none =>
      rw [parse_and_display_simple_result_undefined char_signed ht] at hout
      exact absurd hout (by simp)
    | some text =>
      have hshape := parse_and_display_simple_result_of_text char_signed ht
      have hline := result_line_no_newline char_signed (parse_result_code body)
        (parse_result_subcode body) text
      rw [hout] at hshape
      have hout' := Option.some.inj hshape
      refine ⟨_, ?_, hline, ?_⟩
      · rw [hout']
        simp only [List.append_assoc]
        rfl
      · have e : out = (cstr "\x7b\"result\":\x7b\"code\":" ++
            (fmt_d (parse_result_code body) ++ (cstr ",\"message\":" ++
            (print_json_string char_signed (get_result_code_message (parse_result_code body)) ++
            (cstr ",\"subCode\":" ++ (fmt_d (parse_result_subcode body) ++
            ((match text with
              | some t => cstr ",\"text\":" ++ print_json_string char_signed (some t)
              | none => []) ++ cstr "\x7d"))))))) ++ [0x7d, 0x0a] := by
          rw [hout']
          simp only [List.append_assoc]
          rfl
        rw [e, List.count_append, List.count_eq_zero.2 (fun hmem => (hline 10 hmem).1 rfl)]
        rfl
  · intro hlen
    exact ⟨_, parse_and_display_simple_result_shape char_signed body hlen⟩

/-- The output for result code 0, piece by piece: the result object, the
array, the `recordCount` member with the text of `resultItemCount` as it is
when the extractor finds that element, and the end of the document. -/
theorem list_result_count_layout (char_signed : Bool) (body : List Nat)
    (hcode : parse_result_code body = 0) :
    parse_and_display_list_result char_signed (some body) =
      cstr "\x7b" ++ print_result_object char_signed 0 (parse_result_subcode body)
        (extract_xml_value body (cstr "resultText")) ++
      cstr ",\"records\":[" ++ list_records char_signed body ++ cstr "]" ++
      (match extract_xml_value body (cstr "resultItemCount") with
       | some count_str => cstr ",\"recordCount\":" ++ count_str
       | none => []) ++
      cstr "\x7d\n" := by
  rw [parse_and_display_list_result_eq, list_tail_of_zero char_signed hcode, hcode]
  simp only [count_member, List.append_assoc]

/-! ## Bodies of 2 GiB and more in the simple decoder -/

theorem huge_text_no_lt : ∀ b ∈ huge_text, b ≠ 60 := by
  intro b hb
  have := (List.mem_replicate.1 hb).2
  omega

theorem huge_text_length : huge_text.length = 4294967295 := List.length_replicate _ _

theorem far_text_no_lt : ∀ b ∈ far_text, b ≠ 60 := by
  intro b hb
  have := (List.mem_replicate.1 hb).2
  omega

theorem far_text_length : far_text.length = 2147483648 := List.length_replicate _ _

/-- A resultText element that holds `huge_text`, after a head in which neither
tag can start: `text_len` is -1 and the extraction has undefined behaviour. -/
theorem simple_result_text_huge (head : List Nat)
    (ho : no_start head (cstr "<resultText>") = true)
    (hc : no_start head (cstr "</resultText>") = true) :
    simple_result_text
      (head ++ (cstr "<resultText>" ++ (huge_text ++ (cstr "</resultText>" ++ [])))) = none := by
  have h1 : strstr (head ++ (cstr "<resultText>" ++ (huge_text ++ (cstr "</resultText>" ++ []))))
      (cstr "<resultText>") = some head.length := strstr_of_layout _ ho
  have hpre : no_start (head ++ (cstr "<resultText>" ++ huge_text)) (cstr "</resultText>") = true :=
    no_start_append hc (no_start_append (by decide) (no_start_of_no_lt huge_text_no_lt))
  have h2 : strstr (head ++ (cstr "<resultText>" ++ (huge_text ++ (cstr "</resultText>" ++ []))))
      (cstr "</resultText>") = some (head.length + (12 + 4294967295)) := by
    have e : head ++ (cstr "<resultText>" ++ (huge_text ++ (cstr "</resultText>" ++ []))) =
        (head ++ (cstr "<resultText>" ++ huge_text)) ++ (cstr "</resultText>" ++ []) := by
      simp only [List.append_assoc]
    have e12 : (cstr "<resultText>").length = 12 := rfl
    have hl : (head ++ (cstr "<resultText>" ++ huge_text)).length =
        head.length + (12 + 4294967295) := by
      rw [List.length_append, List.length_append, huge_text_length, e12]
    rw [e, strstr_of_layout _ hpre, hl]
  unfold simple_result_text
  rw [h1, h2]
  have e : to_int32 (((head.length + (12 + 4294967295) : Nat) : Int) - ((head.length : Int) + 12)) = -1 := by
    unfold to_int32
    omega
  simp only [e]
  rfl

/-- C8 at its failing input: a body without `<resultCode>` whose resultText
element holds 2^32 - 1 bytes.  The list decoder writes `"code":-1` with the
message "Unknown result code"; in the simple decoder `text_len` is narrowed to
-1, `malloc(0)` is followed by `strncpy` with the count `(size_t)-1`, and no
output is defined. -/
theorem absent_code_huge_text (char_signed : Bool) :
    ¬ cstr "<resultCode>" <:+: body_huge_text ∧
    body_huge_text.length = 4294967320 ∧
    simple_result_text body_huge_text = none ∧
    parse_and_display_simple_result char_signed (some body_huge_text) = none ∧
    (∃ rest, parse_and_display_list_result char_signed (some body_huge_text) =
      cstr "\x7b\"result\":\x7b\"code\":-1,\"message\":\"Unknown result code\",\"subCode\":" ++ rest) := by
  have hno : ¬ cstr "<resultCode>" <:+: body_huge_text :=
    not_infix_of_no_start
      (no_start_append (by decide) (no_start_append (no_start_of_no_lt huge_text_no_lt)
        (by decide))) (by decide)
  have ht : simple_result_text body_huge_text = none :=
    simple_result_text_huge [] (by decide) (by decide)
  refine ⟨hno, ?_, ht, parse_and_display_simple_result_undefined char_signed ht,
    (absent_codes_render_defaults.1 char_signed body_huge_text hno).2⟩
  have e12 : (cstr "<resultText>").length = 12 := rfl
  have e13 : (cstr "</resultText>" ++ []).length = 13 := rfl
  unfold body_huge_text
  rw [List.length_append, List.length_append, huge_text_length, e12, e13]

/-- C16 at its failing input: the first resultCode element holds 7 and the
resultText element holds 2^32 - 1 bytes.  The list decoder writes `"code":7`
with the message "Unknown result code"; the simple decoder, whose `text_len`
is narrowed to -1, has no defined output. -/
theorem code7_huge_text (char_signed : Bool) :
    extract_xml_value body_huge_code7 (cstr "resultCode") = some (fmt_d 7) ∧
    simple_result_text body_huge_code7 = none ∧
    parse_and_display_simple_result char_signed (some body_huge_code7) = none ∧
    (∃ rest, parse_and_display_list_result char_signed (some body_huge_code7) =
      cstr "\x7b\"result\":\x7b\"code\":" ++ fmt_d 7 ++
        cstr ",\"message\":\"Unknown result code\",\"subCode\":" ++ rest) := by
  have hx : extract_xml_value body_huge_code7 (cstr "resultCode") = some (fmt_d 7) := by
    have e : body_huge_code7 = [] ++ (open_tag (cstr "resultCode") ++ (cstr "7" ++
        (close_tag (cstr "resultCode") ++
          (cstr "<resultText>" ++ (huge_text ++ (cstr "</resultText>" ++ [])))))) := rfl
    rw [e]
    exact @extract_xml_value_of_layout (cstr "resultCode") (by decide) [] (cstr "7")
      (cstr "<resultText>" ++ (huge_text ++ (cstr "</resultText>" ++ []))) (by decide) (by decide)
  have ht : simple_result_text body_huge_code7 = none :=
    simple_result_text_huge (cstr "<resultCode>7</resultCode>") (by decide) (by decide)
  exact ⟨hx, ht, parse_and_display_simple_result_undefined char_signed ht,
    ((result_code_passed_through char_signed body_huge_code7 7 (by decide) hx).2.2
      (Or.inr (by decide))).2⟩

/-- C17 at its failing input: result code 0, sub-code 0 and a resultText
element that holds 2^32 - 1 bytes.  `text_len` is narrowed to -1, `malloc(0)`
is followed by `strncpy` with the count `(size_t)-1`, and the simple decoder
has no defined output: no line is written. -/
theorem huge_text_no_line (char_signed : Bool) :
    body_huge_line.length = 4294967378 ∧
    simple_result_text body_huge_line = none ∧
    parse_and_display_simple_result char_signed (some body_huge_line) = none := by
  have ht : simple_result_text body_huge_line = none :=
    simple_result_text_huge (cstr "<resultCode>0</resultCode><resultSubCode>0</resultSubCode>")
      (by decide) (by decide)
  refine ⟨?_, ht, parse_and_display_simple_result_undefined char_signed ht⟩
  have e58 : (cstr "<resultCode>0</resultCode><resultSubCode>0</resultSubCode>").length = 58 := rfl
  have e12 : (cstr "<resultText>").length = 12 := rfl
  have e13 : (cstr "</resultText>" ++ []).length = 13 := rfl
  unfold body_huge_line
  rw [List.length_append, List.length_append, List.length_append, huge_text_length, e58, e12, e13]

/-- The text of the simple decoder from the two offsets and the narrowed
difference `n`, when `n + 1` is positive and does not overflow. -/
theorem simple_result_text_of_offsets {body : List Nat} {i j : Nat} {n : Int}
    (ho : strstr body (cstr "<resultText>") = some i)
    (hc : strstr body (cstr "</resultText>") = some j)
    (hn : to_int32 ((j : Int) - ((i : Int) + 12)) = n)
    (h1 : n ≠ 2147483647) (h2 : 0 < n + 1) :
    simple_result_text body = some (some ((body.drop (i + 12)).take n.toNat)) := by
  unfold simple_result_text
  rw [ho, hc]
  simp only [hn]
  rw [if_neg h1, if_neg (by omega), if_neg (by omega)]

/-- An element that is opened after a head in which its opening tag cannot
start, and not closed afterwards, is not found by the extractor. -/
theorem extract_xml_value_unclosed {tag : List Nat} (h : tag.length < 253) (pre rest : List Nat)
    (hpre : no_start pre (open_tag tag) = true) (hrest : ¬ close_tag tag <:+: rest) :
    extract_xml_value (pre ++ (open_tag tag ++ rest)) tag = none := by
  rw [extract_xml_value_eq h, strstr_of_layout _ hpre]
  simp only
  have hd : (pre ++ (open_tag tag ++ rest)).drop (pre.length + (open_tag tag).length) = rest := by
    rw [← List.length_append, ← List.append_assoc, List.drop_left]
  rw [hd, (strstr_eq_none_iff _ _).2 hrest]

/-- C9 at its failing input: the body begins with a `</resultText>`, holds the
codes 0 and 0 more than 2^31 bytes later, and ends in a `<resultText>` that is
never closed, so that it has no resultText element.  The simple decoder
searches the closing tag from the start of the body; the negative difference
wraps to the positive `text_len` 2147483565, and a `text` member with the
bytes after the opening tag is written. -/
theorem far_close_renders_text (char_signed : Bool) :
    extract_xml_value body_far_close (cstr "resultText") = none ∧
    extract_xml_value body_far_close (cstr "resultCode") = some (fmt_d 0) ∧
    extract_xml_value body_far_close (cstr "resultSubCode") = some (fmt_d 0) ∧
    simple_result_text body_far_close = some (some (cstr "abc")) ∧
    parse_and_display_simple_result char_signed (some body_far_close) =
      some (cstr "\x7b\"result\":\x7b\"code\":0,\"message\":\"Operation successful\",\"subCode\":0,\"text\":\"abc\"\x7d\x7d\n") := by
  have hpre : no_start (cstr "</resultText>" ++ (far_text ++
      cstr "<resultCode>0</resultCode><resultSubCode>0</resultSubCode>")) (cstr "<resultText>") = true :=
    no_start_append (by decide) (no_start_append (no_start_of_no_lt far_text_no_lt) (by decide))
  have hbody : body_far_close = (cstr "</resultText>" ++ (far_text ++
      cstr "<resultCode>0</resultCode><resultSubCode>0</resultSubCode>")) ++
      (cstr "<resultText>" ++ cstr "abc") := by
    simp only [body_far_close, List.append_assoc]
  have e13 : (cstr "</resultText>").length = 13 := rfl
  have e58 : (cstr "<resultCode>0</resultCode><resultSubCode>0</resultSubCode>").length = 58 := rfl
  have e12 : (cstr "<resultText>").length = 12 := rfl
  have hl : (cstr "</resultText>" ++ (far_text ++
      cstr "<resultCode>0</resultCode><resultSubCode>0</resultSubCode>")).length =
      13 + (2147483648 + 58) := by
    rw [List.length_append, List.length_append, far_text_length, e13, e58]
  have htext : extract_xml_value body_far_close (cstr "resultText") = none := by
    rw [hbody]
    exact @extract_xml_value_unclosed (cstr "resultText") (by decide) _ (cstr "abc") hpre
      (by decide)
  have hcode : extract_xml_value body_far_close (cstr "resultCode") = some (cstr "0") := by
    have ec : cstr "<resultCode>0</resultCode><resultSubCode>0</resultSubCode>" ++
        (cstr "<resultText>" ++ cstr "abc") =
        open_tag (cstr "resultCode") ++ (cstr "0" ++ (close_tag (cstr "resultCode") ++
          (cstr "<resultSubCode>0</resultSubCode>" ++ (cstr "<resultText>" ++ cstr "abc")))) := rfl
    have e : body_far_close = (cstr "</resultText>" ++ far_text) ++
        (open_tag (cstr "resultCode") ++ (cstr "0" ++ (close_tag (cstr "resultCode") ++
          (cstr "<resultSubCode>0</resultSubCode>" ++ (cstr "<resultText>" ++ cstr "abc"))))) := by
      rw [← ec]
      simp only [body_far_close, List.append_assoc]
    rw [e]
    exact @extract_xml_value_of_layout (cstr "resultCode") (by decide)
      (cstr "</resultText>" ++ far_text) (cstr "0")
      (cstr "<resultSubCode>0</resultSubCode>" ++ (cstr "<resultText>" ++ cstr "abc"))
      (no_start_append (by decide) (no_start_of_no_lt far_text_no_lt)) (by decide)
  have hsub : extract_xml_value body_far_close (cstr "resultSubCode") = some (cstr "0") := by
    have ec : cstr "<resultCode>0</resultCode><resultSubCode>0</resultSubCode>" ++
        (cstr "<resultText>" ++ cstr "abc") =
        cstr "<resultCode>0</resultCode>" ++
        (open_tag (cstr "resultSubCode") ++ (cstr "0" ++ (close_tag (cstr "resultSubCode") ++
          (cstr "<resultText>" ++ cstr "abc")))) := rfl
    have e : body_far_close = (cstr "</resultText>" ++ (far_text ++ cstr "<resultCode>0</resultCode>")) ++
        (open_tag (cstr "resultSubCode") ++ (cstr "0" ++ (close_tag (cstr "resultSubCode") ++
          (cstr "<resultText>" ++ cstr "abc")))) := by
      simp only [body_far_close, List.append_assoc, ec]
    rw [e]
    exact @extract_xml_value_of_layout (cstr "resultSubCode") (by decide)
      (cstr "</resultText>" ++ (far_text ++ cstr "<resultCode>0</resultCode>")) (cstr "0")
      (cstr "<resultText>" ++ cstr "abc")
      (no_start_append (by decide) (no_start_append (no_start_of_no_lt far_text_no_lt)
        (by decide))) (by decide)
  have h1 : strstr body_far_close (cstr "<resultText>") = some (13 + (2147483648 + 58)) := by
    rw [hbody, strstr_of_layout _ hpre, hl]
  have h2 : strstr body_far_close (cstr "</resultText>") = some 0 := by
    unfold body_far_close
    exact strstr_hit _ _
  have hd : body_far_close.drop (13 + (2147483648 + 58) + 12) = cstr "abc" := by
    have e : body_far_close = ((cstr "</resultText>" ++ (far_text ++
        cstr "<resultCode>0</resultCode><resultSubCode>0</resultSubCode>")) ++ cstr "<resultText>") ++
        cstr "abc" := by
      simp only [body_far_close, List.append_assoc]
    rw [e]
    apply List.drop_left'
    rw [List.length_append, hl, e12]
  have e : to_int32 (((0 : Nat) : Int) - (((13 + (2147483648 + 58) : Nat) : Int) + 12)) =
      2147483565 := by
    unfold to_int32
    omega
  have c4 : (2147483565 : Int).toNat = 2147483565 := rfl
  have ht : simple_result_text body_far_close = some (some (cstr "abc")) := by
    rw [simple_result_text_of_offsets h1 h2 e (by decide) (by decide), c4, hd,
      List.take_of_length_le (show (cstr "abc").length ≤ 2147483565 by decide)]
  have h0 : cstr "0" = fmt_d 0 := rfl
  rw [h0] at hcode hsub
  refine ⟨htext, hcode, hsub, ht, ?_⟩
  rw [parse_and_display_simple_result_of_text char_signed ht,
    parse_result_code_of_extract (by decide) (by decide) hcode,
    parse_result_subcode_of_extract (by decide) (by decide) hsub]
  cases char_signed <;> rfl

/-! ## Argument validation in `main` -/

/-- An option that does not occur among the arguments keeps its initial value. -/
theorem parse_options_absent :
    ∀ (n : Nat) (args : List (List Nat)) (o o' : Options), args.length ≤ n →
      parse_options args o = some o' →
      (cstr "--username" ∉ args → o'.username = o.username) ∧
      (cstr "--passwordB64" ∉ args → o'.passwordB64 = o.passwordB64) ∧
      (cstr "--domain" ∉ args → o'.domain = o.domain) ∧
      (cstr "--host" ∉ args → o'.host = o.host) ∧
      (cstr "--type" ∉ args → o'.type = o.type) ∧
      (cstr "--data" ∉ args → o'.data = o.data) := by
  intro n
  induction n with
  | zero =>
    intro args o o' hl h
    have : args = [] := List.length_eq_zero.1 (by omega)
    subst this
    simp only [parse_options, Option.some.injEq] at h
    subst h
    simp
  | succ n ih =>
    intro args o o' hl h
    match args, hl, h with
    | [], _, h =>
      simp only [parse_options, Option.some.injEq] at h
      subst h
      simp
    | [_], _, h => simp [parse_options] at h
    | a :: v :: rest, hl, h =>
      have hl' : rest.length ≤ n := by simp at hl; omega
      rw [parse_options] at h
      have hnr : ∀ name, name ∉ a :: v :: rest → name ∉ rest :=
        fun name hn hm => hn (List.mem_cons_of_mem _ (List.mem_cons_of_mem _ hm))
      have hne : ∀ name, name ∉ a :: v :: rest → a ≠ name :=
        fun name hn e => hn (e ▸ List.mem_cons_self _ _)
      by_cases hc : a = cstr "--username"
      · rw [if_pos hc] at h
        have key := ih rest _ o' hl' h
        exact ⟨fun hn => absurd hc (hne _ hn),
          fun hn => key.2.1 (hnr _ hn),
          fun hn => key.2.2.1 (hnr _ hn),
          fun hn => key.2.2.2.1 (hnr _ hn),
          fun hn => key.2.2.2.2.1 (hnr _ hn),
          fun hn => key.2.2.2.2.2 (hnr _ hn)⟩
      rw [if_neg hc] at h
      clear hc
      by_cases hc : a = cstr "--passwordB64"
      · rw [if_pos hc] at h
        have key := ih rest _ o' hl' h
        exact ⟨fun hn => key.1 (hnr _ hn),
          fun hn => absurd hc (hne _ hn),
          fun hn => key.2.2.1 (hnr _ hn),
          fun hn => key.2.2.2.1 (hnr _ hn),
          fun hn => key.2.2.2.2.1 (hnr _ hn),
          fun hn => key.2.2.2.2.2 (hnr _ hn)⟩
      rw [if_neg hc] at h
      clear hc
      by_cases hc : a = cstr "--domain"
      · rw [if_pos hc] at h
        have key := ih rest _ o' hl' h
        exact ⟨fun hn => key.1 (hnr _ hn),
          fun hn => key.2.1 (hnr _ hn),
          fun hn => absurd hc (hne _ hn),
          fun hn => key.2.2.2.1 (hnr _ hn),
          fun hn => key.2.2.2.2.1 (hnr _ hn),
          fun hn => key.2.2.2.2.2 (hnr _ hn)⟩
      rw [if_neg hc] at h
      clear hc
      by_cases hc : a = cstr "--host"
      · rw [if_pos hc] at h
        have key := ih rest _ o' hl' h
        exact ⟨fun hn => key.1 (hnr _ hn),
          fun hn => key.2.1 (hnr _ hn),
          fun hn => key.2.2.1 (hnr _ hn),
          fun hn => absurd hc (hne _ hn),
          fun hn => key.2.2.2.2.1 (hnr _ hn),
          fun hn => key.2.2.2.2.2 (hnr _ hn)⟩
      rw [if_neg hc] at h
      clear hc
      by_cases hc : a = cstr "--type"
      · rw [if_pos hc] at h
        have key := ih rest _ o' hl' h
        exact ⟨fun hn => key.1 (hnr _ hn),
          fun hn => key.2.1 (hnr _ hn),
          fun hn => key.2.2.1 (hnr _ hn),
          fun hn => key.2.2.2.1 (hnr _ hn),
          fun hn => absurd hc (hne _ hn),
          fun hn => key.2.2.2.2.2 (hnr _ hn)⟩
      rw [if_neg hc] at h
      clear hc
      by_cases hc : a = cstr "--data"
      · rw [if_pos hc] at h
        have key := ih rest _ o' hl' h
        exact ⟨fun hn => key.1 (hnr _ hn),
          fun hn => key.2.1 (hnr _ hn),
          fun hn => key.2.2.1 (hnr _ hn),
          fun hn => key.2.2.2.1 (hnr _ hn),
          fun hn => key.2.2.2.2.1 (hnr _ hn),
          fun hn => absurd hc (hne _ hn)⟩
      rw [if_neg hc] at h
      clear hc
      by_cases hc : a = cstr "--ttl"
      · rw [if_pos hc] at h
        have key := ih rest _ o' hl' h
        exact ⟨fun hn => key.1 (hnr _ hn),
          fun hn => key.2.1 (hnr _ hn),
          fun hn => key.2.2.1 (hnr _ hn),
          fun hn => key.2.2.2.1 (hnr _ hn),
          fun hn => key.2.2.2.2.1 (hnr _ hn),
          fun hn => key.2.2.2.2.2 (hnr _ hn)⟩
      rw [if_neg hc] at h
      clear hc
      by_cases hc : a = cstr "--priority"
      · rw [if_pos hc] at h
        have key := ih rest _ o' hl' h
        exact ⟨fun hn => key.1 (hnr _ hn),
          fun hn => key.2.1 (hnr _ hn),
          fun hn => key.2.2.1 (hnr _ hn),
          fun hn => key.2.2.2.1 (hnr _ hn),
          fun hn => key.2.2.2.2.1 (hnr _ hn),
          fun hn => key.2.2.2.2.2 (hnr _ hn)⟩
      rw [if_neg hc] at h
      clear hc
      by_cases hc : a = cstr "--oldDomain"
      · rw [if_pos hc] at h
        have key := ih rest _ o' hl' h
        exact ⟨fun hn => key.1 (hnr _ hn),
          fun hn => key.2.1 (hnr _ hn),
          fun hn => key.2.2.1 (hnr _ hn),
          fun hn => key.2.2.2.1 (hnr _ hn),
          fun hn => key.2.2.2.2.1 (hnr _ hn),
          fun hn => key.2.2.2.2.2 (hnr _ hn)⟩
      rw [if_neg hc] at h
      clear hc
      by_cases hc : a = cstr "--oldHost"
      · rw [if_pos hc] at h
        have key := ih rest _ o' hl' h
        exact ⟨fun hn => key.1 (hnr _ hn),
          fun hn => key.2.1 (hnr _ hn),
          fun hn => key.2.2.1 (hnr _ hn),
          fun hn => key.2.2.2.1 (hnr _ hn),
          fun hn => key.2.2.2.2.1 (hnr _ hn),
          fun hn => key.2.2.2.2.2 (hnr _ hn)⟩
      rw [if_neg hc] at h
      clear hc
      by_cases hc : a = cstr "--oldType"
      · rw [if_pos hc] at h
        have key := ih rest _ o' hl' h
        exact ⟨fun hn => key.1 (hnr _ hn),
          fun hn => key.2.1 (hnr _ hn),
          fun hn => key.2.2.1 (hnr _ hn),
          fun hn => key.2.2.2.1 (hnr _ hn),
          fun hn => key.2.2.2.2.1 (hnr _ hn),
          fun hn => key.2.2.2.2.2 (hnr _ hn)⟩
      rw [if_neg hc] at h
      clear hc
      by_cases hc : a = cstr "--oldData"
      · rw [if_pos hc] at h
        have key := ih rest _ o' hl' h
        exact ⟨fun hn => key.1 (hnr _ hn),
          fun hn => key.2.1 (hnr _ hn),
          fun hn => key.2.2.1 (hnr _ hn),
          fun hn => key.2.2.2.1 (hnr _ hn),
          fun hn => key.2.2.2.2.1 (hnr _ hn),
          fun hn => key.2.2.2.2.2 (hnr _ hn)⟩
      rw [if_neg hc] at h
      clear hc
      by_cases hc : a = cstr "--oldTTL"
      · rw [if_pos hc] at h
        have key := ih rest _ o' hl' h
        exact ⟨fun hn => key.1 (hnr _ hn),
          fun hn => key.2.1 (hnr _ hn),
          fun hn => key.2.2.1 (hnr _ hn),
          fun hn => key.2.2.2.1 (hnr _ hn),
          fun hn => key.2.2.2.2.1 (hnr _ hn),
          fun hn => key.2.2.2.2.2 (hnr _ hn)⟩
      rw [if_neg hc] at h
      clear hc
      by_cases hc : a = cstr "--oldPriority"
      · rw [if_pos hc] at h
        have key := ih rest _ o' hl' h
        exact ⟨fun hn => key.1 (hnr _ hn),
          fun hn => key.2.1 (hnr _ hn),
          fun hn => key.2.2.1 (hnr _ hn),
          fun hn => key.2.2.2.1 (hnr _ hn),
          fun hn => key.2.2.2.2.1 (hnr _ hn),
          fun hn => key.2.2.2.2.2 (hnr _ hn)⟩
      rw [if_neg hc] at h
      clear hc
      by_cases hc : a = cstr "--newDomain"
      · rw [if_pos hc] at h
        have key := ih rest _ o' hl' h
        exact ⟨fun hn => key.1 (hnr _ hn),
          fun hn => key.2.1 (hnr _ hn),
          fun hn => key.2.2.1 (hnr _ hn),
          fun hn => key.2.2.2.1 (hnr _ hn),
          fun hn => key.2.2.2.2.1 (hnr _ hn),
          fun hn => key.2.2.2.2.2 (hnr _ hn)⟩
      rw [if_neg hc] at h
      clear hc
      by_cases hc : a = cstr "--newHost"
      · rw [if_pos hc] at h
        have key := ih rest _ o' hl' h
        exact ⟨fun hn => key.1 (hnr _ hn),
          fun hn => key.2.1 (hnr _ hn),
          fun hn => key.2.2.1 (hnr _ hn),
          fun hn => key.2.2.2.1 (hnr _ hn),
          fun hn => key.2.2.2.2.1 (hnr _ hn),
          fun hn => key.2.2.2.2.2 (hnr _ hn)⟩
      rw [if_neg hc] at h
      clear hc
      by_cases hc : a = cstr "--newType"
      · rw [if_pos hc] at h
        have key := ih rest _ o' hl' h
        exact ⟨fun hn => key.1 (hnr _ hn),
          fun hn => key.2.1 (hnr _ hn),
          fun hn => key.2.2.1 (hnr _ hn),
          fun hn => key.2.2.2.1 (hnr _ hn),
          fun hn => key.2.2.2.2.1 (hnr _ hn),
          fun hn => key.2.2.2.2.2 (hnr _ hn)⟩
      rw [if_neg hc] at h
      clear hc
      by_cases hc : a = cstr "--newData"
      · rw [if_pos hc] at h
        have key := ih rest _ o' hl' h
        exact ⟨fun hn => key.1 (hnr _ hn),
          fun hn => key.2.1 (hnr _ hn),
          fun hn => key.2.2.1 (hnr _ hn),
          fun hn => key.2.2.2.1 (hnr _ hn),
          fun hn => key.2.2.2.2.1 (hnr _ hn),
          fun hn => key.2.2.2.2.2 (hnr _ hn)⟩
      rw [if_neg hc] at h
      clear hc
      by_cases hc : a = cstr "--newTTL"
      · rw [if_pos hc] at h
        have key := ih rest _ o' hl' h
        exact ⟨fun hn => key.1 (hnr _ hn),
          fun hn => key.2.1 (hnr _ hn),
          fun hn => key.2.2.1 (hnr _ hn),
          fun hn => key.2.2.2.1 (hnr _ hn),
          fun hn => key.2.2.2.2.1 (hnr _ hn),
          fun hn => key.2.2.2.2.2 (hnr _ hn)⟩
      rw [if_neg hc] at h
      clear hc
      by_cases hc : a = cstr "--newPriority"
      · rw [if_pos hc] at h
        have key := ih rest _ o' hl' h
        exact ⟨fun hn => key.1 (hnr _ hn),
          fun hn => key.2.1 (hnr _ hn),
          fun hn => key.2.2.1 (hnr _ hn),
          fun hn => key.2.2.2.1 (hnr _ hn),
          fun hn => key.2.2.2.2.1 (hnr _ hn),
          fun hn => key.2.2.2.2.2 (hnr _ hn)⟩
      rw [if_neg hc] at h
      clear hc
      exact absurd h (by simp)

/-- The part of the validation that `main` has: for `add` and `delete`, an
argument list (other than the single argument `--help`) that lacks one of
`--username`, `--passwordB64`, `--domain`, `--host`, `--type`, `--data` ends
`main` with status 1 before any request function is called. -/
theorem main_missing_string_option (prog command : List Nat) (args : List (List Nat))
    (hcmd : command = cstr "add" ∨ command = cstr "delete")
    (hhelp : args ≠ [cstr "--help"])
    (hmiss : cstr "--username" ∉ args ∨ cstr "--passwordB64" ∉ args ∨ cstr "--domain" ∉ args ∨
      cstr "--host" ∉ args ∨ cstr "--type" ∉ args ∨ cstr "--data" ∉ args) :
    main (prog :: command :: args) = Outcome.returns 1 := by
  simp only [main, hhelp, if_false]
  cases hp : parse_options args Options.init with
  | none => rfl
  | some o =>
    obtain ⟨k1, k2, k3, k4, k5, k6⟩ := parse_options_absent args.length args _ o (le_refl _) hp
    have hnone : o.username = none ∨ o.passwordB64 = none ∨ o.domain = none ∨
        o.host = none ∨ o.type = none ∨ o.data = none := by
      rcases hmiss with h | h | h | h | h | h
      · exact Or.inl (k1 h)
      · exact Or.inr (Or.inl (k2 h))
      · exact Or.inr (Or.inr (Or.inl (k3 h)))
      · exact Or.inr (Or.inr (Or.inr (Or.inl (k4 h))))
      · exact Or.inr (Or.inr (Or.inr (Or.inr (Or.inl (k5 h)))))
      · exact Or.inr (Or.inr (Or.inr (Or.inr (Or.inr (k6 h)))))
    have hadd : cstr "add" ≠ cstr "update" := by decide
    have hdel1 : cstr "delete" ≠ cstr "update" := by decide
    have hdel2 : cstr "delete" ≠ cstr "add" := by decide
    rcases hcmd with rfl | rfl
    · simp only [dispatch, hadd, if_false, if_true]
      split
      · rename_i e1 e2 e3 e4 e5 e6
        rcases hnone with h | h | h | h | h | h <;> simp_all
      · rfl
    · simp only [dispatch, hdel1, hdel2, if_false, if_true]
      split
      · rename_i e1 e2 e3 e4 e5 e6
        rcases hnone with h | h | h | h | h | h <;> simp_all
      · rfl

/-- C20 at its failing input: `add` and `delete` with the six string options
and neither `--ttl` nor `--priority` are not usage errors; `main` calls
`call_record_add` and `call_record_delete` with ttl 0 and priority 0. The same
command lines without `--data` end with status 1. -/
theorem main_add_without_ttl_priority :
    main [cstr "prog", cstr "add", cstr "--username", cstr "u", cstr "--passwordB64", cstr "cA==",
        cstr "--domain", cstr "example.com", cstr "--host", cstr "www", cstr "--type", cstr "A",
        cstr "--data", cstr "192.0.2.1"] =
      Outcome.call_record_add (cstr "u") (cstr "cA==") (cstr "example.com") (cstr "www")
        (cstr "A") (cstr "192.0.2.1") 0 0 ∧
    main [cstr "prog", cstr "delete", cstr "--username", cstr "u", cstr "--passwordB64",
        cstr "cA==", cstr "--domain", cstr "example.com", cstr "--host", cstr "www",
        cstr "--type", cstr "A", cstr "--data", cstr "192.0.2.1"] =
      Outcome.call_record_delete (cstr "u") (cstr "cA==") (cstr "example.com") (cstr "www")
        (cstr "A") (cstr "192.0.2.1") 0 0 ∧
    main [cstr "prog", cstr "add", cstr "--username", cstr "u", cstr "--passwordB64", cstr "cA==",
        cstr "--domain", cstr "example.com", cstr "--host", cstr "www", cstr "--type", cstr "A",
        cstr "--data", cstr "192.0.2.1", cstr "--priority", cstr "10"] =
      Outcome.call_record_add (cstr "u") (cstr "cA==") (cstr "example.com") (cstr "www")
        (cstr "A") (cstr "192.0.2.1") 0 10 ∧
    main [cstr "prog", cstr "add", cstr "--username", cstr "u", cstr "--passwordB64", cstr "cA==",
        cstr "--domain", cstr "example.com", cstr "--host", cstr "www", cstr "--type", cstr "A",
        cstr "--ttl", cstr "300", cstr "--priority", cstr "10"] = Outcome.returns 1 := by
  decide

/-- The validation that holds, at a command line without `--host`. -/
theorem main_missing_string_option_witness :
    main (cstr "prog" :: cstr "delete" :: [cstr "--username", cstr "u", cstr "--passwordB64",
      cstr "cA==", cstr "--domain", cstr "example.com", cstr "--type", cstr "A",
      cstr "--data", cstr "192.0.2.1", cstr "--ttl", cstr "300", cstr "--priority", cstr "0"]) =
      Outcome.returns 1 :=
  main_missing_string_option _ _ _ (Or.inr rfl) (by decide)
    (Or.inr (Or.inr (Or.inr (Or.inl (by decide)))))

/-! ## The result object of the two decoders -/

/-- C21 at its failing input: with a `</resultText>` before the first
`<resultText>` the extractor, and with it the list decoder, has the text `a`,
while the simple decoder, which searches the closing tag from the start of the
body, gets a negative length and writes no `text` member. -/
theorem result_objects_differ_on_stray_close (char_signed : Bool) :
    extract_xml_value body_stray_close (cstr "resultText") = some (cstr "a") ∧
    simple_result_text body_stray_close = some none ∧
    parse_and_display_list_result char_signed (some body_stray_close) =
      cstr "\x7b\"result\":\x7b\"code\":5,\"message\":\"Operation failed - object not found\",\"subCode\":0,\"text\":\"a\"\x7d\x7d\n" ∧
    parse_and_display_simple_result char_signed (some body_stray_close) =
      some (cstr "\x7b\"result\":\x7b\"code\":5,\"message\":\"Operation failed - object not found\",\"subCode\":0\x7d\x7d\n") := by
  cases char_signed <;> decide

/-- When no `</resultText>` comes before the first `<resultText>`, the simple
decoder, with the exact `text_len` it has below 2 GiB, has the text the
extractor has. -/
theorem simple_text_exact_eq_extract (body : List Nat)
    (h : ∀ i j, strstr body (cstr "<resultText>") = some i →
      strstr body (cstr "</resultText>") = some j → i < j) :
    simple_text_exact body = extract_xml_value body (cstr "resultText") := by
  have eo : open_tag (cstr "resultText") = cstr "<resultText>" := by decide
  have ec : close_tag (cstr "resultText") = cstr "</resultText>" := by decide
  have hlen : (cstr "<resultText>").length = 12 := rfl
  rw [extract_xml_value_eq (by decide), eo, ec, hlen]
  unfold simple_text_exact
  cases ho : strstr body (cstr "<resultText>") with
  | none => rfl
  | some i =>
    cases hc : strstr body (cstr "</resultText>") with
    | none =>
      have hni := (strstr_eq_none_iff _ _).1 hc
      have : strstr (body.drop (i + 12)) (cstr "</resultText>") = none :=
        (strstr_eq_none_iff _ _).2
          (fun hin => hni (hin.trans (List.drop_suffix _ _).isInfix))
      simp only [this]
    | some j =>
      have hij := h i j ho hc
      have hfo := (strstr_eq_some_iff _ _ _).1 ho
      have hfc := (strstr_eq_some_iff _ _ _).1 hc
      obtain ⟨t, ht⟩ := hfo.1
      obtain ⟨t', ht'⟩ := hfc.1
      have hge : i + 12 ≤ j := by
        by_contra hlt
        have hk : j - i < 12 ∧ 1 ≤ j - i := by omega
        have hd : body.drop j = (cstr "<resultText>").drop (j - i) ++ t := by
          have e : j = i + (j - i) := by omega
          conv_lhs => rw [e, ← List.drop_drop, ← ht]
          rw [List.drop_append_of_le_length (by rw [hlen]; omega)]
        have hh : (body.drop j).head? = some 60 := by rw [← ht']; rfl
        rw [hd] at hh
        have key : ∀ k, k < 12 → 1 ≤ k →
            ((cstr "<resultText>").drop k).head? ≠ some 60 ∧
            ((cstr "<resultText>").drop k) ≠ [] := by decide
        obtain ⟨hne, hnil⟩ := key (j - i) hk.1 hk.2
        obtain ⟨c, cs, hcs⟩ := List.exists_cons_of_ne_nil hnil
        rw [hcs] at hh hne
        exact hne (by simpa using hh)
      have hfirst : FirstAt (cstr "</resultText>") (body.drop (i + 12)) (j - (i + 12)) := by
        refine ⟨?_, ?_⟩
        · rw [List.drop_drop]
          have e : i + 12 + (j - (i + 12)) = j := by omega
          rw [e]
          exact hfc.1
        · intro k hk hp
          rw [List.drop_drop] at hp
          exact hfc.2 (i + 12 + k) (by omega) hp
      have hneg : ¬ ((j : Int) - ((i : Int) + 12) + 1 < 0) := by omega
      have htn : ((j : Int) - ((i : Int) + 12)).toNat = j - (i + 12) := by omega
      simp only [(strstr_eq_some_iff _ _ _).2 hfirst, hneg, if_false, htn]

/-- When no `</resultText>` comes before the first `<resultText>` of a body
shorter than 2^31 bytes, the two decoders write the same `"result"` object. -/
theorem result_objects_agree (char_signed : Bool) (body : List Nat)
    (hlen : body.length < 2147483648)
    (h : ∀ i j, strstr body (cstr "<resultText>") = some i →
      strstr body (cstr "</resultText>") = some j → i < j) :
    parse_and_display_simple_result char_signed (some body) =
      some (cstr "\x7b" ++ (print_result_object char_signed (parse_result_code body)
        (parse_result_subcode body) (extract_xml_value body (cstr "resultText")) ++
        cstr "\x7d\n")) ∧
    parse_and_display_list_result char_signed (some body) =
      cstr "\x7b" ++ (print_result_object char_signed (parse_result_code body)
        (parse_result_subcode body) (extract_xml_value body (cstr "resultText")) ++
        list_tail char_signed body) := by
  refine ⟨?_, parse_and_display_list_result_eq char_signed body⟩
  simp only [parse_and_display_simple_result, simple_result_text_small hlen,
    simple_text_exact_eq_extract body h, List.append_assoc]

/-- The agreement of the two decoders at a body with a well-placed text. -/
theorem result_objects_agree_witness :
    parse_and_display_simple_result true
        (some (cstr "<resultCode>3</resultCode><resultText>bad\nvalue</resultText>")) =
      some (cstr "\x7b" ++ (print_result_object true
        (parse_result_code (cstr "<resultCode>3</resultCode><resultText>bad\nvalue</resultText>"))
        (parse_result_subcode (cstr "<resultCode>3</resultCode><resultText>bad\nvalue</resultText>"))
        (extract_xml_value (cstr "<resultCode>3</resultCode><resultText>bad\nvalue</resultText>")
          (cstr "resultText")) ++ cstr "\x7d\n")) ∧
    parse_and_display_list_result true
        (some (cstr "<resultCode>3</resultCode><resultText>bad\nvalue</resultText>")) =
      cstr "\x7b" ++ (print_result_object true
        (parse_result_code (cstr "<resultCode>3</resultCode><resultText>bad\nvalue</resultText>"))
        (parse_result_subcode (cstr "<resultCode>3</resultCode><resultText>bad\nvalue</resultText>"))
        (extract_xml_value (cstr "<resultCode>3</resultCode><resultText>bad\nvalue</resultText>")
          (cstr "resultText")) ++
        list_tail true (cstr "<resultCode>3</resultCode><resultText>bad\nvalue</resultText>")) :=
  result_objects_agree true _ (by decide) (fun i j hi hj => by
    have h1 : strstr (cstr "<resultCode>3</resultCode><resultText>bad\nvalue</resultText>")
        (cstr "<resultText>") = some 26 := by decide
    have h2 : strstr (cstr "<resultCode>3</resultCode><resultText>bad\nvalue</resultText>")
        (cstr "</resultText>") = some 47 := by decide
    rw [h1] at hi
    rw [h2] at hj
    injection hi with hi
    injection hj with hj
    omega)

/-! ## The Update request -/

theorem record_block_extract_DomainName (domain host type data : List Nat) (ttl priority : Int)
    (hdomain : ∀ b ∈ domain, b ≠ 60) :
    extract_xml_value (record_block domain host type data ttl priority) (cstr "DomainName") =
      some (domain) := by
  have hx : record_block domain host type data ttl priority =
      (cstr "\n    ") ++
      (open_tag (cstr "DomainName") ++ ((domain) ++ (close_tag (cstr "DomainName") ++
      (cstr "\n    <HostName>" ++
        (host ++
        (cstr "</HostName>\n    <RecordType>" ++
        (type ++
        (cstr "</RecordType>\n    <Data>" ++
        (data ++
        (cstr "</Data>\n    <TTL>" ++
        ((fmt_d ttl) ++
        (cstr "</TTL>\n    <Priority>" ++
        ((fmt_d priority) ++
        (cstr "</Priority>\n   ")))))))))))))) := by
    simp only [record_block, open_tag, close_tag, List.append_assoc]
    rfl
  rw [hx]
  refine extract_xml_value_of_layout (by decide) _ _ _ ?_ ?_
  · exact (by decide)
  · exact no_start_of_no_lt hdomain

theorem record_block_extract_HostName (domain host type data : List Nat) (ttl priority : Int)
    (hdomain : ∀ b ∈ domain, b ≠ 60)
    (hhost : ∀ b ∈ host, b ≠ 60) :
    extract_xml_value (record_block domain host type data ttl priority) (cstr "HostName") =
      some (host) := by
  have hx : record_block domain host type data ttl priority =
      (cstr "\n    <DomainName>" ++
        (domain ++
        (cstr "</DomainName>\n    "))) ++
      (open_tag (cstr "HostName") ++ ((host) ++ (close_tag (cstr "HostName") ++
      (cstr "\n    <RecordType>" ++
        (type ++
        (cstr "</RecordType>\n    <Data>" ++
        (data ++
        (cstr "</Data>\n    <TTL>" ++
        ((fmt_d ttl) ++
        (cstr "</TTL>\n    <Priority>" ++
        ((fmt_d priority) ++
        (cstr "</Priority>\n   ")))))))))))) := by
    simp only [record_block, open_tag, close_tag, List.append_assoc]
    rfl
  rw [hx]
  refine extract_xml_value_of_layout (by decide) _ _ _ ?_ ?_
  · exact (no_start_append (by decide)
      (no_start_var hdomain
      (by decide)))
  · exact no_start_of_no_lt hhost

theorem record_block_extract_RecordType (domain host type data : List Nat) (ttl priority : Int)
    (hdomain : ∀ b ∈ domain, b ≠ 60)
    (hhost : ∀ b ∈ host, b ≠ 60)
    (htype : ∀ b ∈ type, b ≠ 60) :
    extract_xml_value (record_block domain host type data ttl priority) (cstr "RecordType") =
      some (type) := by
  have hx : record_block domain host type data ttl priority =
      (cstr "\n    <DomainName>" ++
        (domain ++
        (cstr "</DomainName>\n    <HostName>" ++
        (host ++
        (cstr "</HostName>\n    "))))) ++
      (open_tag (cstr "RecordType") ++ ((type) ++ (close_tag (cstr "RecordType") ++
      (cstr "\n    <Data>" ++
        (data ++
        (cstr "</Data>\n    <TTL>" ++
        ((fmt_d ttl) ++
        (cstr "</TTL>\n    <Priority>" ++
        ((fmt_d priority) ++
        (cstr "</Priority>\n   ")))))))))) := by
    simp only [record_block, open_tag, close_tag, List.append_assoc]
    rfl
  rw [hx]
  refine extract_xml_value_of_layout (by decide) _ _ _ ?_ ?_
  · exact (no_start_append (by decide)
      (no_start_var hdomain
      (no_start_append (by decide)
      (no_start_var hhost
      (by decide)))))
  · exact no_start_of_no_lt htype

theorem record_block_extract_Data (domain host type data : List Nat) (ttl priority : Int)
    (hdomain : ∀ b ∈ domain, b ≠ 60)
    (hhost : ∀ b ∈ host, b ≠ 60)
    (htype : ∀ b ∈ type, b ≠ 60)
    (hdata : ∀ b ∈ data, b ≠ 60) :
    extract_xml_value (record_block domain host type data ttl priority) (cstr "Data") =
      some (data) := by
  have hx : record_block domain host type data ttl priority =
      (cstr "\n    <DomainName>" ++
        (domain ++
        (cstr "</DomainName>\n    <HostName>" ++
        (host ++
        (cstr "</HostName>\n    <RecordType>" ++
        (type ++
        (cstr "</RecordType>\n    "))))))) ++
      (open_tag (cstr "Data") ++ ((data) ++ (close_tag (cstr "Data") ++
      (cstr "\n    <TTL>" ++
        ((fmt_d ttl) ++
        (cstr "</TTL>\n    <Priority>" ++
        ((fmt_d priority) ++
        (cstr "</Priority>\n   ")))))))) := by
    simp only [record_block, open_tag, close_tag, List.append_assoc]
    rfl
  rw [hx]
  refine extract_xml_value_of_layout (by decide) _ _ _ ?_ ?_
  · exact (no_start_append (by decide)
      (no_start_var hdomain
      (no_start_append (by decide)
      (no_start_var hhost
      (no_start_append (by decide)
      (no_start_var htype
      (by decide)))))))
  · exact no_start_of_no_lt hdata

theorem record_block_extract_TTL (domain host type data : List Nat) (ttl priority : Int)
    (hdomain : ∀ b ∈ domain, b ≠ 60)
    (hhost : ∀ b ∈ host, b ≠ 60)
    (htype : ∀ b ∈ type, b ≠ 60)
    (hdata : ∀ b ∈ data, b ≠ 60) :
    extract_xml_value (record_block domain host type data ttl priority) (cstr "TTL") =
      some (fmt_d ttl) := by
  have hx : record_block domain host type data ttl priority =
      (cstr "\n    <DomainName>" ++
        (domain ++
        (cstr "</DomainName>\n    <HostName>" ++
        (host ++
        (cstr "</HostName>\n    <RecordType>" ++
        (type ++
        (cstr "</RecordType>\n    <Data>" ++
        (data ++
        (cstr "</Data>\n    "))))))))) ++
      (open_tag (cstr "TTL") ++ ((fmt_d ttl) ++ (close_tag (cstr "TTL") ++
      (cstr "\n    <Priority>" ++
        ((fmt_d priority) ++
        (cstr "</Priority>\n   ")))))) := by
    simp only [record_block, open_tag, close_tag, List.append_assoc]
    rfl
  rw [hx]
  refine extract_xml_value_of_layout (by decide) _ _ _ ?_ ?_
  · exact (no_start_append (by decide)
      (no_start_var hdomain
      (no_start_append (by decide)
      (no_start_var hhost
      (no_start_append (by decide)
      (no_start_var htype
      (no_start_append (by decide)
      (no_start_var hdata
      (by decide)))))))))
  · exact no_start_of_no_lt (fmt_d_no_lt ttl)

theorem record_block_extract_Priority (domain host type data : List Nat) (ttl priority : Int)
    (hdomain : ∀ b ∈ domain, b ≠ 60)
    (hhost : ∀ b ∈ host, b ≠ 60)
    (htype : ∀ b ∈ type, b ≠ 60)
    (hdata : ∀ b ∈ data, b ≠ 60) :
    extract_xml_value (record_block domain host type data ttl priority) (cstr "Priority") =
      some (fmt_d priority) := by
  have hx : record_block domain host type data ttl priority =
      (cstr "\n    <DomainName>" ++
        (domain ++
        (cstr "</DomainName>\n    <HostName>" ++
        (host ++
        (cstr "</HostName>\n    <RecordType>" ++
        (type ++
        (cstr "</RecordType>\n    <Data>" ++
        (data ++
        (cstr "</Data>\n    <TTL>" ++
        ((fmt_d ttl) ++
        (cstr "</TTL>\n    "))))))))))) ++
      (open_tag (cstr "Priority") ++ ((fmt_d priority) ++ (close_tag (cstr "Priority") ++
      (cstr "\n   ")))) := by
    simp only [record_block, open_tag, close_tag, List.append_assoc]
    rfl
  rw [hx]
  refine extract_xml_value_of_layout (by decide) _ _ _ ?_ ?_
  · exact (no_start_append (by decide)
      (no_start_var hdomain
      (no_start_append (by decide)
      (no_start_var hhost
      (no_start_append (by decide)
      (no_start_var htype
      (no_start_append (by decide)
      (no_start_var hdata
      (no_start_append (by decide)
      (no_start_var (fmt_d_no_lt ttl)
      (by decide)))))))))))
  · exact no_start_of_no_lt (fmt_d_no_lt priority)

theorem record_block_no_start_old_close (domain host type data : List Nat) (ttl priority : Int)
    (hdomain : ∀ b ∈ domain, b ≠ 60) (hhost : ∀ b ∈ host, b ≠ 60)
    (htype : ∀ b ∈ type, b ≠ 60) (hdata : ∀ b ∈ data, b ≠ 60) :
    no_start (record_block domain host type data ttl priority) (cstr "</oldRecord>") = true := by
  have hx : record_block domain host type data ttl priority =
      cstr "\n    <DomainName>" ++
        (domain ++
        (cstr "</DomainName>\n    <HostName>" ++
        (host ++
        (cstr "</HostName>\n    <RecordType>" ++
        (type ++
        (cstr "</RecordType>\n    <Data>" ++
        (data ++
        (cstr "</Data>\n    <TTL>" ++
        ((fmt_d ttl) ++
        (cstr "</TTL>\n    <Priority>" ++
        ((fmt_d priority) ++
        (cstr "</Priority>\n   ")))))))))))) := by
    simp only [record_block, List.append_assoc]
    rfl
  rw [hx]
  exact (no_start_append (by decide)
      (no_start_var hdomain
      (no_start_append (by decide)
      (no_start_var hhost
      (no_start_append (by decide)
      (no_start_var htype
      (no_start_append (by decide)
      (no_start_var hdata
      (no_start_append (by decide)
      (no_start_var (fmt_d_no_lt ttl)
      (no_start_append (by decide)
      (no_start_var (fmt_d_no_lt priority)
      (by decide)))))))))))))

theorem record_block_no_start_new_open (domain host type data : List Nat) (ttl priority : Int)
    (hdomain : ∀ b ∈ domain, b ≠ 60) (hhost : ∀ b ∈ host, b ≠ 60)
    (htype : ∀ b ∈ type, b ≠ 60) (hdata : ∀ b ∈ data, b ≠ 60) :
    no_start (record_block domain host type data ttl priority) (cstr "<newRecord>") = true := by
  have hx : record_block domain host type data ttl priority =
      cstr "\n    <DomainName>" ++
        (domain ++
        (cstr "</DomainName>\n    <HostName>" ++
        (host ++
        (cstr "</HostName>\n    <RecordType>" ++
        (type ++
        (cstr "</RecordType>\n    <Data>" ++
        (data ++
        (cstr "</Data>\n    <TTL>" ++
        ((fmt_d ttl) ++
        (cstr "</TTL>\n    <Priority>" ++
        ((fmt_d priority) ++
        (cstr "</Priority>\n   ")))))))))))) := by
    simp only [record_block, List.append_assoc]
    rfl
  rw [hx]
  exact (no_start_append (by decide)
      (no_start_var hdomain
      (no_start_append (by decide)
      (no_start_var hhost
      (no_start_append (by decide)
      (no_start_var htype
      (no_start_append (by decide)
      (no_start_var hdata
      (no_start_append (by decide)
      (no_start_var (fmt_d_no_lt ttl)
      (no_start_append (by decide)
      (no_start_var (fmt_d_no_lt priority)
      (by decide)))))))))))))

theorem record_block_no_start_new_close (domain host type data : List Nat) (ttl priority : Int)
    (hdomain : ∀ b ∈ domain, b ≠ 60) (hhost : ∀ b ∈ host, b ≠ 60)
    (htype : ∀ b ∈ type, b ≠ 60) (hdata : ∀ b ∈ data, b ≠ 60) :
    no_start (record_block domain host type data ttl priority) (cstr "</newRecord>") = true := by
  have hx : record_block domain host type data ttl priority =
      cstr "\n    <DomainName>" ++
        (domain ++
        (cstr "</DomainName>\n    <HostName>" ++
        (host ++
        (cstr "</HostName>\n    <RecordType>" ++
        (type ++
        (cstr "</RecordType>\n    <Data>" ++
        (data ++
        (cstr "</Data>\n    <TTL>" ++
        ((fmt_d ttl) ++
        (cstr "</TTL>\n    <Priority>" ++
        ((fmt_d priority) ++
        (cstr "</Priority>\n   ")))))))))))) := by
    simp only [record_block, List.append_assoc]
    rfl
  rw [hx]
  exact (no_start_append (by decide)
      (no_start_var hdomain
      (no_start_append (by decide)
      (no_start_var hhost
      (no_start_append (by decide)
      (no_start_var htype
      (no_start_append (by decide)
      (no_start_var hdata
      (no_start_append (by decide)
      (no_start_var (fmt_d_no_lt ttl)
      (no_start_append (by decide)
      (no_start_var (fmt_d_no_lt priority)
      (by decide)))))))))))))

theorem update_pre_old_no_start (username passwordB64 : List Nat) (needle : List Nat)
    (huser : ∀ b ∈ username, b ≠ 60) (hpass : ∀ b ∈ passwordB64, b ≠ 60)
    (h0 : no_start (cstr "<?xml version=\"1.0\" encoding=\"utf-8\"?>\n<soap:Envelope xmlns:xsi=\"http://www.w3.org/2001/XMLSchema-instance\" xmlns:xsd=\"http://www.w3.org/2001/XMLSchema\" xmlns:soap=\"http://schemas.xmlsoap.org/soap/envelope/\">\n <soap:Body>\n  <recordUpdate xmlns=\"https://api.quickservicebox.com/DNS/DNSAPI\">\n   <accountUsername>") (60 :: needle) = true)
    (h1 : no_start (cstr "</accountUsername>\n   <accountPasswordB64>") (60 :: needle) = true)
    (rest : List Nat) (hrest : no_start rest (60 :: needle) = true) :
    no_start (cstr "<?xml version=\"1.0\" encoding=\"utf-8\"?>\n<soap:Envelope xmlns:xsi=\"http://www.w3.org/2001/XMLSchema-instance\" xmlns:xsd=\"http://www.w3.org/2001/XMLSchema\" xmlns:soap=\"http://schemas.xmlsoap.org/soap/envelope/\">\n <soap:Body>\n  <recordUpdate xmlns=\"https://api.quickservicebox.com/DNS/DNSAPI\">\n   <accountUsername>" ++
      (username ++ (cstr "</accountUsername>\n   <accountPasswordB64>" ++
      (passwordB64 ++ rest)))) (60 :: needle) = true :=
  no_start_append h0 (no_start_var huser (no_start_append h1 (no_start_var hpass hrest)))

/-- The text of the Update request before `<oldRecord>`. -/
theorem update_xml_old_layout (username passwordB64 oldDomain oldHost oldType oldData : List Nat)
    (oldTTL oldPriority : Int) (newDomain newHost newType newData : List Nat)
    (newTTL newPriority : Int) :
    call_record_update_xml username passwordB64 oldDomain oldHost oldType (some oldData)
        oldTTL oldPriority newDomain newHost newType newData newTTL newPriority =
      (cstr "<?xml version=\"1.0\" encoding=\"utf-8\"?>\n<soap:Envelope xmlns:xsi=\"http://www.w3.org/2001/XMLSchema-instance\" xmlns:xsd=\"http://www.w3.org/2001/XMLSchema\" xmlns:soap=\"http://schemas.xmlsoap.org/soap/envelope/\">\n <soap:Body>\n  <recordUpdate xmlns=\"https://api.quickservicebox.com/DNS/DNSAPI\">\n   <accountUsername>" ++
        (username ++ (cstr "</accountUsername>\n   <accountPasswordB64>" ++
        (passwordB64 ++ cstr "</accountPasswordB64>\n   ")))) ++
      (open_tag (cstr "oldRecord") ++
        (record_block oldDomain oldHost oldType oldData oldTTL oldPriority ++
        (close_tag (cstr "oldRecord") ++
        (cstr "\n   <newRecord>" ++
          (record_block newDomain newHost newType newData newTTL newPriority ++
          cstr "</newRecord>\n  </recordUpdate>\n </soap:Body>\n</soap:Envelope>"))))) := by
  simp only [call_record_update_xml, record_block, open_tag, close_tag, List.append_assoc,
    Option.getD_some]
  rfl

/-- The text of the Update request before `<newRecord>`. -/
theorem update_xml_new_layout (username passwordB64 oldDomain oldHost oldType oldData : List Nat)
    (oldTTL oldPriority : Int) (newDomain newHost newType newData : List Nat)
    (newTTL newPriority : Int) :
    call_record_update_xml username passwordB64 oldDomain oldHost oldType (some oldData)
        oldTTL oldPriority newDomain newHost newType newData newTTL newPriority =
      (cstr "<?xml version=\"1.0\" encoding=\"utf-8\"?>\n<soap:Envelope xmlns:xsi=\"http://www.w3.org/2001/XMLSchema-instance\" xmlns:xsd=\"http://www.w3.org/2001/XMLSchema\" xmlns:soap=\"http://schemas.xmlsoap.org/soap/envelope/\">\n <soap:Body>\n  <recordUpdate xmlns=\"https://api.quickservicebox.com/DNS/DNSAPI\">\n   <accountUsername>" ++
        (username ++ (cstr "</accountUsername>\n   <accountPasswordB64>" ++
        (passwordB64 ++ (cstr "</accountPasswordB64>\n   <oldRecord>" ++
        (record_block oldDomain oldHost oldType oldData oldTTL oldPriority ++
        cstr "</oldRecord>\n   ")))))) ++
      (open_tag (cstr "newRecord") ++
        (record_block newDomain newHost newType newData newTTL newPriority ++
        (close_tag (cstr "newRecord") ++
        cstr "\n  </recordUpdate>\n </soap:Body>\n</soap:Envelope>"))) := by
  simp only [call_record_update_xml, record_block, open_tag, close_tag, List.append_assoc,
    Option.getD_some]
  rfl

theorem update_xml_extract_old (username passwordB64 oldDomain oldHost oldType oldData : List Nat)
    (oldTTL oldPriority : Int) (newDomain newHost newType newData : List Nat)
    (newTTL newPriority : Int)
    (huser : ∀ b ∈ username, b ≠ 60) (hpass : ∀ b ∈ passwordB64, b ≠ 60)
    (hdomain : ∀ b ∈ oldDomain, b ≠ 60) (hhost : ∀ b ∈ oldHost, b ≠ 60)
    (htype : ∀ b ∈ oldType, b ≠ 60) (hdata : ∀ b ∈ oldData, b ≠ 60) :
    extract_xml_value
        (call_record_update_xml username passwordB64 oldDomain oldHost oldType (some oldData)
          oldTTL oldPriority newDomain newHost newType newData newTTL newPriority)
        (cstr "oldRecord") =
      some (record_block oldDomain oldHost oldType oldData oldTTL oldPriority) ∧
    strstr
        (call_record_update_xml username passwordB64 oldDomain oldHost oldType (some oldData)
          oldTTL oldPriority newDomain newHost newType newData newTTL newPriority)
        (cstr "<oldRecord>") = some (username.length + passwordB64.length + 377) := by
  have ho : open_tag (cstr "oldRecord") = cstr "<oldRecord>" := by decide
  have hc : close_tag (cstr "oldRecord") = cstr "</oldRecord>" := by decide
  have hpre := update_pre_old_no_start username passwordB64 (cstr "oldRecord>") huser hpass
    (by decide) (by decide) (cstr "</accountPasswordB64>\n   ") (by decide)
  rw [show (60 :: cstr "oldRecord>") = cstr "<oldRecord>" from rfl] at hpre
  rw [update_xml_old_layout]
  constructor
  · refine extract_xml_value_of_layout (by decide) _ _ _ ?_ ?_
    · rw [ho]; exact hpre
    · rw [hc]
      exact record_block_no_start_old_close _ _ _ _ _ _ hdomain hhost htype hdata
  · rw [ho, strstr_of_layout _ hpre]
    have e0 : (cstr "<?xml version=\"1.0\" encoding=\"utf-8\"?>\n<soap:Envelope xmlns:xsi=\"http://www.w3.org/2001/XMLSchema-instance\" xmlns:xsd=\"http://www.w3.org/2001/XMLSchema\" xmlns:soap=\"http://schemas.xmlsoap.org/soap/envelope/\">\n <soap:Body>\n  <recordUpdate xmlns=\"https://api.quickservicebox.com/DNS/DNSAPI\">\n   <accountUsername>").length = 310 := by decide
    have e1 : (cstr "</accountUsername>\n   <accountPasswordB64>").length = 42 := by decide
    have e2 : (cstr "</accountPasswordB64>\n   ").length = 25 := by decide
    simp only [List.length_append, e0, e1, e2]
    exact congrArg some (by omega)

theorem update_xml_extract_new (username passwordB64 oldDomain oldHost oldType oldData : List Nat)
    (oldTTL oldPriority : Int) (newDomain newHost newType newData : List Nat)
    (newTTL newPriority : Int)
    (huser : ∀ b ∈ username, b ≠ 60) (hpass : ∀ b ∈ passwordB64, b ≠ 60)
    (hdomain : ∀ b ∈ oldDomain, b ≠ 60) (hhost : ∀ b ∈ oldHost, b ≠ 60)
    (htype : ∀ b ∈ oldType, b ≠ 60) (hdata : ∀ b ∈ oldData, b ≠ 60)
    (hndomain : ∀ b ∈ newDomain, b ≠ 60) (hnhost : ∀ b ∈ newHost, b ≠ 60)
    (hntype : ∀ b ∈ newType, b ≠ 60) (hndata : ∀ b ∈ newData, b ≠ 60) :
    extract_xml_value
        (call_record_update_xml username passwordB64 oldDomain oldHost oldType (some oldData)
          oldTTL oldPriority newDomain newHost newType newData newTTL newPriority)
        (cstr "newRecord") =
      some (record_block newDomain newHost newType newData newTTL newPriority) ∧
    strstr
        (call_record_update_xml username passwordB64 oldDomain oldHost oldType (some oldData)
          oldTTL oldPriority newDomain newHost newType newData newTTL newPriority)
        (cstr "<newRecord>") =
      some (username.length + passwordB64.length + 404 +
        (record_block oldDomain oldHost oldType oldData oldTTL oldPriority).length) := by
  have ho : open_tag (cstr "newRecord") = cstr "<newRecord>" := by decide
  have hc : close_tag (cstr "newRecord") = cstr "</newRecord>" := by decide
  have hblock := record_block_no_start_new_open oldDomain oldHost oldType oldData oldTTL
    oldPriority hdomain hhost htype hdata
  rw [show cstr "<newRecord>" = 60 :: cstr "newRecord>" from rfl] at hblock
  have hpre := update_pre_old_no_start username passwordB64 (cstr "newRecord>") huser hpass
    (by decide) (by decide)
    (cstr "</accountPasswordB64>\n   <oldRecord>" ++
      (record_block oldDomain oldHost oldType oldData oldTTL oldPriority ++
      cstr "</oldRecord>\n   "))
    (no_start_append (by decide) (no_start_append hblock (by decide)))
  rw [show (60 :: cstr "newRecord>") = cstr "<newRecord>" from rfl] at hpre
  rw [update_xml_new_layout]
  constructor
  · refine extract_xml_value_of_layout (by decide) _ _ _ ?_ ?_
    · rw [ho]; exact hpre
    · rw [hc]
      exact record_block_no_start_new_close _ _ _ _ _ _ hndomain hnhost hntype hndata
  · rw [ho, strstr_of_layout _ hpre]
    have e0 : (cstr "<?xml version=\"1.0\" encoding=\"utf-8\"?>\n<soap:Envelope xmlns:xsi=\"http://www.w3.org/2001/XMLSchema-instance\" xmlns:xsd=\"http://www.w3.org/2001/XMLSchema\" xmlns:soap=\"http://schemas.xmlsoap.org/soap/envelope/\">\n <soap:Body>\n  <recordUpdate xmlns=\"https://api.quickservicebox.com/DNS/DNSAPI\">\n   <accountUsername>").length = 310 := by decide
    have e1 : (cstr "</accountUsername>\n   <accountPasswordB64>").length = 42 := by decide
    have e2 : (cstr "</accountPasswordB64>\n   <oldRecord>").length = 36 := by decide
    have e3 : (cstr "</oldRecord>\n   ").length = 16 := by decide
    simp only [List.length_append, e0, e1, e2, e3]
    exact congrArg some (by omega)

/-- C22: in the XML built by `call_record_update` from strings without `<`,
`<oldRecord>` is found before `<newRecord>`; the block extracted under
`oldRecord` yields the six old values under DomainName, HostName, RecordType,
Data, TTL and Priority, and the block extracted under `newRecord` yields the
six new values. -/
theorem update_request_round_trip
    (username passwordB64 oldDomain oldHost oldType oldData : List Nat)
    (oldTTL oldPriority : Int) (newDomain newHost newType newData : List Nat)
    (newTTL newPriority : Int) (xml : List Nat)
    (hxml : xml = call_record_update_xml username passwordB64 oldDomain oldHost oldType
      (some oldData) oldTTL oldPriority newDomain newHost newType newData newTTL newPriority)
    (huser : ∀ b ∈ username, b ≠ 60) (hpass : ∀ b ∈ passwordB64, b ≠ 60)
    (hdomain : ∀ b ∈ oldDomain, b ≠ 60) (hhost : ∀ b ∈ oldHost, b ≠ 60)
    (htype : ∀ b ∈ oldType, b ≠ 60) (hdata : ∀ b ∈ oldData, b ≠ 60)
    (hndomain : ∀ b ∈ newDomain, b ≠ 60) (hnhost : ∀ b ∈ newHost, b ≠ 60)
    (hntype : ∀ b ∈ newType, b ≠ 60) (hndata : ∀ b ∈ newData, b ≠ 60) :
    (∃ i j, strstr xml (cstr "<oldRecord>") = some i ∧
      strstr xml (cstr "<newRecord>") = some j ∧ i < j) ∧
    (∃ block, extract_xml_value xml (cstr "oldRecord") = some block ∧
      extract_xml_value block (cstr "DomainName") = some oldDomain ∧
      extract_xml_value block (cstr "HostName") = some oldHost ∧
      extract_xml_value block (cstr "RecordType") = some oldType ∧
      extract_xml_value block (cstr "Data") = some oldData ∧
      extract_xml_value block (cstr "TTL") = some (fmt_d oldTTL) ∧
      extract_xml_value block (cstr "Priority") = some (fmt_d oldPriority)) ∧
    (∃ block, extract_xml_value xml (cstr "newRecord") = some block ∧
      extract_xml_value block (cstr "DomainName") = some newDomain ∧
      extract_xml_value block (cstr "HostName") = some newHost ∧
      extract_xml_value block (cstr "RecordType") = some newType ∧
      extract_xml_value block (cstr "Data") = some newData ∧
      extract_xml_value block (cstr "TTL") = some (fmt_d newTTL) ∧
      extract_xml_value block (cstr "Priority") = some (fmt_d newPriority)) := by
  rw [hxml]
  obtain ⟨ho1, ho2⟩ := update_xml_extract_old username passwordB64 oldDomain oldHost oldType
    oldData oldTTL oldPriority newDomain newHost newType newData newTTL newPriority
    huser hpass hdomain hhost htype hdata
  obtain ⟨hn1, hn2⟩ := update_xml_extract_new username passwordB64 oldDomain oldHost oldType
    oldData oldTTL oldPriority newDomain newHost newType newData newTTL newPriority
    huser hpass hdomain hhost htype hdata hndomain hnhost hntype hndata
  have hlt : username.length + passwordB64.length + 377 <
      username.length + passwordB64.length + 404 +
        (record_block oldDomain oldHost oldType oldData oldTTL oldPriority).length := by
    omega
  refine ⟨⟨_, _, ho2, hn2, hlt⟩, ⟨_, ho1, ?_⟩, ⟨_, hn1, ?_⟩⟩
  · exact ⟨record_block_extract_DomainName _ _ _ _ _ _ hdomain,
      record_block_extract_HostName _ _ _ _ _ _ hdomain hhost,
      record_block_extract_RecordType _ _ _ _ _ _ hdomain hhost htype,
      record_block_extract_Data _ _ _ _ _ _ hdomain hhost htype hdata,
      record_block_extract_TTL _ _ _ _ _ _ hdomain hhost htype hdata,
      record_block_extract_Priority _ _ _ _ _ _ hdomain hhost htype hdata⟩
  · exact ⟨record_block_extract_DomainName _ _ _ _ _ _ hndomain,
      record_block_extract_HostName _ _ _ _ _ _ hndomain hnhost,
      record_block_extract_RecordType _ _ _ _ _ _ hndomain hnhost hntype,
      record_block_extract_Data _ _ _ _ _ _ hndomain hnhost hntype hndata,
      record_block_extract_TTL _ _ _ _ _ _ hndomain hnhost hntype hndata,
      record_block_extract_Priority _ _ _ _ _ _ hndomain hnhost hntype hndata⟩

/-- Witness for C22: old and new records that differ in every field. -/
theorem update_request_round_trip_witness :
    (∃ i j, strstr update_xml_example (cstr "<oldRecord>") = some i ∧
      strstr update_xml_example (cstr "<newRecord>") = some j ∧ i < j) ∧
    (∃ block, extract_xml_value update_xml_example (cstr "oldRecord") = some block ∧
      extract_xml_value block (cstr "DomainName") = some (cstr "example.com") ∧
      extract_xml_value block (cstr "HostName") = some (cstr "www") ∧
      extract_xml_value block (cstr "RecordType") = some (cstr "A") ∧
      extract_xml_value block (cstr "Data") = some (cstr "192.0.2.1") ∧
      extract_xml_value block (cstr "TTL") = some (fmt_d 300) ∧
      extract_xml_value block (cstr "Priority") = some (fmt_d 0)) ∧
    (∃ block, extract_xml_value update_xml_example (cstr "newRecord") = some block ∧
      extract_xml_value block (cstr "DomainName") = some (cstr "example.org") ∧
      extract_xml_value block (cstr "HostName") = some (cstr "web") ∧
      extract_xml_value block (cstr "RecordType") = some (cstr "AAAA") ∧
      extract_xml_value block (cstr "Data") = some (cstr "2001:db8::1") ∧
      extract_xml_value block (cstr "TTL") = some (fmt_d (-1)) ∧
      extract_xml_value block (cstr "Priority") = some (fmt_d 10)) :=
  update_request_round_trip (cstr "user") (cstr "cGFzcw==")
    (cstr "example.com") (cstr "www") (cstr "A") (cstr "192.0.2.1") 300 0
    (cstr "example.org") (cstr "web") (cstr "AAAA") (cstr "2001:db8::1") (-1) 10
    update_xml_example rfl
    (by decide) (by decide) (by decide) (by decide) (by decide) (by decide)
    (by decide) (by decide) (by decide) (by decide)

/-! ## The suspension reason -/

/-- A block whose SuspensionReason element is empty gives the same record
object as a block without the element that agrees with it on the other eight
elements. -/
theorem record_reason_empty_absent (char_signed : Bool) (b b' : List Nat)
    (h8 : ∀ tag ∈ [cstr "DomainName", cstr "HostName", cstr "RecordType", cstr "Data", cstr "TTL",
      cstr "Priority", cstr "ReadOnly", cstr "Suspended"],
      extract_xml_value b tag = extract_xml_value b' tag)
    (hb : extract_xml_value b (cstr "SuspensionReason") = some [])
    (hb' : extract_xml_value b' (cstr "SuspensionReason") = none) :
    print_record char_signed b = print_record char_signed b' := by
  rw [print_record_layout, print_record_layout]
  simp only [record_strings, record_reason, hb, hb',
    h8 (cstr "DomainName") (by simp), h8 (cstr "HostName") (by simp),
    h8 (cstr "RecordType") (by simp), h8 (cstr "Data") (by simp),
    h8 (cstr "TTL") (by simp), h8 (cstr "Priority") (by simp),
    h8 (cstr "ReadOnly") (by simp), h8 (cstr "Suspended") (by simp)]
  rfl

/-! ## The sub-code decoder -/

theorem is_hex_hex_digit (d : Nat) (h : d < 16) : is_hex (hex_digit d) = true := by
  unfold hex_digit is_hex
  split_ifs with h10
  · have h1 : 48 ≤ 48 + d := by omega
    have h2 : 48 + d ≤ 57 := by omega
    simp [h1, h2]
  · have h1 : 97 ≤ 87 + d := by omega
    have h2 : 87 + d ≤ 102 := by omega
    simp [h1, h2]

theorem hex_digit_ge (d : Nat) : 32 ≤ hex_digit d := by
  unfold hex_digit
  split_ifs <;> omega

theorem char_value_le (char_signed : Bool) (b : Nat) : char_value char_signed b ≤ b := by
  unfold char_value
  split_ifs <;> omega

/-- The scan passes over the escape of one byte. -/
theorem json_scan_escape_byte (char_signed : Bool) (b : Nat) (rest : List Nat) :
    json_scan ScanState.plain (json_escape_byte char_signed b ++ rest) =
      json_scan ScanState.plain rest := by
  unfold json_escape_byte
  by_cases h1 : b = 34
  · rw [if_pos h1]; rfl
  rw [if_neg h1]
  by_cases h2 : b = 92
  · rw [if_pos h2]; rfl
  rw [if_neg h2]
  by_cases h3 : b = 8
  · rw [if_pos h3]; rfl
  rw [if_neg h3]
  by_cases h4 : b = 12
  · rw [if_pos h4]; rfl
  rw [if_neg h4]
  by_cases h5 : b = 10
  · rw [if_pos h5]; rfl
  rw [if_neg h5]
  by_cases h6 : b = 13
  · rw [if_pos h6]; rfl
  rw [if_neg h6]
  by_cases h7 : b = 9
  · rw [if_pos h7]; rfl
  rw [if_neg h7]
  by_cases h8 : char_value char_signed b < 32
  · rw [if_pos h8]
    have e : cstr "\\u" ++ fmt_04x (b % 256) ++ rest =
        92 :: 117 :: hex_digit (b % 256 / 4096 % 16) :: hex_digit (b % 256 / 256 % 16) ::
          hex_digit (b % 256 / 16 % 16) :: hex_digit (b % 256 % 16) :: rest := rfl
    rw [e]
    simp only [json_scan, if_true, is_hex_hex_digit _ (Nat.mod_lt _ (by decide : 0 < 16))]
    simp
  · rw [if_neg h8]
    have hle := char_value_le char_signed b
    have h32 : ¬ b < 32 := by omega
    show json_scan ScanState.plain (b :: rest) = json_scan ScanState.plain rest
    simp only [json_scan, h2, h1, h32, if_false, or_self]

theorem json_scan_json_escape (char_signed : Bool) (s : List Nat) :
    json_scan ScanState.plain (json_escape char_signed s) = true := by
  induction s with
  | nil => rfl
  | cons b bs ih =>
    rw [json_escape, json_scan_escape_byte]
    exact ih

theorem json_escape_byte_ge (char_signed : Bool) (b : Nat) :
    ∀ x ∈ json_escape_byte char_signed b, 32 ≤ x := by
  intro x hx
  unfold json_escape_byte at hx
  split_ifs at hx with h1 h2 h3 h4 h5 h6 h7 h8
  · exact (by decide : ∀ y ∈ cstr "\\\"", 32 ≤ y) x hx
  · exact (by decide : ∀ y ∈ cstr "\\\\", 32 ≤ y) x hx
  · exact (by decide : ∀ y ∈ cstr "\\b", 32 ≤ y) x hx
  · exact (by decide : ∀ y ∈ cstr "\\f", 32 ≤ y) x hx
  · exact (by decide : ∀ y ∈ cstr "\\n", 32 ≤ y) x hx
  · exact (by decide : ∀ y ∈ cstr "\\r", 32 ≤ y) x hx
  · exact (by decide : ∀ y ∈ cstr "\\t", 32 ≤ y) x hx
  · rcases List.mem_append.1 hx with hx | hx
    · exact (by decide : ∀ y ∈ cstr "\\u", 32 ≤ y) x hx
    · simp only [fmt_04x, List.mem_cons, List.mem_singleton, List.not_mem_nil, or_false] at hx
      rcases hx with rfl | rfl | rfl | rfl <;> exact hex_digit_ge _
  · have : x = b := by simpa using hx
    subst this
    have hle := char_value_le char_signed x
    omega

/-- C25: for every string, `print_json_string` writes a double quote, a text
and a double quote, where the text has no byte below 0x20 and passes the scan
of a JSON string token: every backslash starts one of the escapes `\"`, `\\`,
`\b`, `\f`, `\n`, `\r`, `\t` or `\u` with four hexadecimal digits, and no
double quote stands outside an escape. -/
theorem print_json_string_token (char_signed : Bool) (s : List Nat) :
    ∃ inner, print_json_string char_signed (some s) = [0x22] ++ inner ++ [0x22] ∧
      inner = json_escape char_signed s ∧
      (∀ x ∈ inner, 0x20 ≤ x) ∧
      json_scan ScanState.plain inner = true := by
  refine ⟨json_escape char_signed s, rfl, rfl, ?_, json_scan_json_escape char_signed s⟩
  induction s with
  | nil => intro x hx; simp [json_escape] at hx
  | cons b bs ih =>
    intro x hx
    rcases List.mem_append.1 hx with hx | hx
    · exact json_escape_byte_ge char_signed b x hx
    · exact ih x hx

/-! ## Blocks that do not fit the record buffer -/

theorem block_length_le {bs : List (List Nat × List Nat)} {p : List Nat × List Nat}
    (hp : p ∈ bs) : p.2.length ≤ (blocks_text bs).length := by
  induction bs with
  | nil => simp at hp
  | cons q bs ih =>
    simp only [blocks_text, List.length_append]
    rcases List.mem_cons.1 hp with rfl | hp
    · omega
    · have := ih hp
      omega

/-- The output for a section of closed blocks of any size: for a body with
result code 0, shorter than 2^64 bytes, whose text between the first
`<resultItems>` and the first `</resultItems>`, which does not occur earlier,
is a run of closed blocks, the array holds the objects of the blocks whose
inner text is shorter than 4096 bytes, in order and separated by single commas.
-/
theorem list_result_blocks_layout (char_signed : Bool) (body head tl sep_last : List Nat)
    (bs : List (List Nat × List Nat))
    (hcode : parse_result_code body = 0)
    (hbody : body = head ++ (cstr "<resultItems>" ++
      ((blocks_text bs ++ sep_last) ++ (cstr "</resultItems>" ++ tl))))
    (hopen : ¬ cstr "<resultItems>" <:+: head)
    (hclose : ¬ cstr "</resultItems>" <:+:
      head ++ (cstr "<resultItems>" ++ (blocks_text bs ++ sep_last)))
    (hbs : ∀ p ∈ bs, ¬ cstr "<DNSRecordListItem>" <:+: p.1 ∧
      ¬ cstr "</DNSRecordListItem>" <:+: p.2)
    (hlast : ¬ cstr "<DNSRecordListItem>" <:+: sep_last)
    (hsize : body.length < 18446744073709551616) :
    parse_and_display_list_result char_signed (some body) =
      cstr "\x7b" ++ print_result_object char_signed 0 (parse_result_subcode body)
        (extract_xml_value body (cstr "resultText")) ++
      cstr ",\"records\":[" ++
      records_text char_signed
        ((bs.map Prod.snd).filter (fun b => decide (b.length < 4096))) ++
      cstr "]" ++ count_member body ++ cstr "\x7d\n" := by
  obtain ⟨h1, h2, h3⟩ := items_section body head (blocks_text bs ++ sep_last) tl hbody hopen hclose
  have hlenb := congrArg List.length hbody
  simp only [List.length_append] at hlenb
  have hrec : list_records char_signed body =
      records_text char_signed
        ((bs.map Prod.snd).filter (fun b => decide (b.length < 4096))) := by
    simp only [list_records, h1, h2]
    rw [record_loop_blocks char_signed body (head.length + 13 + (blocks_text bs ++ sep_last).length)
      (head.length + 13 + (blocks_text bs).length)
      (by simp only [List.length_append]; omega)
      (record_loop_stop_at_end char_signed body _ _ sep_last tl
        (by rw [← List.drop_drop, h3, List.append_assoc, List.drop_left])
        (by simp only [List.length_append]; omega) hlast)
      bs (body.length + 1) (head.length + 13) true (sep_last ++ (cstr "</resultItems>" ++ tl))
      (by rw [h3, List.append_assoc]) rfl
      (fun p hp => ⟨(hbs p hp).1, (hbs p hp).2, by have := block_length_le hp; omega⟩)
      (by simp only [List.length_append]; omega)]
    rw [loop_text_eq]
    cases (bs.map Prod.snd).filter (fun b => decide (b.length < 4096)) with
    | nil => rfl
    | cons c cs => simp
  rw [parse_and_display_list_result_eq, list_tail_of_zero char_signed hcode, hrec, hcode]
  simp only [List.append_assoc]

theorem big_block_no_lt : ∀ b ∈ big_block, b ≠ 60 := by
  intro b hb
  have := (List.mem_replicate.1 hb).2
  omega

theorem big_block_length : big_block.length = 4096 := List.length_replicate _ _

theorem parse_result_code_body_big : parse_result_code body_big = 0 := by
  have e : body_big = cstr "<resultCode>" ++ (cstr "0</resultCode>" ++ (cstr "<resultItems>" ++
      ((blocks_text [([], cstr "<HostName>a</HostName><Suspended>true</Suspended>"),
          ([], big_block),
          ([], cstr "<HostName>b</HostName><Suspended>false</Suspended>")] ++ []) ++
      (cstr "</resultItems>" ++ [])))) := rfl
  unfold parse_result_code
  rw [e, strstr_hit]
  rfl

theorem body_big_no_close : ¬ cstr "</resultItems>" <:+:
    cstr "<resultCode>0</resultCode>" ++ (cstr "<resultItems>" ++
      (blocks_text [([], cstr "<HostName>a</HostName><Suspended>true</Suspended>"),
        ([], big_block),
        ([], cstr "<HostName>b</HostName><Suspended>false</Suspended>")] ++ [])) := by
  apply not_infix_of_no_start _ (by decide)
  simp only [blocks_text, List.nil_append, List.append_nil]
  exact no_start_append (by decide) (no_start_append (by decide)
    (no_start_append (by decide) (no_start_append (by decide) (no_start_append (by decide)
    (no_start_append (by decide) (no_start_append (no_start_of_no_lt big_block_no_lt)
    (no_start_append (by decide) (no_start_append (by decide)
    (no_start_append (by decide) (by decide))))))))))

theorem body_big_length : body_big.length < 18446744073709551616 := by
  simp [body_big, blocks_text, big_block_length, cstr]

/-- The blocks of the witness that are written: the first and the third. -/
theorem body_big_written :
    [cstr "<HostName>a</HostName><Suspended>true</Suspended>", big_block,
      cstr "<HostName>b</HostName><Suspended>false</Suspended>"].filter
        (fun b => decide (b.length < 4096)) =
      [cstr "<HostName>a</HostName><Suspended>true</Suspended>",
       cstr "<HostName>b</HostName><Suspended>false</Suspended>"] := by
  simp [List.filter_cons, big_block_length, cstr]

/-! ## Reading the output back -/

theorem read_from_append (st : ReadState) (a b : List Nat) :
    read_from st (a ++ b) = read_from (read_from st a) b := by
  unfold read_from
  exact List.foldl_append _ _ _ _

theorem read_from_cons (st : ReadState) (b : Nat) (t : List Nat) :
    read_from st (b :: t) = read_from (read_step st b) t := rfl

theorem read_from_nil (st : ReadState) : read_from st [] = st := rfl

theorem Quiet.quiet_nil : Quiet [] := by
  intro items cur stack
  rw [read_from_nil, List.append_nil]

theorem Quiet.quiet_append {a b : List Nat} (ha : Quiet a) (hb : Quiet b) : Quiet (a ++ b) := by
  intro items cur stack
  rw [read_from_append, ha, hb, List.append_assoc]

theorem Quiet.closed {t : List Nat} (h : Quiet t) : Closed t :=
  fun items cur c stack => h items cur (c :: stack)

theorem Closed.closed_nested {t : List Nat} (h : Closed t) : Nested t :=
  fun items cur c d stack => h items cur c (d :: stack)

theorem Quiet.quiet_nested {t : List Nat} (h : Quiet t) : Nested t := h.closed.closed_nested

theorem Closed.closed_append {a b : List Nat} (ha : Closed a) (hb : Closed b) : Closed (a ++ b) := by
  intro items cur c stack
  rw [read_from_append, ha, hb, List.append_assoc]

theorem Nested.nested_nil : Nested [] := Quiet.quiet_nil.quiet_nested

theorem Nested.nested_append {a b : List Nat} (ha : Nested a) (hb : Nested b) : Nested (a ++ b) := by
  intro items cur c d stack
  rw [read_from_append, ha, hb, List.append_assoc]

/-- A comma inside a nested value belongs to the item being read. -/
theorem nested_comma : Nested [44] := by
  intro items cur c d stack
  rfl

/-- An object whose inside is passed through is passed through as a whole. -/
theorem closed_object {t : List Nat} (h : Nested t) : Closed (123 :: (t ++ [125])) := by
  intro items cur c stack
  rw [read_from_cons]
  have h1 : read_step (ReadState.inside items cur (c :: stack) false false) 123 =
      ReadState.inside items (cur ++ [123]) (125 :: c :: stack) false false := rfl
  rw [h1, read_from_append, h]
  simp [read_from, read_step, read_close]

/-- An array whose inside is passed through is passed through as a whole. -/
theorem closed_array {t : List Nat} (h : Nested t) : Closed (91 :: (t ++ [93])) := by
  intro items cur c stack
  rw [read_from_cons]
  have h1 : read_step (ReadState.inside items cur (c :: stack) false false) 91 =
      ReadState.inside items (cur ++ [91]) (93 :: c :: stack) false false := rfl
  rw [h1, read_from_append, h]
  simp [read_from, read_step, read_close]

/-- A text without double quote, comma, bracket or brace is passed through. -/
theorem quiet_of_bare {t : List Nat} (h : bare_text t = true) : Quiet t := by
  induction t with
  | nil => exact Quiet.quiet_nil
  | cons b bs ih =>
    intro items cur stack
    simp only [bare_text, List.all_cons, Bool.and_eq_true, Bool.not_eq_true', Bool.or_eq_false_iff,
      beq_eq_false_iff_ne, ne_eq] at h
    obtain ⟨⟨⟨⟨⟨⟨h1, h2⟩, h3⟩, h4⟩, h5⟩, h6⟩, hbs⟩ := h
    have hstep : read_step (ReadState.inside items cur stack false false) b =
        ReadState.inside items (cur ++ [b]) stack false false := by
      simp [read_step, h1, h2, h3, h4, h5, h6]
    rw [read_from_cons, hstep, ih (by simpa [bare_text] using hbs)]
    simp

/-- Inside a string, a text without double quote and backslash is passed
through. -/
theorem read_from_plain_string (s : List Nat) (hs : ∀ b ∈ s, b ≠ 34 ∧ b ≠ 92)
    (items : List (List Nat)) (cur stack : List Nat) :
    read_from (ReadState.inside items cur stack true false) s =
      ReadState.inside items (cur ++ s) stack true false := by
  induction s generalizing cur with
  | nil => simp [read_from]
  | cons b bs ih =>
    have hb := hs b (by simp)
    have hstep : read_step (ReadState.inside items cur stack true false) b =
        ReadState.inside items (cur ++ [b]) stack true false := by
      simp [read_step, hb.1, hb.2]
    rw [read_from_cons, hstep, ih (fun x hx => hs x (by simp [hx]))]
    simp

theorem hex_digit_plain (d : Nat) : hex_digit d ≠ 34 ∧ hex_digit d ≠ 92 := by
  unfold hex_digit
  split_ifs <;> omega

/-- Inside a string, the escape of one byte is passed through. -/
theorem read_from_escape_byte (char_signed : Bool) (b : Nat)
    (items : List (List Nat)) (cur stack : List Nat) :
    read_from (ReadState.inside items cur stack true false) (json_escape_byte char_signed b) =
      ReadState.inside items (cur ++ json_escape_byte char_signed b) stack true false := by
  have two : ∀ c : Nat,
      read_from (ReadState.inside items cur stack true false) [92, c] =
        ReadState.inside items (cur ++ [92, c]) stack true false := by
    intro c
    simp [read_from, read_step]
  unfold json_escape_byte
  by_cases h1 : b = 34
  · rw [if_pos h1]; exact two 34
  rw [if_neg h1]
  by_cases h2 : b = 92
  · rw [if_pos h2]; exact two 92
  rw [if_neg h2]
  by_cases h3 : b = 8
  · rw [if_pos h3]; exact two 98
  rw [if_neg h3]
  by_cases h4 : b = 12
  · rw [if_pos h4]; exact two 102
  rw [if_neg h4]
  by_cases h5 : b = 10
  · rw [if_pos h5]; exact two 110
  rw [if_neg h5]
  by_cases h6 : b = 13
  · rw [if_pos h6]; exact two 114
  rw [if_neg h6]
  by_cases h7 : b = 9
  · rw [if_pos h7]; exact two 116
  rw [if_neg h7]
  by_cases h8 : char_value char_signed b < 32
  · rw [if_pos h8]
    have e : cstr "\\u" ++ fmt_04x (b % 256) =
        [92, 117] ++ [hex_digit (b % 256 / 4096 % 16), hex_digit (b % 256 / 256 % 16),
          hex_digit (b % 256 / 16 % 16), hex_digit (b % 256 % 16)] := rfl
    rw [e, read_from_append, two 117, read_from_plain_string _ _ items _ stack, List.append_assoc]
    intro x hx
    simp only [List.mem_cons, List.mem_singleton, List.not_mem_nil, or_false] at hx
    rcases hx with rfl | rfl | rfl | rfl <;> exact hex_digit_plain _
  · rw [if_neg h8]
    exact read_from_plain_string [b] (fun x hx => by
      have : x = b := by simpa using hx
      subst this
      exact ⟨h1, h2⟩) items cur stack

/-- Inside a string, the escaped text of a string is passed through. -/
theorem read_from_json_escape (char_signed : Bool) (s : List Nat)
    (items : List (List Nat)) (cur stack : List Nat) :
    read_from (ReadState.inside items cur stack true false) (json_escape char_signed s) =
      ReadState.inside items (cur ++ json_escape char_signed s) stack true false := by
  induction s generalizing cur with
  | nil => simp [read_from, json_escape]
  | cons b bs ih =>
    rw [json_escape, read_from_append, read_from_escape_byte, ih, List.append_assoc]

/-- A string token written by `print_json_string` is passed through. -/
theorem quiet_string (char_signed : Bool) (s : List Nat) :
    Quiet (print_json_string char_signed (some s)) := by
  intro items cur stack
  have e : print_json_string char_signed (some s) =
      34 :: (json_escape char_signed s ++ [34]) := rfl
  rw [e, read_from_cons]
  have h1 : read_step (ReadState.inside items cur stack false false) 34 =
      ReadState.inside items (cur ++ [34]) stack true false := rfl
  rw [h1, read_from_append, read_from_json_escape]
  simp [read_from, read_step]

/-- The text `"key":` of a key without double quote and backslash is passed
through. -/
theorem quiet_key (key : List Nat) (hk : ∀ b ∈ key, b ≠ 34 ∧ b ≠ 92) : Quiet (key_text key) := by
  intro items cur stack
  have e : key_text key = 34 :: (key ++ [34, 58]) := by
    simp [key_text, cstr]
  rw [e, read_from_cons]
  have h1 : read_step (ReadState.inside items cur stack false false) 34 =
      ReadState.inside items (cur ++ [34]) stack true false := rfl
  rw [h1, read_from_append, read_from_plain_string key hk]
  simp [read_from, read_step]

theorem bare_fmt_d (n : Int) : bare_text (fmt_d n) = true := by
  have hu : ∀ m : Nat, bare_text (fmt_u m) = true := by
    intro m
    simp only [bare_text, List.all_eq_true]
    intro x hx
    have := fmt_u_isdigit m x hx
    simp only [isdigit, Bool.and_eq_true, decide_eq_true_eq] at this
    have h1 : x ≠ 34 := by omega
    have h2 : x ≠ 44 := by omega
    have h3 : x ≠ 91 := by omega
    have h4 : x ≠ 93 := by omega
    have h5 : x ≠ 123 := by omega
    have h6 : x ≠ 125 := by omega
    simp [h1, h2, h3, h4, h5, h6]
  unfold fmt_d
  split_ifs
  · have := hu (-n).toNat
    simp only [bare_text, List.all_cons, Bool.and_eq_true] at this ⊢
    exact ⟨by decide, this⟩
  · exact hu _

theorem quiet_fmt_d (n : Int) : Quiet (fmt_d n) := quiet_of_bare (bare_fmt_d n)

/-! ## Record objects read back -/

theorem bare_bool_text (v : List Nat) :
    bare_text (if v = cstr "true" then cstr "true" else cstr "false") = true := by
  split_ifs <;> decide

/-- A member that ends with a comma, read between the members of the text
itself, becomes an item. -/
theorem read_top_member {t : List Nat} (ht : Closed t) (hne : t ≠ [])
    (items : List (List Nat)) (c : Nat) :
    read_from (ReadState.inside items [] [c] false false) (t ++ [44]) =
      ReadState.inside (items ++ [t]) [] [c] false false := by
  rw [read_from_append, ht]
  simp [read_from, read_step, read_comma, push_item, hne]

theorem push_item_of_ne_nil (items : List (List Nat)) {cur : List Nat} (h : cur ≠ []) :
    push_item items cur = items ++ [cur] := by
  simp [push_item, h]

theorem push_item_nil (items : List (List Nat)) : push_item items [] = items := by
  simp [push_item]

theorem key_text_ne_nil (key : List Nat) : key_text key ≠ [] := by
  simp [key_text, cstr]

theorem key_text_append_ne_nil (key x : List Nat) : key_text key ++ x ≠ [] := by
  simp [key_text, cstr]

theorem string_member_eq (char_signed : Bool) (key : List Nat) (v : Option (List Nat)) :
    string_member char_signed key v =
      match v with
      | some s => (key_text key ++ print_json_string char_signed (some s)) ++ [44]
      | none => [] := by
  cases v with
  | none => rfl
  | some s =>
    simp only [string_member, key_text, List.append_assoc]
    rfl

theorem number_member_eq (key : List Nat) (v : Option (List Nat)) :
    number_member key v =
      match v with
      | some s => (key_text key ++ s) ++ [44]
      | none => [] := by
  cases v with
  | none => rfl
  | some s =>
    simp only [number_member, key_text, List.append_assoc]
    rfl

/-- A string member read between the members of a record object. -/
theorem read_string_member (char_signed : Bool) (key : List Nat)
    (hk : ∀ b ∈ key, b ≠ 34 ∧ b ≠ 92) (v : Option (List Nat))
    (items : List (List Nat)) (c : Nat) :
    read_from (ReadState.inside items [] [c] false false) (string_member char_signed key v) =
      ReadState.inside (items ++ string_item char_signed key v) [] [c] false false := by
  rw [string_member_eq]
  cases v with
  | none => simp [string_item, read_from]
  | some s =>
    exact read_top_member ((quiet_key key hk).quiet_append (quiet_string char_signed s)).closed
      (key_text_append_ne_nil _ _) items c

/-- A member whose value is written as it is, read between the members of a
record object, when the value is `bare_text`. -/
theorem read_number_member (key : List Nat) (hk : ∀ b ∈ key, b ≠ 34 ∧ b ≠ 92)
    (v : Option (List Nat)) (hv : bare_value v = true) (items : List (List Nat)) (c : Nat) :
    read_from (ReadState.inside items [] [c] false false) (number_member key v) =
      ReadState.inside (items ++ number_item key v) [] [c] false false := by
  rw [number_member_eq]
  cases v with
  | none => simp [number_item, read_from]
  | some s =>
    exact read_top_member ((quiet_key key hk).quiet_append (quiet_of_bare hv)).closed
      (key_text_append_ne_nil _ _) items c

theorem nested_string_member (char_signed : Bool) (key : List Nat)
    (hk : ∀ b ∈ key, b ≠ 34 ∧ b ≠ 92) (v : Option (List Nat)) :
    Nested (string_member char_signed key v) := by
  rw [string_member_eq]
  cases v with
  | none => exact Nested.nested_nil
  | some s =>
    exact (((quiet_key key hk).quiet_append (quiet_string char_signed s)).quiet_nested).nested_append nested_comma

theorem nested_number_member (key : List Nat) (hk : ∀ b ∈ key, b ≠ 34 ∧ b ≠ 92)
    (v : Option (List Nat)) (hv : bare_value v = true) : Nested (number_member key v) := by
  rw [number_member_eq]
  cases v with
  | none => exact Nested.nested_nil
  | some s => exact (((quiet_key key hk).quiet_append (quiet_of_bare hv)).quiet_nested).nested_append nested_comma

/-- The record object as its brace, its members and its closing brace. -/
theorem print_record_members (char_signed : Bool) (b : List Nat) :
    print_record char_signed b =
      123 :: ((string_member char_signed (cstr "domain") (extract_xml_value b (cstr "DomainName")) ++
      (string_member char_signed (cstr "host") (extract_xml_value b (cstr "HostName")) ++
      (string_member char_signed (cstr "type") (extract_xml_value b (cstr "RecordType")) ++
      (string_member char_signed (cstr "data") (extract_xml_value b (cstr "Data")) ++
      (number_member (cstr "ttl") (extract_xml_value b (cstr "TTL")) ++
      (number_member (cstr "priority") (extract_xml_value b (cstr "Priority")) ++
      (flag_member (cstr "readOnly") (extract_xml_value b (cstr "ReadOnly")) ++
      (last_flag_member (cstr "suspended") (extract_xml_value b (cstr "Suspended")) ++
      reason_member char_signed (extract_xml_value b (cstr "SuspensionReason"))))))))))
        ++ [125]) := by
  rw [print_record_layout]
  simp only [record_strings, record_reason, bool_text, flag_member, last_flag_member,
    reason_member, List.append_assoc]
  cases extract_xml_value b (cstr "ReadOnly") <;>
    cases extract_xml_value b (cstr "Suspended") <;>
    cases hr : extract_xml_value b (cstr "SuspensionReason") with
    | none => rfl
    | some v =>
      cases v with
      | nil => rfl
      | cons x xs =>
        have h1 : ((x :: xs).length > 0) = True := by simp
        have h2 : ((x :: xs) = []) = False := by simp
        simp only [h1, h2, if_true, if_false]
        rfl

theorem print_record_ne_nil (char_signed : Bool) (b : List Nat) :
    print_record char_signed b ≠ [] := by
  rw [print_record_members]
  simp

theorem nested_flag_member (key : List Nat) (hk : ∀ b ∈ key, b ≠ 34 ∧ b ≠ 92)
    (v : Option (List Nat)) : Nested (flag_member key v) := by
  cases v with
  | none => exact Nested.nested_nil
  | some s =>
    exact (((quiet_key key hk).quiet_append (quiet_of_bare (bare_bool_text s))).quiet_nested).nested_append
      nested_comma

theorem quiet_last_flag_member (key : List Nat) (hk : ∀ b ∈ key, b ≠ 34 ∧ b ≠ 92)
    (v : Option (List Nat)) : Quiet (last_flag_member key v) := by
  cases v with
  | none => exact Quiet.quiet_nil
  | some s => exact (quiet_key key hk).quiet_append (quiet_of_bare (bare_bool_text s))

theorem nested_reason_member (char_signed : Bool) (v : Option (List Nat)) :
    Nested (reason_member char_signed v) := by
  cases v with
  | none => exact Nested.nested_nil
  | some s =>
    cases s with
    | nil => exact Nested.nested_nil
    | cons x xs =>
      have e : reason_member char_signed (some (x :: xs)) =
          [44] ++ (key_text (cstr "suspensionReason") ++
            print_json_string char_signed (some (x :: xs))) := by
        simp [reason_member]
      rw [e]
      exact nested_comma.nested_append
        ((quiet_key _ (by decide)).quiet_append (quiet_string char_signed _)).quiet_nested

theorem numbers_bare_iff {b : List Nat} (h : numbers_bare b = true) :
    bare_value (extract_xml_value b (cstr "TTL")) = true ∧
      bare_value (extract_xml_value b (cstr "Priority")) = true := by
  simpa [numbers_bare] using h

/-- The record object of a block whose TTL and Priority texts are bare is
passed through by the reader, as one value, wherever a bracket is open. -/
theorem closed_print_record (char_signed : Bool) (b : List Nat) (hb : numbers_bare b = true) :
    Closed (print_record char_signed b) := by
  obtain ⟨h1, h2⟩ := numbers_bare_iff hb
  rw [print_record_members]
  apply closed_object
  exact (nested_string_member char_signed _ (by decide) _).nested_append
    ((nested_string_member char_signed _ (by decide) _).nested_append
    ((nested_string_member char_signed _ (by decide) _).nested_append
    ((nested_string_member char_signed _ (by decide) _).nested_append
    ((nested_number_member _ (by decide) _ h1).nested_append
    ((nested_number_member _ (by decide) _ h2).nested_append
    ((nested_flag_member _ (by decide) _).nested_append
    ((quiet_last_flag_member _ (by decide) _).quiet_nested.nested_append
    (nested_reason_member char_signed _))))))))

/-- The `readOnly` member read between the members of a record object. -/
theorem read_flag_member (key : List Nat) (hk : ∀ b ∈ key, b ≠ 34 ∧ b ≠ 92)
    (v : Option (List Nat)) (items : List (List Nat)) (c : Nat) :
    read_from (ReadState.inside items [] [c] false false) (flag_member key v) =
      ReadState.inside (items ++ flag_item key v) [] [c] false false := by
  cases v with
  | none => simp [flag_member, flag_item, read_from]
  | some s =>
    exact read_top_member ((quiet_key key hk).quiet_append (quiet_of_bare (bare_bool_text s))).closed
      (key_text_append_ne_nil _ _) items c

/-- The end of a record object read after its last flag: the reason member, if
any, and the closing brace. -/
theorem read_reason_member (char_signed : Bool) (v : Option (List Nat))
    (items : List (List Nat)) (cur : List Nat) :
    read_from (ReadState.inside items cur [125] false false)
        (reason_member char_signed v ++ [125]) =
      ReadState.done (push_item items cur ++ reason_item char_signed v) := by
  have hend : ∀ (its : List (List Nat)) (c : List Nat),
      read_from (ReadState.inside its c [125] false false) [125] =
        ReadState.done (push_item its c) := by
    intro its c
    simp [read_from, read_step, read_close]
  cases v with
  | none => simpa [reason_member, reason_item] using hend items cur
  | some s =>
    cases s with
    | nil => simpa [reason_member, reason_item] using hend items cur
    | cons x xs =>
      have e : reason_member char_signed (some (x :: xs)) ++ [125] =
          [44] ++ ((key_text (cstr "suspensionReason") ++
            print_json_string char_signed (some (x :: xs))) ++ [125]) := by
        simp [reason_member]
      have hcomma : read_from (ReadState.inside items cur [125] false false) [44] =
          ReadState.inside (push_item items cur) [] [125] false false := by
        simp [read_from, read_step, read_comma]
      rw [e, read_from_append, hcomma, read_from_append,
        ((quiet_key _ (by decide)).quiet_append (quiet_string char_signed _)) _ _ _, hend,
        List.nil_append, push_item_of_ne_nil _ (key_text_append_ne_nil _ _)]
      simp [reason_item]

/-- The record object of a block whose TTL and Priority texts are bare, read
back: its items are the members of `record_items`. -/
theorem top_items_print_record (char_signed : Bool) (b : List Nat)
    (hb : numbers_bare b = true) :
    top_items (print_record char_signed b) = some (record_items char_signed b) := by
  obtain ⟨h1, h2⟩ := numbers_bare_iff hb
  have hread : read_from ReadState.start (print_record char_signed b) =
      ReadState.done (record_items char_signed b) := by
    rw [print_record_members]
    simp only [List.append_assoc]
    rw [read_from_cons]
    have h0 : read_step ReadState.start 123 = ReadState.inside [] [] [125] false false := rfl
    rw [h0, read_from_append, read_string_member _ _ (by decide),
      read_from_append, read_string_member _ _ (by decide),
      read_from_append, read_string_member _ _ (by decide),
      read_from_append, read_string_member _ _ (by decide),
      read_from_append, read_number_member _ (by decide) _ h1,
      read_from_append, read_number_member _ (by decide) _ h2,
      read_from_append, read_flag_member _ (by decide),
      read_from_append, quiet_last_flag_member _ (by decide), read_reason_member]
    have hpush : ∀ (its : List (List Nat)) (v : Option (List Nat)),
        push_item its ([] ++ last_flag_member (cstr "suspended") v) =
          its ++ flag_item (cstr "suspended") v := by
      intro its v
      cases v with
      | none => simp [last_flag_member, flag_item, push_item_nil]
      | some s =>
        rw [List.nil_append]
        exact push_item_of_ne_nil _ (key_text_append_ne_nil _ _)
    rw [hpush]
    simp only [record_items, List.nil_append, List.append_assoc]
  unfold top_items
  rw [hread]

/-! ## Members by key -/

theorem member_value_nil (key : List Nat) : member_value key [] = none := rfl

/-- An item that begins with another key is passed over. -/
theorem member_value_cons_of_clash {key t : List Nat} (rest : List Nat)
    (items : List (List Nat)) (h : clash t (key_text key) = true) :
    member_value key ((t ++ rest) :: items) = member_value key items := by
  have hp : (key_text key).isPrefixOf (t ++ rest) = false := by
    rw [Bool.eq_false_iff]
    intro hp
    exact clash_not_prefix rest h (List.isPrefixOf_iff_prefix.1 hp)
  simp only [member_value, List.find?_cons, hp]

/-- The first item that begins with the key gives the value. -/
theorem member_value_cons_same (key x : List Nat) (items : List (List Nat)) :
    member_value key ((key_text key ++ x) :: items) = some x := by
  have hp : (key_text key).isPrefixOf (key_text key ++ x) = true :=
    List.isPrefixOf_iff_prefix.2 (List.prefix_append _ _)
  simp only [member_value, List.find?_cons, hp, Option.map_some', List.drop_left]

theorem member_value_append_of_none {key : List Nat} {a : List (List Nat)}
    (b : List (List Nat)) (h : member_value key a = none) :
    member_value key (a ++ b) = member_value key b := by
  simp only [member_value, Option.map_eq_none'] at h
  simp only [member_value, List.find?_append, h, Option.none_or]

theorem member_value_string_item {key key' : List Nat} (char_signed : Bool)
    (v : Option (List Nat)) (h : clash (key_text key') (key_text key) = true) :
    member_value key (string_item char_signed key' v) = none := by
  cases v with
  | none => rfl
  | some s => exact member_value_cons_of_clash _ _ h

theorem member_value_number_item {key key' : List Nat}
    (v : Option (List Nat)) (h : clash (key_text key') (key_text key) = true) :
    member_value key (number_item key' v) = none := by
  cases v with
  | none => rfl
  | some s => exact member_value_cons_of_clash _ _ h

theorem member_value_flag_item {key key' : List Nat}
    (v : Option (List Nat)) (h : clash (key_text key') (key_text key) = true) :
    member_value key (flag_item key' v) = none := by
  cases v with
  | none => rfl
  | some s => exact member_value_cons_of_clash _ _ h

theorem member_value_reason_item {key : List Nat} (char_signed : Bool)
    (v : Option (List Nat))
    (h : clash (key_text (cstr "suspensionReason")) (key_text key) = true) :
    member_value key (reason_item char_signed v) = none := by
  cases v with
  | none => rfl
  | some s =>
    cases s with
    | nil => rfl
    | cons x xs =>
      have e : reason_item char_signed (some (x :: xs)) =
          [key_text (cstr "suspensionReason") ++ print_json_string char_signed (some (x :: xs))] := by
        simp [reason_item]
      rw [e]
      exact member_value_cons_of_clash _ _ h

/-- The `readOnly` member among the members of a record object. -/
theorem member_value_readOnly (char_signed : Bool) (b : List Nat) :
    member_value (cstr "readOnly") (record_items char_signed b) =
      (extract_xml_value b (cstr "ReadOnly")).map
        (fun t => if t = cstr "true" then cstr "true" else cstr "false") := by
  unfold record_items
  rw [member_value_append_of_none _ (member_value_string_item _ _ (by decide)),
    member_value_append_of_none _ (member_value_string_item _ _ (by decide)),
    member_value_append_of_none _ (member_value_string_item _ _ (by decide)),
    member_value_append_of_none _ (member_value_string_item _ _ (by decide)),
    member_value_append_of_none _ (member_value_number_item _ (by decide)),
    member_value_append_of_none _ (member_value_number_item _ (by decide))]
  cases extract_xml_value b (cstr "ReadOnly") with
  | none =>
    rw [member_value_append_of_none _ (by rfl),
      member_value_append_of_none _ (member_value_flag_item _ (by decide)),
      member_value_reason_item _ _ (by decide)]
    rfl
  | some s => exact member_value_cons_same _ _ _

/-- The `suspended` member among the members of a record object. -/
theorem member_value_suspended (char_signed : Bool) (b : List Nat) :
    member_value (cstr "suspended") (record_items char_signed b) =
      (extract_xml_value b (cstr "Suspended")).map
        (fun t => if t = cstr "true" then cstr "true" else cstr "false") := by
  unfold record_items
  rw [member_value_append_of_none _ (member_value_string_item _ _ (by decide)),
    member_value_append_of_none _ (member_value_string_item _ _ (by decide)),
    member_value_append_of_none _ (member_value_string_item _ _ (by decide)),
    member_value_append_of_none _ (member_value_string_item _ _ (by decide)),
    member_value_append_of_none _ (member_value_number_item _ (by decide)),
    member_value_append_of_none _ (member_value_number_item _ (by decide)),
    member_value_append_of_none _ (member_value_flag_item _ (by decide))]
  cases extract_xml_value b (cstr "Suspended") with
  | none =>
    rw [member_value_append_of_none _ (by rfl), member_value_reason_item _ _ (by decide)]
    rfl
  | some s => exact member_value_cons_same _ _ _

/-- The `suspensionReason` member among the members of a record object. -/
theorem member_value_suspensionReason (char_signed : Bool) (b : List Nat) :
    member_value (cstr "suspensionReason") (record_items char_signed b) =
      match extract_xml_value b (cstr "SuspensionReason") with
      | some v => if v = [] then none else some (print_json_string char_signed (some v))
      | none => none := by
  unfold record_items
  rw [member_value_append_of_none _ (member_value_string_item _ _ (by decide)),
    member_value_append_of_none _ (member_value_string_item _ _ (by decide)),
    member_value_append_of_none _ (member_value_string_item _ _ (by decide)),
    member_value_append_of_none _ (member_value_string_item _ _ (by decide)),
    member_value_append_of_none _ (member_value_number_item _ (by decide)),
    member_value_append_of_none _ (member_value_number_item _ (by decide)),
    member_value_append_of_none _ (member_value_flag_item _ (by decide)),
    member_value_append_of_none _ (member_value_flag_item _ (by decide))]
  cases extract_xml_value b (cstr "SuspensionReason") with
  | none => rfl
  | some v =>
    cases v with
    | nil => rfl
    | cons x xs =>
      have e : reason_item char_signed (some (x :: xs)) =
          [key_text (cstr "suspensionReason") ++ print_json_string char_signed (some (x :: xs))] := by
        simp [reason_item]
      rw [e, member_value_cons_same]
      simp

/-! ## The records array read back -/

/-- The objects of blocks whose TTL and Priority texts are bare, separated by
commas, are passed through inside the array. -/
theorem nested_records_text (char_signed : Bool) (bs : List (List Nat))
    (h : ∀ b ∈ bs, numbers_bare b = true) : Nested (records_text char_signed bs) := by
  induction bs with
  | nil => exact Nested.nested_nil
  | cons b bs ih =>
    cases bs with
    | nil => exact (closed_print_record char_signed b (h b (by simp))).closed_nested
    | cons b' bs' =>
      have e : records_text char_signed (b :: b' :: bs') =
          print_record char_signed b ++ ([44] ++ records_text char_signed (b' :: bs')) := rfl
      rw [e]
      exact (closed_print_record char_signed b (h b (by simp))).closed_nested.nested_append
        (nested_comma.nested_append (ih (fun x hx => h x (by simp [hx]))))

/-- The array of the objects of blocks whose TTL and Priority texts are bare,
read item by item: one item per block, in order. -/
theorem read_records_array (char_signed : Bool) (bs : List (List Nat))
    (h : ∀ b ∈ bs, numbers_bare b = true) (items : List (List Nat)) :
    read_from (ReadState.inside items [] [93] false false)
        (records_text char_signed bs ++ [93]) =
      ReadState.done (items ++ bs.map (print_record char_signed)) := by
  have hend : ∀ (its : List (List Nat)) (c : List Nat),
      read_from (ReadState.inside its c [93] false false) [93] =
        ReadState.done (push_item its c) := by
    intro its c
    simp [read_from, read_step, read_close]
  induction bs generalizing items with
  | nil =>
    have e : records_text char_signed [] ++ [93] = [93] := rfl
    rw [e, hend]
    simp [push_item]
  | cons b bs ih =>
    have hb := closed_print_record char_signed b (h b (by simp))
    cases bs with
    | nil =>
      have e : records_text char_signed [b] ++ [93] = print_record char_signed b ++ [93] := rfl
      rw [e, read_from_append, hb, hend]
      simp [push_item, print_record_ne_nil]
    | cons b' bs' =>
      have e : records_text char_signed (b :: b' :: bs') ++ [93] =
          (print_record char_signed b ++ [44]) ++
            (records_text char_signed (b' :: bs') ++ [93]) := by
        have e0 : records_text char_signed (b :: b' :: bs') =
            print_record char_signed b ++ ([44] ++ records_text char_signed (b' :: bs')) := rfl
        rw [e0]
        simp only [List.append_assoc]
      rw [e, read_from_append, read_top_member hb (print_record_ne_nil _ _),
        ih (fun x hx => h x (by simp [hx]))]
      simp

/-- The array written for blocks whose TTL and Priority texts are bare holds
exactly one object per block, in order. -/
theorem top_items_records (char_signed : Bool) (bs : List (List Nat))
    (h : ∀ b ∈ bs, numbers_bare b = true) :
    top_items (cstr "[" ++ records_text char_signed bs ++ cstr "]") =
      some (bs.map (print_record char_signed)) := by
  have e : cstr "[" ++ records_text char_signed bs ++ cstr "]" =
      91 :: (records_text char_signed bs ++ [93]) := rfl
  unfold top_items
  rw [e, read_from_cons]
  have h0 : read_step ReadState.start 91 = ReadState.inside [] [] [93] false false := rfl
  rw [h0, read_records_array char_signed bs h]
  simp

/-! ## The blocks the loop renders -/

/-- The loop writes the objects of the blocks of `loop_blocks`. -/
theorem record_loop_eq_blocks (char_signed : Bool) (response_data : List Nat) (items_end : Nat) :
    ∀ (fuel current : Nat) (first_record : Bool),
      record_loop char_signed response_data items_end fuel current first_record =
        loop_text char_signed first_record (loop_blocks response_data items_end fuel current) := by
  intro fuel
  induction fuel with
  | zero => intro current first_record; rfl
  | succ fuel ih =>
    intro current first_record
    by_cases hlt : current < items_end
    · cases hs : strstr (response_data.drop current) (cstr "<DNSRecordListItem>") with
      | none => simp only [record_loop, loop_blocks, hlt, hs, if_true, loop_text]
      | some off_start =>
        by_cases h1 : current + off_start ≥ items_end
        · simp only [record_loop, loop_blocks, hlt, hs, h1, if_true, loop_text]
        · cases he : strstr (response_data.drop (current + off_start))
              (cstr "</DNSRecordListItem>") with
          | none => simp only [record_loop, loop_blocks, hlt, hs, h1, he, if_true, if_false, loop_text]
          | some off_end =>
            by_cases h2 : current + off_start + off_end ≥ items_end
            · simp only [record_loop, loop_blocks, hlt, hs, h1, he, h2, if_true, if_false,
                loop_text]
            · by_cases h3 : (((current + off_start + off_end : Nat) : Int) -
                  ((current + off_start + 19 : Nat) : Int)) % 18446744073709551616 < 4096
              · have hlen : ((response_data.drop (current + off_start + 19)).take
                    ((((current + off_start + off_end : Nat) : Int) -
                      ((current + off_start + 19 : Nat) : Int)) %
                        18446744073709551616).toNat).length < 4096 := by
                  have := List.length_take_le
                    ((((current + off_start + off_end : Nat) : Int) -
                      ((current + off_start + 19 : Nat) : Int)) %
                        18446744073709551616).toNat
                    (response_data.drop (current + off_start + 19))
                  omega
                simp only [record_loop, loop_blocks, hlt, hs, h1, he, h2, h3, if_true, if_false,
                  loop_text, hlen, ih, List.append_assoc]
              · simp only [record_loop, loop_blocks, hlt, hs, h1, he, h2, h3, if_true, if_false,
                  ih]
    · simp only [record_loop, loop_blocks, hlt, if_false, loop_text]

/-- Every block the loop renders is shorter than 4096 bytes. -/
theorem loop_blocks_small (response_data : List Nat) (items_end : Nat) :
    ∀ (fuel current : Nat), ∀ b ∈ loop_blocks response_data items_end fuel current,
      b.length < 4096 := by
  intro fuel
  induction fuel with
  | zero => intro current b hb; simp [loop_blocks] at hb
  | succ fuel ih =>
    intro current b hb
    by_cases hlt : current < items_end
    · cases hs : strstr (response_data.drop current) (cstr "<DNSRecordListItem>") with
      | none => simp [loop_blocks, hlt, hs] at hb
      | some off_start =>
        by_cases h1 : current + off_start ≥ items_end
        · simp [loop_blocks, hlt, hs, h1] at hb
        · cases he : strstr (response_data.drop (current + off_start))
              (cstr "</DNSRecordListItem>") with
          | none => simp only [loop_blocks, hlt, hs, h1, he, if_true, if_false] at hb; simp at hb
          | some off_end =>
            by_cases h2 : current + off_start + off_end ≥ items_end
            · simp only [loop_blocks, hlt, hs, h1, he, h2, if_true, if_false] at hb; simp at hb
            · by_cases h3 : (((current + off_start + off_end : Nat) : Int) -
                  ((current + off_start + 19 : Nat) : Int)) % 18446744073709551616 < 4096
              · simp only [loop_blocks, hlt, hs, h1, he, h2, h3, if_true, if_false,
                  List.mem_cons] at hb
                rcases hb with rfl | hb
                · have := List.length_take_le
                    ((((current + off_start + off_end : Nat) : Int) -
                      ((current + off_start + 19 : Nat) : Int)) %
                        18446744073709551616).toNat
                    (response_data.drop (current + off_start + 19))
                  omega
                · exact ih _ b hb
              · simp only [loop_blocks, hlt, hs, h1, he, h2, h3, if_true, if_false] at hb
                exact ih _ b hb
    · simp [loop_blocks, hlt] at hb

/-- The text between `[` and `]` is the comma-separated objects of the rendered
blocks. -/
theorem list_records_eq_rendered (char_signed : Bool) (body : List Nat) :
    list_records char_signed body = records_text char_signed (rendered_blocks body) := by
  unfold list_records rendered_blocks
  cases strstr body (cstr "<resultItems>") with
  | none => rfl
  | some items_start =>
    cases strstr body (cstr "</resultItems>") with
    | none => rfl
    | some items_end =>
      show record_loop char_signed body items_end (body.length + 1) (items_start + 13) true =
        records_text char_signed (loop_blocks body items_end (body.length + 1) (items_start + 13))
      rw [record_loop_eq_blocks, loop_text_all_small _ _ (loop_blocks_small _ _ _ _)]

/-! ## The document read back -/

theorem print_result_object_eq (char_signed : Bool) (rc rs : Int) (text : Option (List Nat))
    (M : List Nat) (hM : get_result_code_message rc = some M) :
    print_result_object char_signed rc rs text =
      key_text (cstr "result") ++ (123 :: ((key_text (cstr "code") ++ (fmt_d rc ++ ([44] ++
        (key_text (cstr "message") ++ (print_json_string char_signed (some M) ++ ([44] ++
        (key_text (cstr "subCode") ++ (fmt_d rs ++
        (match text with
         | some t => [44] ++ (key_text (cstr "text") ++ print_json_string char_signed (some t))
         | none => []))))))))) ++ [125])) := by
  cases text with
  | none => simp [print_result_object, hM, key_text, cstr]
  | some t => simp [print_result_object, hM, key_text, cstr]

/-- The `"result"` member is passed through by the reader as one value. -/
theorem closed_result_object (char_signed : Bool) (rc rs : Int) (text : Option (List Nat)) :
    Closed (print_result_object char_signed rc rs text) := by
  obtain ⟨M, hM, _⟩ := print_json_string_message char_signed rc
  rw [print_result_object_eq char_signed rc rs text M hM]
  apply (quiet_key _ (by decide)).closed.closed_append
  apply closed_object
  apply (quiet_key _ (by decide)).quiet_nested.nested_append
  apply (quiet_fmt_d rc).quiet_nested.nested_append
  apply nested_comma.nested_append
  apply (quiet_key _ (by decide)).quiet_nested.nested_append
  apply (quiet_string char_signed M).quiet_nested.nested_append
  apply nested_comma.nested_append
  apply (quiet_key _ (by decide)).quiet_nested.nested_append
  apply (quiet_fmt_d rs).quiet_nested.nested_append
  cases text with
  | none => exact Nested.nested_nil
  | some t =>
    exact nested_comma.nested_append
      ((quiet_key _ (by decide)).quiet_append (quiet_string char_signed t)).quiet_nested

theorem print_result_object_ne_nil (char_signed : Bool) (rc rs : Int)
    (text : Option (List Nat)) : print_result_object char_signed rc rs text ≠ [] := by
  obtain ⟨M, hM, _⟩ := print_json_string_message char_signed rc
  rw [print_result_object_eq char_signed rc rs text M hM]
  simp [key_text, cstr]

/-- A document that holds the `"result"` member alone, read back. -/
theorem top_items_result_only (char_signed : Bool) (rc rs : Int) (text : Option (List Nat)) :
    top_items (cstr "\x7b" ++ print_result_object char_signed rc rs text ++ cstr "\x7d") =
      some [print_result_object char_signed rc rs text] := by
  have e : cstr "\x7b" ++ print_result_object char_signed rc rs text ++ cstr "\x7d" =
      123 :: (print_result_object char_signed rc rs text ++ [125]) := rfl
  have h0 : read_step ReadState.start 123 = ReadState.inside [] [] [125] false false := rfl
  unfold top_items
  rw [e, read_from_cons, h0, read_from_append, closed_result_object]
  simp [read_from, read_step, read_close, push_item, print_result_object_ne_nil]

/-- The end of the list document read after the array: the `recordCount`
member, if any, and the closing brace. -/
theorem read_count_member (body : List Nat)
    (hcount : bare_value (extract_xml_value body (cstr "resultItemCount")) = true)
    (items : List (List Nat)) (cur : List Nat) :
    read_from (ReadState.inside items cur [125] false false) (count_member body ++ [125]) =
      ReadState.done (push_item items cur ++
        number_item (cstr "recordCount") (extract_xml_value body (cstr "resultItemCount"))) := by
  have hend : ∀ (its : List (List Nat)) (c : List Nat),
      read_from (ReadState.inside its c [125] false false) [125] =
        ReadState.done (push_item its c) := by
    intro its c
    simp [read_from, read_step, read_close]
  unfold count_member
  cases hx : extract_xml_value body (cstr "resultItemCount") with
  | none => simpa [number_item] using hend items cur
  | some T =>
    rw [hx] at hcount
    have e : cstr ",\"recordCount\":" ++ T ++ [125] =
        [44] ++ ((key_text (cstr "recordCount") ++ T) ++ [125]) := by
      simp [key_text, cstr]
    have hcomma : read_from (ReadState.inside items cur [125] false false) [44] =
        ReadState.inside (push_item items cur) [] [125] false false := by
      simp [read_from, read_step, read_comma]
    show read_from _ (cstr ",\"recordCount\":" ++ T ++ [125]) = _
    rw [e, read_from_append, hcomma, read_from_append,
      ((quiet_key _ (by decide)).quiet_append (quiet_of_bare hcount)) _ _ _, hend,
      List.nil_append, push_item_of_ne_nil _ (key_text_append_ne_nil _ _)]
    simp [number_item]

/-- The list document for result code 0, read back: the `"result"` member, the
`"records"` member and, when the body reports a count, the `"recordCount"`
member, provided the TTL and Priority texts of the rendered blocks and the
reported count are bare. -/
theorem top_items_list_document (char_signed : Bool) (body : List Nat)
    (rs : Int) (text : Option (List Nat))
    (hrec : ∀ b ∈ rendered_blocks body, numbers_bare b = true)
    (hcount : bare_value (extract_xml_value body (cstr "resultItemCount")) = true) :
    top_items (cstr "\x7b" ++ (print_result_object char_signed 0 rs text ++
        (cstr ",\"records\":[" ++ (list_records char_signed body ++
          (cstr "]" ++ (count_member body ++ cstr "\x7d")))))) =
      some (print_result_object char_signed 0 rs text ::
        (cstr "\"records\":[" ++ list_records char_signed body ++ cstr "]") ::
        number_item (cstr "recordCount") (extract_xml_value body (cstr "resultItemCount"))) := by
  have e : cstr "\x7b" ++ (print_result_object char_signed 0 rs text ++
        (cstr ",\"records\":[" ++ (list_records char_signed body ++
          (cstr "]" ++ (count_member body ++ cstr "\x7d"))))) =
      123 :: ((print_result_object char_signed 0 rs text ++ [44]) ++
        ((key_text (cstr "records") ++ (91 :: (list_records char_signed body ++ [93]))) ++
          (count_member body ++ [125]))) := by
    simp [key_text, cstr]
  have erec : cstr "\"records\":[" ++ list_records char_signed body ++ cstr "]" =
      key_text (cstr "records") ++ (91 :: (list_records char_signed body ++ [93])) := by
    simp [key_text, cstr]
  have hclosed : Closed (key_text (cstr "records") ++
      (91 :: (list_records char_signed body ++ [93]))) := by
    apply (quiet_key _ (by decide)).closed.closed_append
    apply closed_array
    rw [list_records_eq_rendered]
    exact nested_records_text char_signed _ hrec
  have h0 : read_step ReadState.start 123 = ReadState.inside [] [] [125] false false := rfl
  unfold top_items
  rw [e, read_from_cons, h0, read_from_append,
    read_top_member (closed_result_object char_signed 0 rs text)
      (print_result_object_ne_nil char_signed 0 rs text),
    read_from_append, hclosed, read_count_member body hcount]
  simp only [List.nil_append]
  rw [push_item_of_ne_nil _ (key_text_append_ne_nil _ _), erec]
  simp

/-- The `recordCount` member among the members of the list document. -/
theorem member_value_recordCount (char_signed : Bool) (body : List Nat)
    (rs : Int) (text : Option (List Nat)) :
    member_value (cstr "recordCount")
      (print_result_object char_signed 0 rs text ::
        (cstr "\"records\":[" ++ list_records char_signed body ++ cstr "]") ::
        number_item (cstr "recordCount") (extract_xml_value body (cstr "resultItemCount"))) =
      extract_xml_value body (cstr "resultItemCount") := by
  obtain ⟨M, hM, _⟩ := print_json_string_message char_signed 0
  have e1 : print_result_object char_signed 0 rs text =
      key_text (cstr "result") ++ (123 :: ((key_text (cstr "code") ++ (fmt_d 0 ++ ([44] ++
        (key_text (cstr "message") ++ (print_json_string char_signed (some M) ++ ([44] ++
        (key_text (cstr "subCode") ++ (fmt_d rs ++
        (match text with
         | some t => [44] ++ (key_text (cstr "text") ++ print_json_string char_signed (some t))
         | none => []))))))))) ++ [125])) :=
    print_result_object_eq char_signed 0 rs text M hM
  have e2 : cstr "\"records\":[" ++ list_records char_signed body ++ cstr "]" =
      cstr "\"records\":[" ++ (list_records char_signed body ++ cstr "]") := by
    simp only [List.append_assoc]
  rw [e1, member_value_cons_of_clash _ _ (by decide), e2,
    member_value_cons_of_clash _ _ (by decide)]
  cases extract_xml_value body (cstr "resultItemCount") with
  | none => rfl
  | some T => exact member_value_cons_same _ _ _

/-! ## JSON numbers are bare texts -/

theorem drop_digits_split (s : List Nat) :
    ∃ p, s = p ++ drop_digits s ∧ ∀ b ∈ p, isdigit b = true := by
  induction s with
  | nil => exact ⟨[], rfl, by simp⟩
  | cons c cs ih =>
    by_cases hc : isdigit c = true
    · obtain ⟨p, hp, hd⟩ := ih
      refine ⟨c :: p, ?_, ?_⟩
      · simp only [drop_digits, hc, if_true, List.cons_append]
        rw [← hp]
      · intro b hb
        rcases List.mem_cons.1 hb with rfl | hb
        · exact hc
        · exact hd b hb
    · exact ⟨[], by simp [drop_digits, hc], by simp⟩

theorem bare_of_number_bytes {s : List Nat}
    (h : ∀ b ∈ s, isdigit b = true ∨ b = 43 ∨ b = 45 ∨ b = 46 ∨ b = 69 ∨ b = 101) :
    bare_text s = true := by
  simp only [bare_text, List.all_eq_true]
  intro x hx
  have hx' := h x hx
  simp only [isdigit, Bool.and_eq_true, decide_eq_true_eq] at hx'
  have h1 : x ≠ 34 := by omega
  have h2 : x ≠ 44 := by omega
  have h3 : x ≠ 91 := by omega
  have h4 : x ≠ 93 := by omega
  have h5 : x ≠ 123 := by omega
  have h6 : x ≠ 125 := by omega
  simp [h1, h2, h3, h4, h5, h6]

theorem json_int_split {s r : List Nat} (h : json_int s = some r) :
    ∃ p, s = p ++ r ∧ ∀ b ∈ p, isdigit b = true := by
  cases s with
  | nil => simp [json_int] at h
  | cons c cs =>
    simp only [json_int] at h
    by_cases h0 : c = 48
    · rw [if_pos h0] at h
      have : cs = r := Option.some.inj h
      subst this
      exact ⟨[c], rfl, by simp [h0, isdigit]⟩
    · rw [if_neg h0] at h
      by_cases h1 : 49 ≤ c ∧ c ≤ 57
      · rw [if_pos h1] at h
        have hr : drop_digits cs = r := Option.some.inj h
        obtain ⟨p, hp, hd⟩ := drop_digits_split cs
        refine ⟨c :: p, ?_, ?_⟩
        · rw [List.cons_append, ← hr, ← hp]
        · intro b hb
          rcases List.mem_cons.1 hb with rfl | hb
          · simp only [isdigit, Bool.and_eq_true, decide_eq_true_eq]
            omega
          · exact hd b hb
      · rw [if_neg h1] at h
        exact absurd h (by simp)

theorem json_frac_split {s r : List Nat} (h : json_frac s = some r) :
    ∃ p, s = p ++ r ∧ ∀ b ∈ p, isdigit b = true ∨ b = 46 := by
  unfold json_frac at h
  split at h
  · rename_i c cs
    by_cases hc : isdigit c = true
    · rw [if_pos hc] at h
      have hr : drop_digits cs = r := Option.some.inj h
      obtain ⟨p, hp, hd⟩ := drop_digits_split cs
      refine ⟨46 :: c :: p, ?_, ?_⟩
      · rw [List.cons_append, List.cons_append, ← hr, ← hp]
      · intro b hb
        simp only [List.mem_cons] at hb
        rcases hb with rfl | rfl | hb
        · exact Or.inr rfl
        · exact Or.inl hc
        · exact Or.inl (hd b hb)
    · rw [if_neg hc] at h
      exact absurd h (by simp)
  · exact absurd h (by simp)
  · have : s = r := Option.some.inj h
    exact ⟨[], by simp [this], by simp⟩

theorem json_exp_bytes {s : List Nat} (h : json_exp s = some []) :
    ∀ b ∈ s, isdigit b = true ∨ b = 43 ∨ b = 45 ∨ b = 69 ∨ b = 101 := by
  cases s with
  | nil => simp
  | cons e rest =>
    simp only [json_exp] at h
    by_cases he : e = 101 ∨ e = 69
    · rw [if_pos he] at h
      cases rest with
      | nil => exact absurd h (by simp)
      | cons c cs =>
        simp only at h
        by_cases hc : c = 43 ∨ c = 45
        · rw [if_pos hc] at h
          cases cs with
          | nil => exact absurd h (by simp)
          | cons d ds =>
            simp only at h
            by_cases hd : isdigit d = true
            · rw [if_pos hd] at h
              obtain ⟨p, hp, hpd⟩ := drop_digits_split ds
              rw [Option.some.inj h, List.append_nil] at hp
              intro b hb
              simp only [List.mem_cons] at hb
              rcases hb with rfl | rfl | rfl | hb
              · rcases he with he | he <;> simp [he]
              · rcases hc with hc | hc <;> simp [hc]
              · exact Or.inl hd
              · rw [hp] at hb
                exact Or.inl (hpd b hb)
            · rw [if_neg hd] at h
              exact absurd h (by simp)
        · rw [if_neg hc] at h
          by_cases hd : isdigit c = true
          · rw [if_pos hd] at h
            obtain ⟨p, hp, hpd⟩ := drop_digits_split cs
            rw [Option.some.inj h, List.append_nil] at hp
            intro b hb
            simp only [List.mem_cons] at hb
            rcases hb with rfl | rfl | hb
            · rcases he with he | he <;> simp [he]
            · exact Or.inl hd
            · rw [hp] at hb
              exact Or.inl (hpd b hb)
          · rw [if_neg hd] at h
            exact absurd h (by simp)
    · rw [if_neg he] at h
      exact absurd h (by simp)

/-- Every number of the JSON grammar is a bare text. -/
theorem bare_text_of_json_number {s : List Nat} (h : is_json_number s = true) :
    bare_text s = true := by
  have key : ∀ u : List Nat,
      ((json_int u).bind json_frac |>.bind json_exp) = some [] →
      ∀ b ∈ u, isdigit b = true ∨ b = 43 ∨ b = 45 ∨ b = 46 ∨ b = 69 ∨ b = 101 := by
    intro u hu
    cases h1 : json_int u with
    | none => simp [h1] at hu
    | some r1 =>
      cases h2 : json_frac r1 with
      | none => simp [h1, h2] at hu
      | some r2 =>
        have h3 : json_exp r2 = some [] := by simpa [h1, h2] using hu
        obtain ⟨p1, e1, d1⟩ := json_int_split h1
        obtain ⟨p2, e2, d2⟩ := json_frac_split h2
        have d3 := json_exp_bytes h3
        intro b hb
        rw [e1, e2] at hb
        rcases List.mem_append.1 hb with hb | hb
        · exact Or.inl (d1 b hb)
        · rcases List.mem_append.1 hb with hb | hb
          · rcases d2 b hb with h | h
            · exact Or.inl h
            · exact Or.inr (Or.inr (Or.inr (Or.inl h)))
          · rcases d3 b hb with h | h | h | h | h
            · exact Or.inl h
            · exact Or.inr (Or.inl h)
            · exact Or.inr (Or.inr (Or.inl h))
            · exact Or.inr (Or.inr (Or.inr (Or.inr (Or.inl h))))
            · exact Or.inr (Or.inr (Or.inr (Or.inr (Or.inr h))))
  apply bare_of_number_bytes
  unfold is_json_number at h
  cases s with
  | nil => simp [json_int] at h
  | cons c cs =>
    by_cases hc : c = 45
    · subst hc
      have hu : ((json_int cs).bind json_frac |>.bind json_exp) = some [] := by
        simp only at h
        split at h
        · assumption
        · exact absurd h (by simp)
      intro b hb
      rcases List.mem_cons.1 hb with rfl | hb
      · exact Or.inr (Or.inr (Or.inl rfl))
      · exact key cs hu b hb
    · have hu : ((json_int (c :: cs)).bind json_frac |>.bind json_exp) = some [] := by
        split at h
        · rename_i heq
          exact absurd (List.cons.inj heq).1 hc
        · simp only at h
          split at h
          · assumption
          · exact absurd h (by simp)
      exact key (c :: cs) hu

/-! ## The amended claims about the list document -/

/-- C11, as amended: for a body whose first resultCode element holds the `%d`
text of a 32-bit integer `c` other than 0, the list decoder writes the result
object with the code `c`, the closing brace of the document and a newline; read
back, the document has the `"result"` member and no other, so no `records`
member, whatever the body holds between `<resultItems>` and `</resultItems>`.
-/
theorem list_result_nonzero_code (char_signed : Bool) (body : List Nat) (c : Int)
    (hc : -2147483648 ≤ c ∧ c ≤ 2147483647) (h0 : c ≠ 0)
    (hx : extract_xml_value body (cstr "resultCode") = some (fmt_d c)) :
    parse_and_display_list_result char_signed (some body) =
      cstr "\x7b" ++ print_result_object char_signed c
        (parse_result_subcode body) (extract_xml_value body (cstr "resultText")) ++
      cstr "\x7d" ++ [10] ∧
    top_items (cstr "\x7b" ++ print_result_object char_signed c
        (parse_result_subcode body) (extract_xml_value body (cstr "resultText")) ++
      cstr "\x7d") =
      some [print_result_object char_signed c
        (parse_result_subcode body) (extract_xml_value body (cstr "resultText"))] := by
  have hcode := parse_result_code_of_extract hc.1 hc.2 hx
  refine ⟨?_, top_items_result_only char_signed c _ _⟩
  rw [list_result_of_nonzero_code char_signed body (by rw [hcode]; exact h0), hcode]
  simp only [List.append_assoc]
  rfl

/-- Witness for C11: result code 5 with a record block in the body. -/
theorem list_result_nonzero_code_witness :
    parse_and_display_list_result true (some body_code5) =
      cstr "\x7b" ++ print_result_object true 5
        (parse_result_subcode body_code5) (extract_xml_value body_code5 (cstr "resultText")) ++
      cstr "\x7d" ++ [10] ∧
    top_items (cstr "\x7b" ++ print_result_object true 5
        (parse_result_subcode body_code5) (extract_xml_value body_code5 (cstr "resultText")) ++
      cstr "\x7d") =
      some [print_result_object true 5
        (parse_result_subcode body_code5) (extract_xml_value body_code5 (cstr "resultText"))] :=
  list_result_nonzero_code true body_code5 5 (by decide) (by decide) (by decide)

theorem records_literal : cstr ",\"records\":[" = cstr ",\"records\":" ++ cstr "[" := rfl

/-- C12, as amended: for a body with result code 0 whose text between the
first `<resultItems>` and the first `</resultItems>`, which does not occur
earlier, is a run of n blocks `<DNSRecordListItem>b</DNSRecordListItem>`
separated by text without the opening tag, each `b` without the closing tag,
shorter than 4096 bytes and with TTL and Priority texts that hold no double
quote, comma, bracket or brace, the array written by the list decoder holds
exactly n objects, in source order: read back, its items are the objects
`print_record b`, one per block, and the members of each object are those of
`record_items b`, which come from what the extractor returns on `b`. -/
theorem list_result_of_blocks (char_signed : Bool) (body head tl sep_last : List Nat)
    (bs : List (List Nat × List Nat))
    (hcode : parse_result_code body = 0)
    (hbody : body = head ++ (cstr "<resultItems>" ++
      ((blocks_text bs ++ sep_last) ++ (cstr "</resultItems>" ++ tl))))
    (hopen : ¬ cstr "<resultItems>" <:+: head)
    (hclose : ¬ cstr "</resultItems>" <:+:
      head ++ (cstr "<resultItems>" ++ (blocks_text bs ++ sep_last)))
    (hbs : ∀ p ∈ bs, ¬ cstr "<DNSRecordListItem>" <:+: p.1 ∧
      ¬ cstr "</DNSRecordListItem>" <:+: p.2 ∧ p.2.length < 4096)
    (hnum : ∀ p ∈ bs, numbers_bare p.2 = true)
    (hlast : ¬ cstr "<DNSRecordListItem>" <:+: sep_last) :
    parse_and_display_list_result char_signed (some body) =
      cstr "\x7b" ++ print_result_object char_signed 0 (parse_result_subcode body)
        (extract_xml_value body (cstr "resultText")) ++
      cstr ",\"records\":" ++ (cstr "[" ++ records_text char_signed (bs.map Prod.snd) ++ cstr "]") ++
      count_member body ++ cstr "\x7d\n" ∧
    top_items (cstr "[" ++ records_text char_signed (bs.map Prod.snd) ++ cstr "]") =
      some (bs.map (fun p => print_record char_signed p.2)) ∧
    (∀ p ∈ bs, top_items (print_record char_signed p.2) = some (record_items char_signed p.2)) := by
  have hnum' : ∀ b ∈ bs.map Prod.snd, numbers_bare b = true := by
    intro b hb
    obtain ⟨p, hp, rfl⟩ := List.mem_map.1 hb
    exact hnum p hp
  refine ⟨?_, ?_, fun p hp => top_items_print_record char_signed p.2 (hnum p hp)⟩
  · rw [list_result_small_blocks_layout char_signed body head tl sep_last bs hcode hbody hopen
      hclose hbs hlast, records_literal]
    simp only [List.append_assoc]
  · rw [top_items_records char_signed _ hnum', List.map_map]
    rfl

/-- Witness for C12: two blocks, with a blank before the first, a newline
between them and a blank after the second. -/
theorem list_result_of_blocks_witness :
    parse_and_display_list_result true (some body_two_records) =
      cstr "\x7b" ++ print_result_object true 0 (parse_result_subcode body_two_records)
        (extract_xml_value body_two_records (cstr "resultText")) ++
      cstr ",\"records\":" ++ (cstr "[" ++ records_text true
        [cstr "<DomainName>a.com</DomainName><TTL>30</TTL><Suspended>false</Suspended>",
         cstr "<HostName>www</HostName><Suspended>true</Suspended><SuspensionReason>r</SuspensionReason>"] ++
      cstr "]") ++
      count_member body_two_records ++ cstr "\x7d\n" ∧
    top_items (cstr "[" ++ records_text true
        [cstr "<DomainName>a.com</DomainName><TTL>30</TTL><Suspended>false</Suspended>",
         cstr "<HostName>www</HostName><Suspended>true</Suspended><SuspensionReason>r</SuspensionReason>"] ++
      cstr "]") =
      some [print_record true
          (cstr "<DomainName>a.com</DomainName><TTL>30</TTL><Suspended>false</Suspended>"),
        print_record true
          (cstr "<HostName>www</HostName><Suspended>true</Suspended><SuspensionReason>r</SuspensionReason>")] :=
  ⟨(list_result_of_blocks true body_two_records
    (cstr "<resultCode>0</resultCode><resultItemCount>7</resultItemCount>") [] (cstr " ")
    [(cstr " ", cstr "<DomainName>a.com</DomainName><TTL>30</TTL><Suspended>false</Suspended>"),
     (cstr "\n", cstr "<HostName>www</HostName><Suspended>true</Suspended><SuspensionReason>r</SuspensionReason>")]
    (by decide) (by decide) (by decide) (by decide) (by decide) (by decide) (by decide)).1,
   (list_result_of_blocks true body_two_records
    (cstr "<resultCode>0</resultCode><resultItemCount>7</resultItemCount>") [] (cstr " ")
    [(cstr " ", cstr "<DomainName>a.com</DomainName><TTL>30</TTL><Suspended>false</Suspended>"),
     (cstr "\n", cstr "<HostName>www</HostName><Suspended>true</Suspended><SuspensionReason>r</SuspensionReason>")]
    (by decide) (by decide) (by decide) (by decide) (by decide) (by decide) (by decide)).2.1⟩

/-- C12 as stated fails: the body has result code 0 and a section of one
block, which holds none of the three tags and is shorter than 4096 bytes, but
the TTL text of the block, printed as it is, closes the object and opens
another one: the array holds two objects. -/
theorem list_result_one_block_two_objects :
    parse_result_code body_ttl_split = 0 ∧
    ¬ cstr "<DNSRecordListItem>" <:+: block_ttl_split ∧
    ¬ cstr "</DNSRecordListItem>" <:+: block_ttl_split ∧
    ¬ cstr "</resultItems>" <:+: block_ttl_split ∧
    block_ttl_split.length < 4096 ∧
    parse_and_display_list_result true (some body_ttl_split) =
      cstr "\x7b\"result\":\x7b\"code\":0,\"message\":\"Operation successful\",\"subCode\":0\x7d,\"records\":[\x7b\"ttl\":1\x7d,\x7b\"ttl\":2,\x7d]\x7d\n" ∧
    top_items (cstr "[\x7b\"ttl\":1\x7d,\x7b\"ttl\":2,\x7d]") =
      some [cstr "\x7b\"ttl\":1\x7d", cstr "\x7b\"ttl\":2,\x7d"] := by
  decide

/-- C19, as amended: for a body with result code 0 whose `<resultItems>`
section, no `</resultItems>` occurring before it ends, is a run of k closed
blocks shorter than 4096 bytes, with TTL and Priority texts that hold no double
quote, comma, bracket or brace, followed by a block that is opened and not
closed before `</resultItems>`, the list decoder completes: it writes the array
with exactly the k objects of the closed blocks, in order, closes the array
and the document, and the loop ends with any fuel above the length of the
body. -/
theorem list_result_truncated_block (char_signed : Bool)
    (body head tl sep junk : List Nat) (bs : List (List Nat × List Nat))
    (hcode : parse_result_code body = 0)
    (hbody : body = head ++ (cstr "<resultItems>" ++
      ((blocks_text bs ++ (sep ++ (cstr "<DNSRecordListItem>" ++ junk))) ++
        (cstr "</resultItems>" ++ tl))))
    (hopen : ¬ cstr "<resultItems>" <:+: head)
    (hclose : ¬ cstr "</resultItems>" <:+:
      head ++ (cstr "<resultItems>" ++
        (blocks_text bs ++ (sep ++ (cstr "<DNSRecordListItem>" ++ junk)))))
    (hbs : ∀ p ∈ bs, ¬ cstr "<DNSRecordListItem>" <:+: p.1 ∧
      ¬ cstr "</DNSRecordListItem>" <:+: p.2 ∧ p.2.length < 4096)
    (hnum : ∀ p ∈ bs, numbers_bare p.2 = true)
    (hsep : ¬ cstr "<DNSRecordListItem>" <:+: sep)
    (hjunk : ¬ cstr "</DNSRecordListItem>" <:+: junk) :
    parse_and_display_list_result char_signed (some body) =
      cstr "\x7b" ++ print_result_object char_signed 0 (parse_result_subcode body)
        (extract_xml_value body (cstr "resultText")) ++
      cstr ",\"records\":" ++ (cstr "[" ++ records_text char_signed (bs.map Prod.snd) ++ cstr "]") ++
      count_member body ++ cstr "\x7d\n" ∧
    top_items (cstr "[" ++ records_text char_signed (bs.map Prod.snd) ++ cstr "]") =
      some (bs.map (fun p => print_record char_signed p.2)) ∧
    (∀ fuel, body.length < fuel →
      record_loop char_signed body
        (head.length + 13 + (blocks_text bs ++ (sep ++ (cstr "<DNSRecordListItem>" ++ junk))).length)
        fuel (head.length + 13) true = records_text char_signed (bs.map Prod.snd)) := by
  have hnum' : ∀ b ∈ bs.map Prod.snd, numbers_bare b = true := by
    intro b hb
    obtain ⟨p, hp, rfl⟩ := List.mem_map.1 hb
    exact hnum p hp
  obtain ⟨hout, hfuel⟩ := list_result_truncated_layout char_signed body head tl sep junk bs
    hcode hbody hopen hclose hbs hsep hjunk
  refine ⟨?_, ?_, hfuel⟩
  · rw [hout, records_literal]
    simp only [List.append_assoc]
  · rw [top_items_records char_signed _ hnum', List.map_map]
    rfl

/-- Witness for C19: one closed block, then an opened block whose closing tag
comes only after `</resultItems>`. -/
theorem list_result_truncated_block_witness :
    parse_and_display_list_result true (some body_truncated) =
      cstr "\x7b" ++ print_result_object true 0 (parse_result_subcode body_truncated)
        (extract_xml_value body_truncated (cstr "resultText")) ++
      cstr ",\"records\":" ++ (cstr "[" ++ records_text true
        [cstr "<HostName>www</HostName><Suspended>true</Suspended>"] ++ cstr "]") ++
      count_member body_truncated ++ cstr "\x7d\n" ∧
    top_items (cstr "[" ++ records_text true
        [cstr "<HostName>www</HostName><Suspended>true</Suspended>"] ++ cstr "]") =
      some [print_record true (cstr "<HostName>www</HostName><Suspended>true</Suspended>")] :=
  ⟨(list_result_truncated_block true body_truncated (cstr "<resultCode>0</resultCode>")
    (cstr "</DNSRecordListItem>") [] (cstr "<HostName>ftp</HostName>")
    [([], cstr "<HostName>www</HostName><Suspended>true</Suspended>")]
    (by decide) (by decide) (by decide) (by decide) (by decide) (by decide) (by decide)
    (by decide)).1,
   (list_result_truncated_block true body_truncated (cstr "<resultCode>0</resultCode>")
    (cstr "</DNSRecordListItem>") [] (cstr "<HostName>ftp</HostName>")
    [([], cstr "<HostName>www</HostName><Suspended>true</Suspended>")]
    (by decide) (by decide) (by decide) (by decide) (by decide) (by decide) (by decide)
    (by decide)).2.1⟩

/-- C19 as stated fails: the section holds one closed block shorter than 4096
bytes followed by a block that is opened and not closed, but the TTL text of
the closed block, printed as it is, closes the object and opens another one:
the array holds two objects, not exactly the one preceding record. -/
theorem list_result_truncated_two_objects :
    parse_result_code body_truncated_split = 0 ∧
    ¬ cstr "</DNSRecordListItem>" <:+: block_ttl_split ∧
    block_ttl_split.length < 4096 ∧
    ¬ cstr "</DNSRecordListItem>" <:+: cstr "<HostName>ftp</HostName>" ∧
    parse_and_display_list_result true (some body_truncated_split) =
      cstr "\x7b\"result\":\x7b\"code\":0,\"message\":\"Operation successful\",\"subCode\":0\x7d,\"records\":[\x7b\"ttl\":1\x7d,\x7b\"ttl\":2,\x7d]\x7d\n" ∧
    top_items (cstr "[\x7b\"ttl\":1\x7d,\x7b\"ttl\":2,\x7d]") =
      some [cstr "\x7b\"ttl\":1\x7d", cstr "\x7b\"ttl\":2,\x7d"] ∧
    [block_ttl_split].length = 1 := by
  decide

/-- C26, as amended: for a body with result code 0, shorter than 2^64 bytes,
whose `<resultItems>` section, no `</resultItems>` occurring before it ends, is
a run of closed blocks, where the TTL and Priority texts of the blocks shorter
than 4096 bytes hold no double quote, comma, bracket or brace, the array
written by the list decoder holds exactly the objects of the blocks whose
inner text is shorter than 4096 bytes, in order and separated by single
commas: a block of 4096 bytes or more leaves neither an object nor a comma, the
blocks after it are still written, and the number of objects is the number of
blocks shorter than 4096 bytes. -/
theorem list_result_oversized_blocks (char_signed : Bool) (body head tl sep_last : List Nat)
    (bs : List (List Nat × List Nat))
    (hcode : parse_result_code body = 0)
    (hbody : body = head ++ (cstr "<resultItems>" ++
      ((blocks_text bs ++ sep_last) ++ (cstr "</resultItems>" ++ tl))))
    (hopen : ¬ cstr "<resultItems>" <:+: head)
    (hclose : ¬ cstr "</resultItems>" <:+:
      head ++ (cstr "<resultItems>" ++ (blocks_text bs ++ sep_last)))
    (hbs : ∀ p ∈ bs, ¬ cstr "<DNSRecordListItem>" <:+: p.1 ∧
      ¬ cstr "</DNSRecordListItem>" <:+: p.2)
    (hnum : ∀ p ∈ bs, p.2.length < 4096 → numbers_bare p.2 = true)
    (hlast : ¬ cstr "<DNSRecordListItem>" <:+: sep_last)
    (hsize : body.length < 18446744073709551616) :
    parse_and_display_list_result char_signed (some body) =
      cstr "\x7b" ++ print_result_object char_signed 0 (parse_result_subcode body)
        (extract_xml_value body (cstr "resultText")) ++
      cstr ",\"records\":" ++ (cstr "[" ++
        records_text char_signed
          ((bs.map Prod.snd).filter (fun b => decide (b.length < 4096))) ++ cstr "]") ++
      count_member body ++ cstr "\x7d\n" ∧
    top_items (cstr "[" ++
        records_text char_signed
          ((bs.map Prod.snd).filter (fun b => decide (b.length < 4096))) ++ cstr "]") =
      some (((bs.map Prod.snd).filter (fun b => decide (b.length < 4096))).map
        (print_record char_signed)) := by
  have hnum' : ∀ b ∈ (bs.map Prod.snd).filter (fun b => decide (b.length < 4096)),
      numbers_bare b = true := by
    intro b hb
    obtain ⟨hb1, hb2⟩ := List.mem_filter.1 hb
    obtain ⟨p, hp, rfl⟩ := List.mem_map.1 hb1
    exact hnum p hp (by simpa using hb2)
  refine ⟨?_, top_items_records char_signed _ hnum'⟩
  rw [list_result_blocks_layout char_signed body head tl sep_last bs hcode hbody hopen
    hclose hbs hlast hsize, records_literal]
  simp only [List.append_assoc]

/-- Witness for C26: of three blocks the second has an inner text of 4096
bytes; the objects of the first and the third are written. -/
theorem list_result_oversized_blocks_witness :
    parse_and_display_list_result true (some body_big) =
      cstr "\x7b" ++ print_result_object true 0 (parse_result_subcode body_big)
        (extract_xml_value body_big (cstr "resultText")) ++
      cstr ",\"records\":" ++ (cstr "[" ++
        records_text true
          (([(([] : List Nat), cstr "<HostName>a</HostName><Suspended>true</Suspended>"),
            ([], big_block),
            ([], cstr "<HostName>b</HostName><Suspended>false</Suspended>")].map Prod.snd).filter
              (fun b => decide (b.length < 4096))) ++ cstr "]") ++
      count_member body_big ++ cstr "\x7d\n" ∧
    top_items (cstr "[" ++
        records_text true
          (([(([] : List Nat), cstr "<HostName>a</HostName><Suspended>true</Suspended>"),
            ([], big_block),
            ([], cstr "<HostName>b</HostName><Suspended>false</Suspended>")].map Prod.snd).filter
              (fun b => decide (b.length < 4096))) ++ cstr "]") =
      some ((([(([] : List Nat), cstr "<HostName>a</HostName><Suspended>true</Suspended>"),
            ([], big_block),
            ([], cstr "<HostName>b</HostName><Suspended>false</Suspended>")].map Prod.snd).filter
              (fun b => decide (b.length < 4096))).map (print_record true)) :=
  list_result_oversized_blocks true body_big (cstr "<resultCode>0</resultCode>") [] []
    [([], cstr "<HostName>a</HostName><Suspended>true</Suspended>"),
     ([], big_block),
     ([], cstr "<HostName>b</HostName><Suspended>false</Suspended>")]
    parse_result_code_body_big rfl (by decide) body_big_no_close
    (fun p hp => by
      simp only [List.mem_cons, List.mem_singleton, List.not_mem_nil, or_false] at hp
      rcases hp with rfl | rfl | rfl
      · exact ⟨by decide, by decide⟩
      · exact ⟨by decide, not_infix_of_no_start (no_start_of_no_lt big_block_no_lt) (by decide)⟩
      · exact ⟨by decide, by decide⟩)
    (fun p hp => by
      simp only [List.mem_cons, List.mem_singleton, List.not_mem_nil, or_false] at hp
      rcases hp with rfl | rfl | rfl
      · intro _; decide
      · intro h
        rw [big_block_length] at h
        exact absurd h (by decide)
      · intro _; decide)
    (by decide) body_big_length

theorem parse_result_code_body_big_split : parse_result_code body_big_split = 0 := by
  have e : body_big_split = cstr "<resultCode>" ++ (cstr "0</resultCode>" ++ (cstr "<resultItems>" ++
      ((blocks_text [([], big_block), ([], block_ttl_split)] ++ []) ++
        (cstr "</resultItems>" ++ [])))) := rfl
  unfold parse_result_code
  rw [e, strstr_hit]
  rfl

theorem body_big_split_no_close : ¬ cstr "</resultItems>" <:+:
    cstr "<resultCode>0</resultCode>" ++ (cstr "<resultItems>" ++
      (blocks_text [([], big_block), ([], block_ttl_split)] ++ [])) := by
  apply not_infix_of_no_start _ (by decide)
  simp only [blocks_text, List.nil_append, List.append_nil]
  exact no_start_append (by decide) (no_start_append (by decide)
    (no_start_append (by decide) (no_start_append (no_start_of_no_lt big_block_no_lt)
    (no_start_append (by decide) (no_start_append (by decide)
    (no_start_append (by decide) (by decide)))))))

theorem body_big_split_length : body_big_split.length < 18446744073709551616 := by
  simp [body_big_split, blocks_text, big_block_length, block_ttl_split, cstr]

/-- C26 as stated fails: after a block of 4096 bytes, which is left out, comes
one closed block shorter than 4096 bytes whose TTL text, printed as it is,
closes the object and opens another one: the array holds two objects, while
one block is shorter than 4096 bytes. -/
theorem list_result_oversized_then_two_objects :
    parse_result_code body_big_split = 0 ∧
    ¬ cstr "</DNSRecordListItem>" <:+: block_ttl_split ∧
    [big_block, block_ttl_split].filter (fun b => decide (b.length < 4096)) = [block_ttl_split] ∧
    parse_and_display_list_result true (some body_big_split) =
      cstr "\x7b" ++ print_result_object true 0 (parse_result_subcode body_big_split)
        (extract_xml_value body_big_split (cstr "resultText")) ++
      cstr ",\"records\":[" ++ cstr "\x7b\"ttl\":1\x7d,\x7b\"ttl\":2,\x7d" ++ cstr "]" ++
      count_member body_big_split ++ cstr "\x7d\n" ∧
    top_items (cstr "[" ++ cstr "\x7b\"ttl\":1\x7d,\x7b\"ttl\":2,\x7d" ++ cstr "]") =
      some [cstr "\x7b\"ttl\":1\x7d", cstr "\x7b\"ttl\":2,\x7d"] := by
  have hf : [big_block, block_ttl_split].filter (fun b => decide (b.length < 4096)) =
      [block_ttl_split] := by
    have h1 : ¬ big_block.length < 4096 := by rw [big_block_length]; decide
    have h2 : block_ttl_split.length < 4096 := by decide
    simp [List.filter_cons, h1, h2]
  have hr : records_text true [block_ttl_split] = cstr "\x7b\"ttl\":1\x7d,\x7b\"ttl\":2,\x7d" := by
    decide
  refine ⟨parse_result_code_body_big_split, by decide, hf, ?_, by decide⟩
  have hout := list_result_blocks_layout true body_big_split (cstr "<resultCode>0</resultCode>")
    [] [] [([], big_block), ([], block_ttl_split)]
    parse_result_code_body_big_split rfl (by decide) body_big_split_no_close
    (fun p hp => by
      simp only [List.mem_cons, List.mem_singleton, List.not_mem_nil, or_false] at hp
      rcases hp with rfl | rfl
      · exact ⟨by decide, not_infix_of_no_start (no_start_of_no_lt big_block_no_lt) (by decide)⟩
      · exact ⟨by decide, by decide⟩)
    (by decide) body_big_split_length
  have hm : ([(([] : List Nat), big_block), ([], block_ttl_split)].map Prod.snd) =
      [big_block, block_ttl_split] := rfl
  rw [hm, hf, hr] at hout
  exact hout

/-- C14, as amended: for a block whose TTL and Priority texts, where present,
hold no double quote, comma, bracket or brace, the record object read back has
a `readOnly` member exactly when the extractor finds a ReadOnly element in the
block, and a `suspended` member exactly when it finds a Suspended element; the
value of the member is `true` when the text of the element is `true` and
`false` for every other text (`false`, `True`, ` true` and the empty text
shown). -/
theorem record_flags (char_signed : Bool) (b : List Nat) (hb : numbers_bare b = true) :
    (∃ items, top_items (print_record char_signed b) = some items ∧
      member_value (cstr "readOnly") items =
        (extract_xml_value b (cstr "ReadOnly")).map
          (fun t => if t = cstr "true" then cstr "true" else cstr "false") ∧
      member_value (cstr "suspended") items =
        (extract_xml_value b (cstr "Suspended")).map
          (fun t => if t = cstr "true" then cstr "true" else cstr "false") ∧
      (member_value (cstr "readOnly") items ≠ none ↔
        extract_xml_value b (cstr "ReadOnly") ≠ none) ∧
      (member_value (cstr "suspended") items ≠ none ↔
        extract_xml_value b (cstr "Suspended") ≠ none)) ∧
    print_record char_signed (cstr "<ReadOnly>true</ReadOnly><Suspended>true</Suspended>") =
      cstr "\x7b\"readOnly\":true,\"suspended\":true\x7d" ∧
    print_record char_signed (cstr "<ReadOnly>false</ReadOnly><Suspended>false</Suspended>") =
      cstr "\x7b\"readOnly\":false,\"suspended\":false\x7d" ∧
    print_record char_signed (cstr "<ReadOnly>True</ReadOnly><Suspended>TRUE</Suspended>") =
      cstr "\x7b\"readOnly\":false,\"suspended\":false\x7d" ∧
    print_record char_signed (cstr "<ReadOnly> true</ReadOnly><Suspended>true </Suspended>") =
      cstr "\x7b\"readOnly\":false,\"suspended\":false\x7d" ∧
    print_record char_signed (cstr "<ReadOnly></ReadOnly><Suspended></Suspended>") =
      cstr "\x7b\"readOnly\":false,\"suspended\":false\x7d" ∧
    print_record char_signed (cstr "<Suspended>true</Suspended>") =
      cstr "\x7b\"suspended\":true\x7d" ∧
    print_record char_signed (cstr "<ReadOnly>true</ReadOnly>") =
      cstr "\x7b\"readOnly\":true,\x7d" ∧
    print_record char_signed (cstr "<TTL>30</TTL>") = cstr "\x7b\"ttl\":30,\x7d" := by
  refine ⟨⟨record_items char_signed b, top_items_print_record char_signed b hb,
    member_value_readOnly char_signed b, member_value_suspended char_signed b, ?_, ?_⟩, ?_⟩
  · rw [member_value_readOnly]
    cases extract_xml_value b (cstr "ReadOnly") <;> simp
  · rw [member_value_suspended]
    cases extract_xml_value b (cstr "Suspended") <;> simp
  · cases char_signed <;> decide

/-- Witness for C14: a block with a TTL of 30, read-only and not suspended. -/
theorem record_flags_witness :
    ∃ items, top_items (print_record true
        (cstr "<TTL>30</TTL><ReadOnly>true</ReadOnly><Suspended>no</Suspended>")) = some items ∧
      member_value (cstr "readOnly") items =
        (extract_xml_value (cstr "<TTL>30</TTL><ReadOnly>true</ReadOnly><Suspended>no</Suspended>")
          (cstr "ReadOnly")).map
          (fun t => if t = cstr "true" then cstr "true" else cstr "false") ∧
      member_value (cstr "suspended") items =
        (extract_xml_value (cstr "<TTL>30</TTL><ReadOnly>true</ReadOnly><Suspended>no</Suspended>")
          (cstr "Suspended")).map
          (fun t => if t = cstr "true" then cstr "true" else cstr "false") ∧
      (member_value (cstr "readOnly") items ≠ none ↔
        extract_xml_value (cstr "<TTL>30</TTL><ReadOnly>true</ReadOnly><Suspended>no</Suspended>")
          (cstr "ReadOnly") ≠ none) ∧
      (member_value (cstr "suspended") items ≠ none ↔
        extract_xml_value (cstr "<TTL>30</TTL><ReadOnly>true</ReadOnly><Suspended>no</Suspended>")
          (cstr "Suspended") ≠ none) :=
  (record_flags true (cstr "<TTL>30</TTL><ReadOnly>true</ReadOnly><Suspended>no</Suspended>")
    (by decide)).1

/-- C14 as stated fails: the block has no ReadOnly element, but its TTL text,
printed as it is, holds the text of a `readOnly` member, and the record object
read back has the member `"readOnly":true`. -/
theorem record_flags_injected :
    extract_xml_value block_readonly_injected (cstr "ReadOnly") = none ∧
    print_record true block_readonly_injected =
      cstr "\x7b\"ttl\":1,\"readOnly\":true,\"suspended\":false\x7d" ∧
    top_items (print_record true block_readonly_injected) =
      some [cstr "\"ttl\":1", cstr "\"readOnly\":true", cstr "\"suspended\":false"] ∧
    member_value (cstr "readOnly")
      [cstr "\"ttl\":1", cstr "\"readOnly\":true", cstr "\"suspended\":false"] =
      some (cstr "true") := by
  decide

/-- C23, as amended: for a block whose TTL and Priority texts, where present,
hold no double quote, comma, bracket or brace, the record object read back has
a `suspensionReason` member exactly when the block has a SuspensionReason
element with a non-empty text, and its value is the string token of that text;
a block whose element is empty gives the same record object as a block without
the element that agrees with it on the other eight elements. -/
theorem record_suspension_reason (char_signed : Bool) (b : List Nat) :
    (numbers_bare b = true →
      ∃ items, top_items (print_record char_signed b) = some items ∧
        member_value (cstr "suspensionReason") items =
          (extract_xml_value b (cstr "SuspensionReason")).bind
            (fun v => if v = [] then none else some (print_json_string char_signed (some v))) ∧
        (member_value (cstr "suspensionReason") items ≠ none ↔
          ∃ v, extract_xml_value b (cstr "SuspensionReason") = some v ∧ v ≠ [])) ∧
    (∀ b' : List Nat,
      (∀ tag ∈ [cstr "DomainName", cstr "HostName", cstr "RecordType", cstr "Data", cstr "TTL",
        cstr "Priority", cstr "ReadOnly", cstr "Suspended"],
        extract_xml_value b tag = extract_xml_value b' tag) →
      extract_xml_value b (cstr "SuspensionReason") = some [] →
      extract_xml_value b' (cstr "SuspensionReason") = none →
      print_record char_signed b = print_record char_signed b') ∧
    print_record char_signed
        (cstr "<HostName>w</HostName><Suspended>true</Suspended><SuspensionReason></SuspensionReason>") =
      cstr "\x7b\"host\":\"w\",\"suspended\":true\x7d" ∧
    print_record char_signed (cstr "<HostName>w</HostName><Suspended>true</Suspended>") =
      cstr "\x7b\"host\":\"w\",\"suspended\":true\x7d" ∧
    print_record char_signed
        (cstr "<HostName>w</HostName><Suspended>true</Suspended><SuspensionReason>abuse</SuspensionReason>") =
      cstr "\x7b\"host\":\"w\",\"suspended\":true,\"suspensionReason\":\"abuse\"\x7d" := by
  have hval : member_value (cstr "suspensionReason") (record_items char_signed b) =
      (extract_xml_value b (cstr "SuspensionReason")).bind
        (fun v => if v = [] then none else some (print_json_string char_signed (some v))) := by
    rw [member_value_suspensionReason]
    cases extract_xml_value b (cstr "SuspensionReason") <;> rfl
  refine ⟨fun hb => ⟨record_items char_signed b, top_items_print_record char_signed b hb,
    hval, ?_⟩, fun b' h8 hb hb' => record_reason_empty_absent char_signed b b' h8 hb hb', ?_⟩
  · rw [hval]
    cases extract_xml_value b (cstr "SuspensionReason") with
    | none => simp
    | some v =>
      by_cases hv : v = []
      · simp [hv]
      · simp [hv]
  · cases char_signed <;> decide

/-- Witness for C23: a suspended record with a reason, and the same record with
an empty SuspensionReason element and without one. -/
theorem record_suspension_reason_witness :
    (∃ items, top_items (print_record true
        (cstr "<Suspended>true</Suspended><SuspensionReason>abuse</SuspensionReason>")) =
          some items ∧
      member_value (cstr "suspensionReason") items =
        (extract_xml_value
          (cstr "<Suspended>true</Suspended><SuspensionReason>abuse</SuspensionReason>")
          (cstr "SuspensionReason")).bind
          (fun v => if v = [] then none else some (print_json_string true (some v))) ∧
      (member_value (cstr "suspensionReason") items ≠ none ↔
        ∃ v, extract_xml_value
          (cstr "<Suspended>true</Suspended><SuspensionReason>abuse</SuspensionReason>")
          (cstr "SuspensionReason") = some v ∧ v ≠ [])) ∧
    print_record true
        (cstr "<DomainName>a.com</DomainName><Suspended>false</Suspended><SuspensionReason></SuspensionReason>") =
      print_record true (cstr "<DomainName>a.com</DomainName><Suspended>false</Suspended>") :=
  ⟨(record_suspension_reason true
      (cstr "<Suspended>true</Suspended><SuspensionReason>abuse</SuspensionReason>")).1 (by decide),
   (record_suspension_reason true
      (cstr "<DomainName>a.com</DomainName><Suspended>false</Suspended><SuspensionReason></SuspensionReason>")).2.1
      (cstr "<DomainName>a.com</DomainName><Suspended>false</Suspended>")
      (by decide) (by decide) (by decide)⟩

/-- C23 as stated fails: the block has no SuspensionReason element, but its
Priority text, printed as it is, holds the text of a `suspensionReason` member,
and the record object read back has the member `"suspensionReason":"x"`. -/
theorem record_suspension_reason_injected :
    extract_xml_value block_reason_injected (cstr "SuspensionReason") = none ∧
    print_record true block_reason_injected =
      cstr "\x7b\"priority\":1,\"suspensionReason\":\"x\",\"suspended\":true\x7d" ∧
    top_items (print_record true block_reason_injected) =
      some [cstr "\"priority\":1", cstr "\"suspensionReason\":\"x\"", cstr "\"suspended\":true"] ∧
    member_value (cstr "suspensionReason")
      [cstr "\"priority\":1", cstr "\"suspensionReason\":\"x\"", cstr "\"suspended\":true"] =
      some (cstr "\"x\"") := by
  decide

/-- C18, as amended: for a body with result code 0 in which the TTL and
Priority texts of the rendered blocks and the text of resultItemCount, where
present, hold no double quote, comma, bracket or brace, the document read back
has the `"result"` member, the `"records"` member and a `recordCount` member
exactly when the extractor finds a resultItemCount element in the body; the
value of the member is the text of the element as it is, whatever the number
of objects in the array, which holds one object per rendered block. -/
theorem list_result_record_count (char_signed : Bool) (body : List Nat)
    (hcode : parse_result_code body = 0)
    (hrec : ∀ b ∈ rendered_blocks body, numbers_bare b = true)
    (hcount : bare_value (extract_xml_value body (cstr "resultItemCount")) = true) :
    ∃ doc items,
      parse_and_display_list_result char_signed (some body) = doc ++ [10] ∧
      top_items doc = some items ∧
      items = print_result_object char_signed 0 (parse_result_subcode body)
          (extract_xml_value body (cstr "resultText")) ::
        (cstr "\"records\":[" ++ list_records char_signed body ++ cstr "]") ::
        number_item (cstr "recordCount") (extract_xml_value body (cstr "resultItemCount")) ∧
      member_value (cstr "recordCount") items =
        extract_xml_value body (cstr "resultItemCount") ∧
      top_items (cstr "[" ++ list_records char_signed body ++ cstr "]") =
        some ((rendered_blocks body).map (print_record char_signed)) := by
  refine ⟨cstr "\x7b" ++ (print_result_object char_signed 0 (parse_result_subcode body)
      (extract_xml_value body (cstr "resultText")) ++
        (cstr ",\"records\":[" ++ (list_records char_signed body ++
          (cstr "]" ++ (count_member body ++ cstr "\x7d"))))), _, ?_,
    top_items_list_document char_signed body _ _ hrec hcount, rfl,
    member_value_recordCount char_signed body _ _, ?_⟩
  · rw [parse_and_display_list_result_eq, list_tail_of_zero char_signed hcode, hcode]
    have e : cstr "\x7d\n" = cstr "\x7d" ++ [10] := rfl
    rw [e]
    simp only [List.append_assoc]
  · rw [list_records_eq_rendered]
    exact top_items_records char_signed _ hrec

/-- Witness for C18: a body that reports 7 records and holds two. -/
theorem list_result_record_count_witness :
    (∃ doc items,
      parse_and_display_list_result true (some body_two_records) = doc ++ [10] ∧
      top_items doc = some items ∧
      items = print_result_object true 0 (parse_result_subcode body_two_records)
          (extract_xml_value body_two_records (cstr "resultText")) ::
        (cstr "\"records\":[" ++ list_records true body_two_records ++ cstr "]") ::
        number_item (cstr "recordCount")
          (extract_xml_value body_two_records (cstr "resultItemCount")) ∧
      member_value (cstr "recordCount") items =
        extract_xml_value body_two_records (cstr "resultItemCount") ∧
      top_items (cstr "[" ++ list_records true body_two_records ++ cstr "]") =
        some ((rendered_blocks body_two_records).map (print_record true))) ∧
    extract_xml_value body_two_records (cstr "resultItemCount") = some (cstr "7") ∧
    (rendered_blocks body_two_records).length = 2 :=
  ⟨list_result_record_count true body_two_records (by decide) (by decide) (by decide),
    by decide, by decide⟩

/-- C18 as stated fails: the body has result code 0 and no resultItemCount
element, but the TTL text of its record, printed as it is, closes the array and
holds the text of a `recordCount` member, and the document read back has the
member `"recordCount":7`. -/
theorem list_result_record_count_injected :
    parse_result_code body_count_injected = 0 ∧
    extract_xml_value body_count_injected (cstr "resultItemCount") = none ∧
    parse_and_display_list_result true (some body_count_injected) =
      cstr "\x7b\"result\":\x7b\"code\":0,\"message\":\"Operation successful\",\"subCode\":0\x7d,\"records\":[\x7b\"ttl\":1\x7d],\"recordCount\":7,\"x\":[\x7b\"ttl\":2,\x7d]\x7d" ++ [10] ∧
    top_items (cstr "\x7b\"result\":\x7b\"code\":0,\"message\":\"Operation successful\",\"subCode\":0\x7d,\"records\":[\x7b\"ttl\":1\x7d],\"recordCount\":7,\"x\":[\x7b\"ttl\":2,\x7d]\x7d") =
      some [cstr "\"result\":\x7b\"code\":0,\"message\":\"Operation successful\",\"subCode\":0\x7d",
        cstr "\"records\":[\x7b\"ttl\":1\x7d]", cstr "\"recordCount\":7",
        cstr "\"x\":[\x7b\"ttl\":2,\x7d]"] ∧
    member_value (cstr "recordCount")
      [cstr "\"result\":\x7b\"code\":0,\"message\":\"Operation successful\",\"subCode\":0\x7d",
        cstr "\"records\":[\x7b\"ttl\":1\x7d]", cstr "\"recordCount\":7",
        cstr "\"x\":[\x7b\"ttl\":2,\x7d]"] = some (cstr "7") := by
  decide

end Gidinet
